import Mathlib

/-!
# SteamTable `Analytics`: scoring and normalisation engine

A shallow embedding of `src/Analytics.js` and theorems about it.

## Number model

A JavaScript number is modelled by `JSNum`: an exact rational, `+Infinity`,
`-Infinity` or `NaN`.  Arithmetic on finite values is exact (the rounding of
IEEE doubles and overflow of finite values are not modelled); a division by
zero yields `NaN` or an infinity as in JavaScript, the zero divisor being read
as `+0`.  Optional object fields are `Option ℚ` (absent, or a finite number).
A call that raises (a `TypeError` on a property read of `null`/`undefined`)
returns `none`.

The statistics of a price history (sum, mean, variance) are exact in
`analytics_calculateVolatilityIndex`: a mean of doubles that is one spacing off
the exact mean, or a sum that overflows, is not represented there.  The
section on double-precision arithmetic embeds the same function a second time
with every operation rounded to the nearest double
(`Float64.analytics_calculateVolatilityIndex`); the property of a constant
history, which hinges on that rounding, is stated on it.

## Collaborators that are not part of `Analytics.js`

`ANALYTICS_WEIGHTS`, `heroStats_getLatestStats`, `JSON.parse` and `Math.sqrt`
are taken as parameters, gathered in `Env`.
-/

namespace SteamTable

/-! ## JavaScript numbers -/

/-- A JavaScript number: finite (exact rational), an infinity, or NaN. -/
inductive JSNum where
  | fin (q : ℚ)
  | posInf
  | negInf
  | nan
deriving DecidableEq, Repr

namespace JSNum

instance : Coe ℚ JSNum := ⟨JSNum.fin⟩

/-- JavaScript `a + b`. -/
def add : JSNum → JSNum → JSNum
  | fin a, fin b => fin (a + b)
  | nan, _ => nan
  | _, nan => nan
  | posInf, negInf => nan
  | negInf, posInf => nan
  | posInf, _ => posInf
  | _, posInf => posInf
  | negInf, _ => negInf
  | _, negInf => negInf

/-- JavaScript unary minus. -/
def neg : JSNum → JSNum
  | fin a => fin (-a)
  | posInf => negInf
  | negInf => posInf
  | nan => nan

/-- JavaScript `a - b`. -/
def sub (a b : JSNum) : JSNum := add a (neg b)

/-- Sign-directed infinity: `+Infinity` when `positive`, `-Infinity` otherwise;
the sign of a product or quotient that is infinite. -/
def signedInf (positive : Bool) : JSNum := if positive then posInf else negInf

/-- JavaScript `a * b`. -/
def mul : JSNum → JSNum → JSNum
  | fin a, fin b => fin (a * b)
  | nan, _ => nan
  | _, nan => nan
  | fin a, posInf => if a = 0 then nan else signedInf (decide (0 < a))
  | fin a, negInf => if a = 0 then nan else signedInf (decide (a < 0))
  | posInf, fin b => if b = 0 then nan else signedInf (decide (0 < b))
  | negInf, fin b => if b = 0 then nan else signedInf (decide (b < 0))
  | posInf, posInf => posInf
  | negInf, negInf => posInf
  | posInf, negInf => negInf
  | negInf, posInf => negInf

/-- JavaScript `a / b`; a zero divisor is read as `+0`. -/
def div : JSNum → JSNum → JSNum
  | fin a, fin b =>
      if b = 0 then (if a = 0 then nan else signedInf (decide (0 < a)))
      else fin (a / b)
  | nan, _ => nan
  | _, nan => nan
  | fin _, posInf => fin 0
  | fin _, negInf => fin 0
  | posInf, fin b => signedInf (decide (0 ≤ b))
  | negInf, fin b => signedInf (decide (b < 0))
  | posInf, posInf => nan
  | posInf, negInf => nan
  | negInf, posInf => nan
  | negInf, negInf => nan

instance : Add JSNum := ⟨add⟩
instance : Sub JSNum := ⟨sub⟩
instance : Mul JSNum := ⟨mul⟩
instance : Div JSNum := ⟨div⟩

/-- JavaScript `a < b` (false as soon as one side is NaN). -/
def lt : JSNum → JSNum → Bool
  | fin a, fin b => decide (a < b)
  | nan, _ => false
  | _, nan => false
  | negInf, negInf => false
  | negInf, _ => true
  | _, negInf => false
  | posInf, _ => false
  | fin _, posInf => true

/-- JavaScript `a > b`. -/
def gt (a b : JSNum) : Bool := lt b a

/-- JavaScript `a === b` on numbers (NaN is not equal to itself). -/
def strictEq : JSNum → JSNum → Bool
  | nan, _ => false
  | _, nan => false
  | a, b => decide (a = b)

/-- JavaScript `a <= b`. -/
def le (a b : JSNum) : Bool := lt a b || strictEq a b

/-- JavaScript `a >= b`. -/
def ge (a b : JSNum) : Bool := le b a

/-- `Math.min(a, b)`: NaN as soon as one argument is NaN. -/
def min : JSNum → JSNum → JSNum
  | nan, _ => nan
  | _, nan => nan
  | a, b => if lt b a then b else a

/-- `Math.max(a, b)`: NaN as soon as one argument is NaN. -/
def max : JSNum → JSNum → JSNum
  | nan, _ => nan
  | _, nan => nan
  | a, b => if lt a b then b else a

/-- `Math.round(a)`: the nearest integer, halves rounded up. -/
def round : JSNum → JSNum
  | fin a => fin (⌊a + 1 / 2⌋ : ℤ)
  | x => x

end JSNum

/-! ## Truthiness and defaults -/

/-- The expression `x || d` for an optional numeric field `x`: the default
`d` replaces an absent field and also a present zero (zero is falsy). -/
def orDefault (x : Option ℚ) (d : ℚ) : ℚ :=
  match x with
  | some v => if v = 0 then d else v
  | none => d

/-- The test `!x` for an optional numeric value: absent or zero. -/
def falsyNum (x : Option ℚ) : Bool :=
  match x with
  | some v => decide (v = 0)
  | none => true

/-- The test `!id` for an optional hero identifier: absent or zero. -/
def falsyId (x : Option ℤ) : Bool :=
  match x with
  | some v => decide (v = 0)
  | none => true

/-- The test `!s` for an optional string: absent or empty. -/
def falsyStr (x : Option String) : Bool :=
  match x with
  | some s => decide (s = "")
  | none => true

/-! ## Data model -/

/-- The item market snapshot `itemData`; every field is optional. -/
structure ItemData where
  sold24h : Option ℚ := none
  sold7d : Option ℚ := none
  sold30d : Option ℚ := none
  offervolume : Option ℚ := none
  buyordervolume : Option ℚ := none
  hourstosold : Option ℚ := none
  pricelatest : Option ℚ := none
  pricelatestsell : Option ℚ := none
  pricelatestsell7d : Option ℚ := none
  pricelatestsell30d : Option ℚ := none
  priceavg : Option ℚ := none
  priceavg7d : Option ℚ := none
  priceavg30d : Option ℚ := none
  pricemin : Option ℚ := none
  pricemax : Option ℚ := none

/-- The price history `historyData`; its `prices` list is optional. -/
structure HistoryData where
  prices : Option (List ℚ) := none

/-- The statistics record of a hero, as read by the hero functions. -/
structure HeroStatsRecord where
  proContestRateChange7d : Option ℚ := none
  pickRateChange7d : Option ℚ := none
  pickRateChange24h : Option ℚ := none
  pickRatePercent : Option ℚ := none
  winRate : Option ℚ := none

/-- What `heroStats_getLatestStats` hands back: nothing, a structured record,
or a string that is meant to hold JSON. -/
inductive LatestStats where
  | absent
  | record (r : HeroStatsRecord)
  | text (s : String)

/-- The test `!latestStats`: absent, or the empty string. -/
def LatestStats.falsy : LatestStats → Bool
  | .absent => true
  | .record _ => false
  | .text s => decide (s = "")

/-- The weight set `ANALYTICS_WEIGHTS.INVESTMENT_SCORE`. -/
structure InvestmentWeights where
  HERO_TREND : ℚ
  VOLATILITY : ℚ
  DEMAND_RATIO : ℚ
  PRICE_MOMENTUM : ℚ
  LIQUIDITY : ℚ
  SALES_TREND : ℚ

/-- The weight set `ANALYTICS_WEIGHTS.BUYBACK_SCORE`. -/
structure BuybackWeights where
  PRICE_DROP : ℚ
  VOLATILITY : ℚ
  HERO_TREND : ℚ
  DEMAND_RATIO : ℚ
  PRICE_MOMENTUM : ℚ
  LIQUIDITY : ℚ

/-- The weight set `ANALYTICS_WEIGHTS.HERO_TREND_SCORE`. -/
structure HeroTrendWeights where
  PRO_CONTEST_RATE_CHANGE_7D : ℚ
  PICK_RATE_CHANGE_IMMORTAL_7D : ℚ
  PICK_RATE_IMMORTAL : ℚ
  WIN_RATE : ℚ

/-- The weight set `ANALYTICS_WEIGHTS.META_SIGNAL`. -/
structure MetaSignalWeights where
  PICK_RATE_CHANGE_IMMORTAL_24H : ℚ
  PRO_CONTEST_RATE_CHANGE_7D : ℚ
  PICK_RATE_CHANGE_IMMORTAL_7D : ℚ

/-- The constant `ANALYTICS_WEIGHTS`, declared outside `Analytics.js`. -/
structure AnalyticsWeights where
  INVESTMENT_SCORE : InvestmentWeights
  BUYBACK_SCORE : BuybackWeights
  HERO_TREND_SCORE : HeroTrendWeights
  META_SIGNAL : MetaSignalWeights

/-- What `Analytics.js` uses and does not define: the weight constants, the
hero statistics provider, `JSON.parse` and `Math.sqrt` on finite non-negative
arguments. `jsonParse s` is `none` when `JSON.parse(s)` throws, `some none`
when it returns `null` (the text `null`), and `some (some r)` when it returns
an object with the statistics fields of `r`; a parsed number, string, boolean
or array has none of the fields and counts as the record without fields. -/
structure Env where
  ANALYTICS_WEIGHTS : AnalyticsWeights
  heroStats_getLatestStats : Option ℤ → Option String → LatestStats
  jsonParse : String → Option (Option HeroStatsRecord)
  sqrt : ℚ → ℚ

/-- The risk tiers returned by `analytics_calculateRiskLevel`:
'Низкий', 'Средний', 'Высокий'. -/
inductive RiskLevel where
  | low
  | medium
  | high
deriving DecidableEq, Repr

/-! ## Normalisation -/

/-- Source: `analytics_normalizeToRange(value, min, max, targetMin, targetMax)`. -/
def analytics_normalizeToRange (value min max targetMin targetMax : JSNum) : JSNum :=
  if JSNum.strictEq max min then (targetMin + targetMax) / JSNum.fin 2
  else
    let normalized := ((value - min) / (max - min)) * (targetMax - targetMin) + targetMin
    JSNum.min targetMax (JSNum.max targetMin normalized)

/-- Source: `analytics_normalizeMetric(value, min, max, inverse)`. -/
def analytics_normalizeMetric (value min max : JSNum) (inverse : Bool) : JSNum :=
  if JSNum.strictEq max min then JSNum.fin (1 / 2)
  else
    let normalized := (value - min) / (max - min)
    if inverse then JSNum.fin 1 - normalized
    else JSNum.min (JSNum.fin 1) (JSNum.max (JSNum.fin 0) normalized)

/-! ## Metric functions -/

/-- Source: `analytics_calculateLiquidityScore(itemData)`. The unused
`rawScore` components of the source are left out. -/
def analytics_calculateLiquidityScore (itemData : Option ItemData) : JSNum :=
  match itemData with
  | none => JSNum.fin (1 / 2)
  | some d =>
    let sold24h : JSNum := JSNum.fin (orDefault d.sold24h 0)
    let sold7d : JSNum := JSNum.fin (orDefault d.sold7d 0)
    let offervolume : JSNum := JSNum.fin (orDefault d.offervolume 1)
    let hourstosold : JSNum := JSNum.fin (orDefault d.hourstosold 24)
    let maxSold24h : JSNum := JSNum.fin 10000
    let maxSold7d : JSNum := JSNum.fin 50000
    let normalizedSold24h := JSNum.min (sold24h / maxSold24h) (JSNum.fin 1) * JSNum.fin (35 / 100)
    let normalizedSold7d := JSNum.min (sold7d / maxSold7d) (JSNum.fin 1) * JSNum.fin (25 / 100)
    let normalizedOfferVolume :=
      (JSNum.fin 1 / (JSNum.fin 1 + offervolume / JSNum.fin 1000)) * JSNum.fin (25 / 100)
    let normalizedHoursToSold :=
      (JSNum.fin 1 / (JSNum.fin 1 + hourstosold / JSNum.fin 24)) * JSNum.fin (15 / 100)
    JSNum.min (JSNum.fin 1) (JSNum.max (JSNum.fin 0)
      (normalizedSold24h + normalizedSold7d + normalizedOfferVolume + normalizedHoursToSold))

/-- Source: `analytics_calculateDemandRatio(itemData)`. -/
def analytics_calculateDemandRatio (itemData : Option ItemData) : JSNum :=
  match itemData with
  | none => JSNum.fin (1 / 2)
  | some d =>
    let buyordervolume : JSNum := JSNum.fin (orDefault d.buyordervolume 0)
    let offervolume : JSNum := JSNum.fin (orDefault d.offervolume 1)
    let ratio := buyordervolume / (buyordervolume + offervolume + JSNum.fin 1)
    JSNum.min (JSNum.fin 1) (JSNum.max (JSNum.fin 0) ratio)

/-- Source: `analytics_calculatePriceMomentum(itemData, historyData)`. -/
def analytics_calculatePriceMomentum (itemData : Option ItemData)
    (_historyData : Option HistoryData) : JSNum :=
  match itemData with
  | none => JSNum.fin (1 / 2)
  | some d =>
    let currentPrice : ℚ := orDefault d.pricelatest (orDefault d.pricelatestsell 0)
    if currentPrice = 0 ∨ currentPrice ≤ 0 then JSNum.fin (1 / 2)
    else
      let price7d : ℚ := orDefault d.pricelatestsell7d (orDefault d.priceavg7d currentPrice)
      let price30d : ℚ := orDefault d.pricelatestsell30d (orDefault d.priceavg30d currentPrice)
      let priceavg7d : ℚ := orDefault d.priceavg7d currentPrice
      let change7d : JSNum :=
        if price7d > 0 then (JSNum.fin currentPrice - JSNum.fin price7d) / JSNum.fin price7d
        else JSNum.fin 0
      let change30d : JSNum :=
        if price30d > 0 then (JSNum.fin currentPrice - JSNum.fin price30d) / JSNum.fin price30d
        else JSNum.fin 0
      let changeAvg7d : JSNum :=
        if priceavg7d > 0 then
          (JSNum.fin currentPrice - JSNum.fin priceavg7d) / JSNum.fin priceavg7d
        else JSNum.fin 0
      let momentum := (change7d * JSNum.fin (5 / 10)) + (change30d * JSNum.fin (3 / 10))
        + (changeAvg7d * JSNum.fin (2 / 10))
      analytics_normalizeToRange momentum (JSNum.fin (-(5 / 10))) (JSNum.fin (5 / 10))
        (JSNum.fin 0) (JSNum.fin 1)

/-- Source: `analytics_calculateSalesTrend(itemData)`. -/
def analytics_calculateSalesTrend (itemData : Option ItemData) : JSNum :=
  match itemData with
  | none => JSNum.fin (1 / 2)
  | some d =>
    let sold24h : ℚ := orDefault d.sold24h 0
    let sold7d : ℚ := orDefault d.sold7d 0
    let sold30d : ℚ := orDefault d.sold30d 0
    if sold7d = 0 ∧ sold30d = 0 then JSNum.fin (1 / 2)
    else
      let trend0 : JSNum := JSNum.fin 0
      let trend1 : JSNum :=
        if sold7d > 0 then
          trend0 + ((JSNum.fin sold24h * JSNum.fin 7 - JSNum.fin sold7d) / JSNum.fin sold7d)
            * JSNum.fin (5 / 10)
        else trend0
      let trend2 : JSNum :=
        if sold30d > 0 then
          trend1 + ((JSNum.fin sold7d * JSNum.fin 4 - JSNum.fin sold30d) / JSNum.fin sold30d)
            * JSNum.fin (5 / 10)
        else trend1
      analytics_normalizeToRange trend2 (JSNum.fin (-1)) (JSNum.fin 1) (JSNum.fin 0) (JSNum.fin 1)

/-- The four local variables `minPrice`, `maxPrice`, `avgPrice`, `stdDev` of
`analytics_calculateVolatilityIndex` once they have been assigned. -/
structure PriceStats where
  minPrice : ℚ
  maxPrice : ℚ
  avgPrice : ℚ
  stdDev : ℚ

/-- The history branch of `analytics_calculateVolatilityIndex` (source lines
132-143): the statistics of the strictly positive prices, or `none` when the
four variables stay `undefined`. -/
def volatility_historyStats (sqrt : ℚ → ℚ) (historyData : Option HistoryData) :
    Option PriceStats :=
  match historyData with
  | none => none
  | some h =>
    match h.prices with
    | none => none
    | some allPrices =>
      if allPrices.length > 0 then
        let prices := allPrices.filter (fun p => decide (p > 0))
        match prices with
        | [] => none
        | p :: rest =>
          let minPrice := rest.foldl min p
          let maxPrice := rest.foldl max p
          let avgPrice := prices.foldl (fun a b => a + b) 0 / (prices.length : ℚ)
          let variance :=
            prices.foldl (fun sum price => sum + (price - avgPrice) ^ 2) 0 / (prices.length : ℚ)
          some ⟨minPrice, maxPrice, avgPrice, sqrt variance⟩
      else none

/-- The fallback branch of `analytics_calculateVolatilityIndex` (source lines
147-156), which reads the snapshot. -/
def volatility_itemStats (d : ItemData) : PriceStats :=
  let minPrice := orDefault d.pricemin 0
  let maxPrice := orDefault d.pricemax 0
  let avgPrice := orDefault d.priceavg (orDefault d.pricelatest 0)
  let stdDev := if minPrice > 0 ∧ maxPrice > 0 ∧ avgPrice > 0 then (maxPrice - minPrice) / 4 else 0
  ⟨minPrice, maxPrice, avgPrice, stdDev⟩

/-- The end of `analytics_calculateVolatilityIndex` (source lines 159-169). -/
def volatility_fromStats (st : PriceStats) : JSNum :=
  if st.avgPrice = 0 ∨ st.avgPrice ≤ 0 then JSNum.fin (1 / 2)
  else
    let rangeVolatility := (JSNum.fin st.maxPrice - JSNum.fin st.minPrice) / JSNum.fin st.avgPrice
    let stdDevVolatility := JSNum.fin st.stdDev / JSNum.fin st.avgPrice
    let volatility := (rangeVolatility * JSNum.fin (5 / 10)) + (stdDevVolatility * JSNum.fin (5 / 10))
    JSNum.min (JSNum.fin 1) (JSNum.max (JSNum.fin 0)
      (analytics_normalizeToRange volatility (JSNum.fin 0) (JSNum.fin 1) (JSNum.fin 0) (JSNum.fin 1)))

/-- The fallback test `!minPrice || !maxPrice || !avgPrice` (source line 146). -/
def volatility_needsFallback (st : Option PriceStats) : Bool :=
  match st with
  | none => true
  | some s => decide (s.minPrice = 0) || decide (s.maxPrice = 0) || decide (s.avgPrice = 0)

/-- Source: `analytics_calculateVolatilityIndex(itemData, historyData)`.
The result is `none` when the call raises: the fallback branch reads
`itemData.pricemin` while `itemData` is absent. -/
def analytics_calculateVolatilityIndex (env : Env) (itemData : Option ItemData)
    (historyData : Option HistoryData) : Option JSNum :=
  if itemData.isNone ∧ historyData.isNone then some (JSNum.fin (1 / 2))
  else
    let fromHistory := volatility_historyStats env.sqrt historyData
    if volatility_needsFallback fromHistory then
      match itemData with
      | none => none
      | some d => some (volatility_fromStats (volatility_itemStats d))
    else
      match fromHistory with
      | some st => some (volatility_fromStats st)
      | none => none

/-! ## Hero functions -/

/-- The statement `stats = typeof latestStats === 'string' ?
JSON.parse(latestStats) : latestStats` inside `try`: `none` when `JSON.parse`
throws, `some none` when `stats` is `null`, `some (some r)` when it is a
record. It is run on a truthy `latestStats` only. -/
def parseLatestStats (env : Env) : LatestStats → Option (Option HeroStatsRecord)
  | .text s => env.jsonParse s
  | .record r => some (some r)
  | .absent => some none

/-- The weights given to the pro-contest term and to the pick-rate-7d term in
`analytics_calculateHeroTrendScore` (source lines 210-216), in this order. -/
def heroTrend_effectiveWeights (weights : HeroTrendWeights) (proContestRateChange7d : ℚ) :
    ℚ × ℚ :=
  if proContestRateChange7d = 0 ∨ proContestRateChange7d = 0 then
    (0, weights.PICK_RATE_CHANGE_IMMORTAL_7D + weights.PRO_CONTEST_RATE_CHANGE_7D)
  else
    (weights.PRO_CONTEST_RATE_CHANGE_7D, weights.PICK_RATE_CHANGE_IMMORTAL_7D)

/-- The body of `analytics_calculateHeroTrendScore` after the record has been
parsed (source lines 195-224). -/
def heroTrend_fromStats (weights : HeroTrendWeights) (stats : HeroStatsRecord) : JSNum :=
  let proContestRateChange7d : ℚ := orDefault stats.proContestRateChange7d 0
  let pickRateChange7d : ℚ := orDefault stats.pickRateChange7d 0
  let pickRatePercent : ℚ := orDefault stats.pickRatePercent 0
  let winRate : ℚ := orDefault stats.winRate 0
  let proContestRateChangeNorm := analytics_normalizeToRange (JSNum.fin proContestRateChange7d)
    (JSNum.fin (-(3 / 10))) (JSNum.fin (3 / 10)) (JSNum.fin 0) (JSNum.fin 1)
  let pickRateChange7dNorm := analytics_normalizeToRange (JSNum.fin pickRateChange7d)
    (JSNum.fin (-(3 / 10))) (JSNum.fin (3 / 10)) (JSNum.fin 0) (JSNum.fin 1)
  let pickRateNorm := analytics_normalizeToRange
    ((JSNum.fin pickRatePercent - JSNum.fin 50) / JSNum.fin 50)
    (JSNum.fin (-1)) (JSNum.fin 1) (JSNum.fin 0) (JSNum.fin 1)
  let winRateNorm := analytics_normalizeToRange
    ((JSNum.fin winRate - JSNum.fin 50) / JSNum.fin 50)
    (JSNum.fin (-1)) (JSNum.fin 1) (JSNum.fin 0) (JSNum.fin 1)
  let proContestRateWeight := (heroTrend_effectiveWeights weights proContestRateChange7d).1
  let pickRateChangeWeight := (heroTrend_effectiveWeights weights proContestRateChange7d).2
  let score :=
    (proContestRateChangeNorm * JSNum.fin proContestRateWeight) +
    (pickRateChange7dNorm * JSNum.fin pickRateChangeWeight) +
    (pickRateNorm * JSNum.fin weights.PICK_RATE_IMMORTAL) +
    (winRateNorm * JSNum.fin weights.WIN_RATE)
  JSNum.min (JSNum.fin 1) (JSNum.max (JSNum.fin 0) score)

/-- Source: `analytics_calculateHeroTrendScore(heroId, rankCategory, heroStats)`.
Only the presence of `heroStats` is tested. The result is `none` when the call
raises: `stats.proContestRateChange7d` (source line 195) is read outside the
`try` while `stats` is `null`. -/
def analytics_calculateHeroTrendScore (env : Env) (heroId : Option ℤ)
    (rankCategory : Option String) (heroStats : Option Unit) : Option JSNum :=
  if falsyId heroId || heroStats.isNone then some (JSNum.fin (1 / 2))
  else
    let latestStats := env.heroStats_getLatestStats heroId rankCategory
    if latestStats.falsy then some (JSNum.fin (1 / 2))
    else
      match parseLatestStats env latestStats with
      | none => some (JSNum.fin (1 / 2))
      | some none => none
      | some (some stats) =>
        some (heroTrend_fromStats env.ANALYTICS_WEIGHTS.HERO_TREND_SCORE stats)

/-- The weights given to the pick-rate-24h term and to the pick-rate-7d term
in `analytics_calculateMetaSignal` (source lines 443-449), in this order. -/
def metaSignal_effectiveWeights (weights : MetaSignalWeights) (pickRateChange24h : ℚ) :
    ℚ × ℚ :=
  if pickRateChange24h = 0 ∨ pickRateChange24h = 0 then
    (0, weights.PICK_RATE_CHANGE_IMMORTAL_7D + weights.PICK_RATE_CHANGE_IMMORTAL_24H)
  else
    (weights.PICK_RATE_CHANGE_IMMORTAL_24H, weights.PICK_RATE_CHANGE_IMMORTAL_7D)

/-- The body of `analytics_calculateMetaSignal` after the record has been
parsed (source lines 430-457). -/
def metaSignal_fromStats (weights : MetaSignalWeights) (stats : HeroStatsRecord) : JSNum :=
  let pickRateChange24h : ℚ := orDefault stats.pickRateChange24h 0
  let proContestRateChange7d : ℚ := orDefault stats.proContestRateChange7d 0
  let pickRateChange7d : ℚ := orDefault stats.pickRateChange7d 0
  let pickRateChange24hNorm := analytics_normalizeToRange (JSNum.fin pickRateChange24h)
    (JSNum.fin (-(5 / 10))) (JSNum.fin (5 / 10)) (JSNum.fin 0) (JSNum.fin 1)
  let proContestRateChangeNorm := analytics_normalizeToRange (JSNum.fin proContestRateChange7d)
    (JSNum.fin (-(3 / 10))) (JSNum.fin (3 / 10)) (JSNum.fin 0) (JSNum.fin 1)
  let pickRateChange7dNorm := analytics_normalizeToRange (JSNum.fin pickRateChange7d)
    (JSNum.fin (-(3 / 10))) (JSNum.fin (3 / 10)) (JSNum.fin 0) (JSNum.fin 1)
  let pickRateChange24hWeight := (metaSignal_effectiveWeights weights pickRateChange24h).1
  let pickRateChange7dWeight := (metaSignal_effectiveWeights weights pickRateChange24h).2
  let score :=
    (pickRateChange24hNorm * JSNum.fin pickRateChange24hWeight) +
    (proContestRateChangeNorm * JSNum.fin weights.PRO_CONTEST_RATE_CHANGE_7D) +
    (pickRateChange7dNorm * JSNum.fin pickRateChange7dWeight)
  JSNum.round (JSNum.min (JSNum.fin 100) (JSNum.max (JSNum.fin 0) (score * JSNum.fin 100)))

/-- Source: `analytics_calculateMetaSignal(heroId, rankCategory, heroStats)`.
The result is `none` when the call raises: `stats.pickRateChange24h` (source
line 430) is read outside the `try` while `stats` is `null`. -/
def analytics_calculateMetaSignal (env : Env) (heroId : Option ℤ)
    (rankCategory : Option String) (heroStats : Option Unit) : Option JSNum :=
  if falsyId heroId || heroStats.isNone then some (JSNum.fin 0)
  else
    let latestStats := env.heroStats_getLatestStats heroId rankCategory
    if latestStats.falsy then some (JSNum.fin 0)
    else
      match parseLatestStats env latestStats with
      | none => some (JSNum.fin 0)
      | some none => none
      | some (some stats) => some (metaSignal_fromStats env.ANALYTICS_WEIGHTS.META_SIGNAL stats)

/-! ## Aggregators -/

/-- The Hero Item formula of `analytics_calculateInvestmentScore` (source
lines 257-278) on the six unit scores. -/
def investment_heroItemScore (weights : InvestmentWeights)
    (heroTrendScore volatilityIndex demandRatio priceMomentum liquidityScore salesTrend : JSNum) :
    JSNum :=
  let baseScore :=
    (heroTrendScore * JSNum.fin weights.HERO_TREND) +
    (volatilityIndex * JSNum.fin weights.VOLATILITY) +
    (demandRatio * JSNum.fin weights.DEMAND_RATIO) +
    (priceMomentum * JSNum.fin weights.PRICE_MOMENTUM) +
    (liquidityScore * JSNum.fin weights.LIQUIDITY) +
    (salesTrend * JSNum.fin weights.SALES_TREND)
  let finalScore0 := baseScore
  let finalScore1 :=
    if JSNum.gt heroTrendScore (JSNum.fin (6 / 10)) && JSNum.gt priceMomentum (JSNum.fin (5 / 10))
    then JSNum.min (JSNum.fin 1) (finalScore0 * JSNum.fin (12 / 10))
    else finalScore0
  let finalScore2 :=
    if JSNum.gt demandRatio (JSNum.fin (7 / 10)) && JSNum.gt liquidityScore (JSNum.fin (6 / 10))
    then JSNum.min (JSNum.fin 1) (finalScore1 * JSNum.fin (115 / 100))
    else finalScore1
  JSNum.round (JSNum.min (JSNum.fin 100) (JSNum.max (JSNum.fin 0) (finalScore2 * JSNum.fin 100)))

/-- The Common Item formula of `analytics_calculateInvestmentScore` (source
lines 281-288). -/
def investment_commonItemScore
    (volatilityIndex demandRatio priceMomentum liquidityScore salesTrend : JSNum) : JSNum :=
  let score := JSNum.min (JSNum.fin 1) (JSNum.max (JSNum.fin 0)
    ((volatilityIndex * JSNum.fin (30 / 100)) +
     (demandRatio * JSNum.fin (25 / 100)) +
     (priceMomentum * JSNum.fin (20 / 100)) +
     (salesTrend * JSNum.fin (15 / 100)) +
     (liquidityScore * JSNum.fin (10 / 100))))
  JSNum.round (score * JSNum.fin 100)

/-- The variable `heroTrendScore` of `analytics_calculateInvestmentScore`
(source lines 250-253): computed for a Hero Item with hero id, rank category
and hero statistics all truthy, `0.5` otherwise. -/
def investment_heroTrendScore (env : Env) (heroStats : Option Unit) (itemCategory : String)
    (heroId : Option ℤ) (rankCategory : Option String) : Option JSNum :=
  if itemCategory = "Hero Item" ∧ ¬ falsyId heroId ∧ ¬ falsyStr rankCategory
      ∧ heroStats.isSome then
    analytics_calculateHeroTrendScore env heroId rankCategory heroStats
  else some (JSNum.fin (1 / 2))

/-- The variable `heroTrendScore` of `analytics_calculateBuybackScore` (source
lines 318-321). -/
def buyback_heroTrendScore (env : Env) (heroStats : Option Unit) (heroId : Option ℤ)
    (rankCategory : Option String) : Option JSNum :=
  if ¬ falsyId heroId ∧ ¬ falsyStr rankCategory ∧ heroStats.isSome then
    analytics_calculateHeroTrendScore env heroId rankCategory heroStats
  else some (JSNum.fin (1 / 2))

/-- Source: `analytics_calculateInvestmentScore(itemData, heroStats,
historyData, itemCategory, heroId, rankCategory)`; `none` when a callee
raises. -/
def analytics_calculateInvestmentScore (env : Env) (itemData : Option ItemData)
    (heroStats : Option Unit) (historyData : Option HistoryData) (itemCategory : String)
    (heroId : Option ℤ) (rankCategory : Option String) : Option JSNum :=
  if itemData.isNone then some (JSNum.fin 50)
  else
    let weights := env.ANALYTICS_WEIGHTS.INVESTMENT_SCORE
    let liquidityScore := analytics_calculateLiquidityScore itemData
    let demandRatio := analytics_calculateDemandRatio itemData
    let priceMomentum := analytics_calculatePriceMomentum itemData historyData
    let salesTrend := analytics_calculateSalesTrend itemData
    match analytics_calculateVolatilityIndex env itemData historyData with
    | none => none
    | some volatilityIndex =>
      match investment_heroTrendScore env heroStats itemCategory heroId rankCategory with
      | none => none
      | some heroTrendScore =>
        if itemCategory = "Hero Item" then
          some (investment_heroItemScore weights heroTrendScore volatilityIndex demandRatio
            priceMomentum liquidityScore salesTrend)
        else
          some (investment_commonItemScore volatilityIndex demandRatio priceMomentum
            liquidityScore salesTrend)

/-- The weighted sum and final rounding of `analytics_calculateBuybackScore`
(source lines 327-335). -/
def buyback_score (weights : BuybackWeights)
    (priceDropNorm volatilityIndex heroTrendScore demandRatio priceMomentum liquidityScore :
      JSNum) : JSNum :=
  let score :=
    (priceDropNorm * JSNum.fin weights.PRICE_DROP) +
    (volatilityIndex * JSNum.fin weights.VOLATILITY) +
    (heroTrendScore * JSNum.fin weights.HERO_TREND) +
    (demandRatio * JSNum.fin weights.DEMAND_RATIO) +
    (priceMomentum * JSNum.fin weights.PRICE_MOMENTUM) +
    (liquidityScore * JSNum.fin weights.LIQUIDITY)
  JSNum.round (JSNum.min (JSNum.fin 100) (JSNum.max (JSNum.fin 0) (score * JSNum.fin 100)))

/-- Source: `analytics_calculateBuybackScore(itemData, heroStats, historyData,
sellPrice, currentPrice, heroId, rankCategory)`; `none` when a callee raises. -/
def analytics_calculateBuybackScore (env : Env) (itemData : Option ItemData)
    (heroStats : Option Unit) (historyData : Option HistoryData)
    (sellPrice currentPrice : Option ℚ) (heroId : Option ℤ) (rankCategory : Option String) :
    Option JSNum :=
  if itemData.isNone ∨ falsyNum sellPrice ∨ falsyNum currentPrice then some (JSNum.fin 50)
  else
    let weights := env.ANALYTICS_WEIGHTS.BUYBACK_SCORE
    let sell : JSNum := JSNum.fin (sellPrice.getD 0)
    let current : JSNum := JSNum.fin (currentPrice.getD 0)
    let priceDropPercent := (sell - current) / sell
    match analytics_calculateVolatilityIndex env itemData historyData with
    | none => none
    | some volatilityIndex =>
      let demandRatio := analytics_calculateDemandRatio itemData
      let priceMomentum := analytics_calculatePriceMomentum itemData historyData
      let liquidityScore := analytics_calculateLiquidityScore itemData
      match buyback_heroTrendScore env heroStats heroId rankCategory with
      | none => none
      | some heroTrendScore =>
        let priceDropNorm := analytics_normalizeToRange priceDropPercent
          (JSNum.fin 0) (JSNum.fin 1) (JSNum.fin 0) (JSNum.fin 1)
        some (buyback_score weights priceDropNorm volatilityIndex heroTrendScore demandRatio
          priceMomentum liquidityScore)

/-- Source: `analytics_calculateRiskLevel(investmentScore, volatilityIndex,
demandRatio)`. -/
def analytics_calculateRiskLevel (investmentScore volatilityIndex demandRatio : JSNum) :
    RiskLevel :=
  if JSNum.ge investmentScore (JSNum.fin 70) && JSNum.lt volatilityIndex (JSNum.fin (5 / 10))
      && JSNum.gt demandRatio (JSNum.fin (6 / 10)) then RiskLevel.low
  else if JSNum.ge investmentScore (JSNum.fin 50)
      && JSNum.lt volatilityIndex (JSNum.fin (7 / 10))
      && JSNum.gt demandRatio (JSNum.fin (4 / 10)) then RiskLevel.medium
  else RiskLevel.high

/-! ## Predicates used in the statements -/

/-- A finite value in the unit interval `[0, 1]`. -/
def JSNum.InUnit : JSNum → Prop
  | .fin r => 0 ≤ r ∧ r ≤ 1
  | _ => False

/-- A finite value. -/
def JSNum.IsFin : JSNum → Prop
  | .fin _ => True
  | _ => False

/-- `clamp01 x = Math.min(1, Math.max(0, x))`. -/
def JSNum.clamp01 (x : JSNum) : JSNum := JSNum.min (JSNum.fin 1) (JSNum.max (JSNum.fin 0) x)

/-! ## Further predicates, specifications and sample inputs -/

/-- Neither NaN nor `-Infinity`: a finite value or `+Infinity`. -/
def JSNum.NotNanNeg (x : JSNum) : Prop := x ≠ JSNum.nan ∧ x ≠ JSNum.negInf

/-- A sample value of `ANALYTICS_WEIGHTS`; each set sums to one. -/
def exampleWeights : AnalyticsWeights where
  INVESTMENT_SCORE := ⟨25 / 100, 20 / 100, 20 / 100, 15 / 100, 10 / 100, 10 / 100⟩
  BUYBACK_SCORE := ⟨30 / 100, 20 / 100, 20 / 100, 10 / 100, 10 / 100, 10 / 100⟩
  HERO_TREND_SCORE := ⟨30 / 100, 30 / 100, 20 / 100, 20 / 100⟩
  META_SIGNAL := ⟨50 / 100, 20 / 100, 30 / 100⟩

/-- A rational stand-in for `Math.sqrt`: one Newton step from 1, exact at 0
and at 1. -/
def exampleSqrt (x : ℚ) : ℚ := if x = 0 then 0 else (x + 1) / 2

/-- An environment whose statistics provider knows no hero. -/
def exampleEnv : Env where
  ANALYTICS_WEIGHTS := exampleWeights
  heroStats_getLatestStats := fun _ _ => LatestStats.absent
  jsonParse := fun _ => none
  sqrt := exampleSqrt

/-- A snapshot on which liquidity, demand, momentum and volatility are all
`0.5`. -/
def balancedItem : ItemData :=
  { sold24h := some 5000, sold7d := some 25000, offervolume := some 1000,
    buyordervolume := some 1001 }

/-- A hero record whose four statistics all sit at the top of their range. -/
def risingHero : HeroStatsRecord :=
  { proContestRateChange7d := some (3 / 10), pickRateChange7d := some (3 / 10),
    pickRatePercent := some 100, winRate := some 100 }

/-- An environment whose provider returns `risingHero` for every hero. -/
def heroEnv : Env where
  ANALYTICS_WEIGHTS := exampleWeights
  heroStats_getLatestStats := fun _ _ => LatestStats.record risingHero
  jsonParse := fun _ => none
  sqrt := exampleSqrt

/-- A snapshot whose latest price is twice its 7-day average. -/
def risingItem : ItemData := { pricelatest := some 2, priceavg7d := some 1 }

/-- Specification (C3): `base`, the weighted sum of the six unit scores under
the Investment weight set. -/
def spec_investmentBase (w : InvestmentWeights)
    (heroTrend volatility demand momentum liquidity salesTrend : JSNum) : JSNum :=
  heroTrend * JSNum.fin w.HERO_TREND + volatility * JSNum.fin w.VOLATILITY
    + demand * JSNum.fin w.DEMAND_RATIO + momentum * JSNum.fin w.PRICE_MOMENTUM
    + liquidity * JSNum.fin w.LIQUIDITY + salesTrend * JSNum.fin w.SALES_TREND

/-- Specification (C3): `round(100 * clamp01(f))` with
`f1 = min(1, 1.2 * base)` if `heroTrend > 0.6` and `momentum > 0.5` else
`base`, and `f = min(1, 1.15 * f1)` if `demand > 0.7` and `liquidity > 0.6`
else `f1`. -/
def spec_investmentHeroItem (w : InvestmentWeights)
    (heroTrend volatility demand momentum liquidity salesTrend : JSNum) : JSNum :=
  let base := spec_investmentBase w heroTrend volatility demand momentum liquidity salesTrend
  let f1 :=
    if JSNum.gt heroTrend (JSNum.fin (6 / 10)) && JSNum.gt momentum (JSNum.fin (5 / 10))
    then JSNum.min (JSNum.fin 1) (JSNum.fin (12 / 10) * base) else base
  let f :=
    if JSNum.gt demand (JSNum.fin (7 / 10)) && JSNum.gt liquidity (JSNum.fin (6 / 10))
    then JSNum.min (JSNum.fin 1) (JSNum.fin (115 / 100) * f1) else f1
  JSNum.round (JSNum.fin 100 * JSNum.clamp01 f)

/-- A finite non-negative value, `+Infinity` or NaN. -/
def JSNum.NonnegOrNan : JSNum → Prop
  | .fin q => 0 ≤ q
  | .posInf => True
  | .nan => True
  | .negInf => False

/-- Specification (C4): `round(100 * clamp01(0.30*volatility + 0.25*demand +
0.20*momentum + 0.15*salesTrend + 0.10*liquidity))`. -/
def spec_investmentCommonItem (volatility demand momentum salesTrend liquidity : JSNum) :
    JSNum :=
  JSNum.round (JSNum.fin 100 * JSNum.clamp01
    (JSNum.fin (30 / 100) * volatility + JSNum.fin (25 / 100) * demand
      + JSNum.fin (20 / 100) * momentum + JSNum.fin (15 / 100) * salesTrend
      + JSNum.fin (10 / 100) * liquidity))

/-- Specification (C5): `clamp(x, lo, hi)`. -/
def JSNum.clamp (x lo hi : JSNum) : JSNum := JSNum.min hi (JSNum.max lo x)

/-- Specification (C5): `round(clamp(100 * (priceDropNorm*w_PRICE_DROP +
volatility*w_VOLATILITY + heroTrend*w_HERO_TREND + demand*w_DEMAND_RATIO +
momentum*w_PRICE_MOMENTUM + liquidity*w_LIQUIDITY), 0, 100))` with
`priceDropNorm = clamp01((sellPrice - currentPrice) / sellPrice)`. -/
def spec_buyback (w : BuybackWeights) (sellPrice currentPrice : ℚ)
    (volatility heroTrend demand momentum liquidity : JSNum) : JSNum :=
  let priceDropNorm :=
    JSNum.clamp01 ((JSNum.fin sellPrice - JSNum.fin currentPrice) / JSNum.fin sellPrice)
  JSNum.round (JSNum.clamp (JSNum.fin 100 *
    (priceDropNorm * JSNum.fin w.PRICE_DROP + volatility * JSNum.fin w.VOLATILITY
      + heroTrend * JSNum.fin w.HERO_TREND + demand * JSNum.fin w.DEMAND_RATIO
      + momentum * JSNum.fin w.PRICE_MOMENTUM + liquidity * JSNum.fin w.LIQUIDITY))
    (JSNum.fin 0) (JSNum.fin 100))

/-- A hero record without pro-contest data: its 7-day pro-contest delta is a
present zero and its 24-hour pick-rate delta is absent. -/
def quietHero : HeroStatsRecord :=
  { proContestRateChange7d := some 0, pickRateChange7d := some (1 / 10),
    pickRatePercent := some 55, winRate := some 52 }

/-- An environment whose provider answers every request with the text `null`,
which `JSON.parse` reads as the value `null` without throwing. -/
def nullEnv : Env where
  ANALYTICS_WEIGHTS := exampleWeights
  heroStats_getLatestStats := fun _ _ => LatestStats.text "null"
  jsonParse := fun s => if s = "null" then some none else none
  sqrt := exampleSqrt

/-- An environment whose provider returns a string that `JSON.parse` rejects. -/
def brokenEnv : Env where
  ANALYTICS_WEIGHTS := exampleWeights
  heroStats_getLatestStats := fun _ _ => LatestStats.text "not json"
  jsonParse := fun _ => none
  sqrt := exampleSqrt

/-- The body of `analytics_calculatePriceMomentum` once `currentPrice` has been
resolved (source lines 72-88), as a function of that price. -/
def priceMomentum_withCurrent (d : ItemData) (currentPrice : ℚ) : JSNum :=
  if currentPrice = 0 ∨ currentPrice ≤ 0 then JSNum.fin (1 / 2)
  else
    let price7d : ℚ := orDefault d.pricelatestsell7d (orDefault d.priceavg7d currentPrice)
    let price30d : ℚ := orDefault d.pricelatestsell30d (orDefault d.priceavg30d currentPrice)
    let priceavg7d : ℚ := orDefault d.priceavg7d currentPrice
    let change7d : JSNum :=
      if price7d > 0 then (JSNum.fin currentPrice - JSNum.fin price7d) / JSNum.fin price7d
      else JSNum.fin 0
    let change30d : JSNum :=
      if price30d > 0 then (JSNum.fin currentPrice - JSNum.fin price30d) / JSNum.fin price30d
      else JSNum.fin 0
    let changeAvg7d : JSNum :=
      if priceavg7d > 0 then
        (JSNum.fin currentPrice - JSNum.fin priceavg7d) / JSNum.fin priceavg7d
      else JSNum.fin 0
    let momentum := (change7d * JSNum.fin (5 / 10)) + (change30d * JSNum.fin (3 / 10))
      + (changeAvg7d * JSNum.fin (2 / 10))
    analytics_normalizeToRange momentum (JSNum.fin (-(5 / 10))) (JSNum.fin (5 / 10))
      (JSNum.fin 0) (JSNum.fin 1)

/-- Specification (C20): `clamp01(0.5 + 0.5*(c-p7)/p7 + 0.3*(c-p30)/p30 +
0.2*(c-a7)/a7)`. -/
def spec_priceMomentum (c p7 p30 a7 : ℚ) : JSNum :=
  JSNum.clamp01 (JSNum.fin
    (5 / 10 + 5 / 10 * (c - p7) / p7 + 3 / 10 * (c - p30) / p30 + 2 / 10 * (c - a7) / a7))

/-- Specification (C15): `min(sold24h/10000, 1)*0.35 + min(sold7d/50000, 1)*0.25
+ 0.25/(1 + offerVolume/1000) + 0.15/(1 + hoursToSold/24)`. -/
def spec_liquidity (sold24h sold7d offerVolume hoursToSold : ℚ) : ℚ :=
  min (sold24h / 10000) 1 * (35 / 100) + min (sold7d / 50000) 1 * (25 / 100)
    + (25 / 100) / (1 + offerVolume / 1000) + (15 / 100) / (1 + hoursToSold / 24)

/-- A present snapshot without any field. -/
def emptyItem : ItemData := {}

/-- A snapshot whose four liquidity fields are present zeros. -/
def zeroFieldsItem : ItemData :=
  { sold24h := some 0, sold7d := some 0, offervolume := some 0, hourstosold := some 0 }

/-- A snapshot with one buy order and a present offer volume of zero. -/
def zeroOfferItem : ItemData := { buyordervolume := some 1, offervolume := some 0 }

/-- A snapshot whose latest price (2) and latest-sell price (1) differ, with a
7-day average of 1. -/
def twoPricesItem : ItemData :=
  { pricelatest := some 2, pricelatestsell := some 1, priceavg7d := some 1 }

/-- The number shown by `analytics_formatScore` (source line 399): a value
below 1 is read as unit-scale and multiplied by 100 before rounding. -/
def formatScore_normalizedScore (score : JSNum) : JSNum :=
  if JSNum.lt score (JSNum.fin 1) then JSNum.round (score * JSNum.fin 100)
  else JSNum.round score

/-- The tier glyph chosen by `analytics_formatScore` (source line 402). -/
def formatScore_emoji (normalizedScore : JSNum) : String :=
  if JSNum.ge normalizedScore (JSNum.fin 75) then "🟢"
  else if JSNum.ge normalizedScore (JSNum.fin 60) then "🟡"
  else if JSNum.ge normalizedScore (JSNum.fin 40) then "⚪"
  else "🔴"

/-- The text of a number returned by `Math.round` inside a template literal:
an integer in decimal digits, `Infinity`, `-Infinity` or `NaN` (the exponent
notation of integers from `1e21` on is not modelled). -/
def JSNum.display : JSNum → String
  | .fin q => toString ⌊q⌋
  | .posInf => "Infinity"
  | .negInf => "-Infinity"
  | .nan => "NaN"

/-- Source: `analytics_formatScore(score)` on a number; NaN gives the
placeholder. -/
def analytics_formatScore (score : JSNum) : String :=
  if score = JSNum.nan then "—"
  else
    let normalizedScore := formatScore_normalizedScore score
    let emoji := formatScore_emoji normalizedScore
    emoji ++ " " ++ normalizedScore.display

/-- Specification (C24): the tier glyph of a displayed integer: at least 75
high, at least 60 medium-high, at least 40 medium-low, else low. -/
def spec_tierGlyph (n : ℤ) : String :=
  if 75 ≤ n then "🟢" else if 60 ≤ n then "🟡" else if 40 ≤ n then "⚪" else "🔴"

/-- Specification (C24): the displayed text, the tier glyph of the integer and
the integer. -/
def spec_display (n : ℤ) : String := spec_tierGlyph n ++ " " ++ toString n

/-- Specification (C21): `0.5` when `sold7d = 0` and `sold30d = 0`, otherwise
`clamp01((t + 1) / 2)` with `t` the sum of `0.5*(7*sold24h - sold7d)/sold7d`
(only if `sold7d` is nonzero) and `0.5*(4*sold7d - sold30d)/sold30d` (only if
`sold30d` is nonzero). -/
def spec_salesTrend (sold24h sold7d sold30d : ℚ) : JSNum :=
  if sold7d = 0 ∧ sold30d = 0 then JSNum.fin (5 / 10)
  else
    JSNum.clamp01 (JSNum.fin
      (((if sold7d ≠ 0 then 5 / 10 * (7 * sold24h - sold7d) / sold7d else 0)
        + (if sold30d ≠ 0 then 5 / 10 * (4 * sold7d - sold30d) / sold30d else 0) + 1) / 2))

/-- No usable price history: no history, no price list, or a price list
without any strictly positive price. -/
def noUsableHistory (historyData : Option HistoryData) : Prop :=
  ∀ h ps, historyData = some h → h.prices = some ps → ∀ p ∈ ps, ¬ 0 < p

/-- The order of the risk tiers: Low (0) below Medium (1) below High (2). -/
def RiskLevel.rank : RiskLevel → ℕ
  | .low => 0
  | .medium => 1
  | .high => 2

/-- A snapshot selling at a steady rate: 10 a day, 70 a week, 280 in 30 days. -/
def steadyItem : ItemData := { sold24h := some 10, sold7d := some 70, sold30d := some 280 }

/-- A snapshot with a price range of `[8, 12]` around an average of 10. -/
def rangeItem : ItemData := { pricemin := some 8, pricemax := some 12, priceavg := some 10 }

/-- A hero record whose three deltas are zero or absent. -/
def flatHero : HeroStatsRecord :=
  { pickRateChange24h := some 0, pickRateChange7d := none, proContestRateChange7d := some 0,
    pickRatePercent := some 48, winRate := some 51 }

/-- An environment whose provider returns `flatHero` for every hero. -/
def flatEnv : Env where
  ANALYTICS_WEIGHTS := exampleWeights
  heroStats_getLatestStats := fun _ _ => LatestStats.record flatHero
  jsonParse := fun _ => none
  sqrt := exampleSqrt

/-! ## Double-precision arithmetic

The numbers of the program are IEEE 754 doubles.  The definitions of this
section round the result of every arithmetic operation to the nearest double,
ties to even; they embed `analytics_calculateVolatilityIndex` a second time,
operation by operation, for the one property that hinges on that rounding.
Signed zeros are not distinguished. -/

/-- The integer nearest to `q`, a tie going to the even neighbour. -/
def roundHalfEven (q : ℚ) : ℤ :=
  if q - ⌊q⌋ < 1 / 2 then ⌊q⌋
  else if 1 / 2 < q - ⌊q⌋ then ⌊q⌋ + 1
  else if ⌊q⌋ % 2 = 0 then ⌊q⌋ else ⌊q⌋ + 1

/-- The double nearest to the rational `x`: 53 significant bits, the exponent
of the leading bit no lower than `-1022` (below, the subnormal spacing
`2 ^ (-1074)`), an infinity once the rounded magnitude reaches `2 ^ 1024`. -/
def Float64.ofRat (x : ℚ) : JSNum :=
  if x = 0 then JSNum.fin 0
  else
    let exponent : ℤ := Max.max (Int.log 2 |x|) (-1022)
    let quantum : ℚ := 2 ^ (exponent - 52)
    let r : ℚ := (roundHalfEven (x / quantum) : ℚ) * quantum
    if (2 : ℚ) ^ (1024 : ℕ) ≤ |r| then (if 0 < x then JSNum.posInf else JSNum.negInf)
    else JSNum.fin r

/-- Rounding of the exact result of an operation. -/
def Float64.round : JSNum → JSNum
  | .fin q => Float64.ofRat q
  | x => x

/-- JavaScript `a + b` on doubles. -/
def Float64.add (a b : JSNum) : JSNum := Float64.round (a + b)

/-- JavaScript `a - b` on doubles. -/
def Float64.sub (a b : JSNum) : JSNum := Float64.round (a - b)

/-- JavaScript `a * b` on doubles. -/
def Float64.mul (a b : JSNum) : JSNum := Float64.round (a * b)

/-- JavaScript `a / b` on doubles. -/
def Float64.div (a b : JSNum) : JSNum := Float64.round (a / b)

/-- `Math.sqrt` on doubles, from its values on the finite non-negative
arguments. -/
def Float64.sqrt (sqrt : ℚ → ℚ) : JSNum → JSNum
  | .fin q => if q < 0 then JSNum.nan else JSNum.fin (sqrt q)
  | .posInf => JSNum.posInf
  | _ => JSNum.nan

/-- A number is falsy when it is zero or NaN. -/
def JSNum.falsy : JSNum → Bool
  | .fin q => decide (q = 0)
  | .nan => true
  | _ => false

/-- Source: `analytics_normalizeToRange(value, min, max, targetMin, targetMax)`,
on doubles. -/
def Float64.analytics_normalizeToRange (value min max targetMin targetMax : JSNum) : JSNum :=
  if JSNum.strictEq max min then Float64.div (Float64.add targetMin targetMax) (JSNum.fin 2)
  else
    let normalized :=
      Float64.add
        (Float64.mul (Float64.div (Float64.sub value min) (Float64.sub max min))
          (Float64.sub targetMax targetMin))
        targetMin
    JSNum.min targetMax (JSNum.max targetMin normalized)

/-- The variables `minPrice`, `maxPrice`, `avgPrice`, `stdDev` of
`analytics_calculateVolatilityIndex`, as doubles. -/
structure Float64.PriceStats where
  minPrice : JSNum
  maxPrice : JSNum
  avgPrice : JSNum
  stdDev : JSNum

/-- The expression `prices.reduce((a, b) => a + b, 0) / prices.length` (source
line 137) on doubles. -/
def Float64.mean (prices : List ℚ) : JSNum :=
  Float64.div (prices.foldl (fun a b => Float64.add a (JSNum.fin b)) (JSNum.fin 0))
    (JSNum.fin (prices.length : ℚ))

/-- The expression `prices.reduce((sum, price) => sum + Math.pow(price -
avgPrice, 2), 0) / prices.length` (source line 140) on doubles, the square
being the rounded product. -/
def Float64.variance (prices : List ℚ) (avgPrice : JSNum) : JSNum :=
  Float64.div
    (prices.foldl
      (fun sum price =>
        Float64.add sum
          (Float64.mul (Float64.sub (JSNum.fin price) avgPrice)
            (Float64.sub (JSNum.fin price) avgPrice)))
      (JSNum.fin 0))
    (JSNum.fin (prices.length : ℚ))

/-- The history branch of `analytics_calculateVolatilityIndex` (source lines
132-143) on doubles. -/
def Float64.volatility_historyStats (sqrt : ℚ → ℚ) (historyData : Option HistoryData) :
    Option Float64.PriceStats :=
  match historyData with
  | none => none
  | some h =>
    match h.prices with
    | none => none
    | some allPrices =>
      if allPrices.length > 0 then
        let prices := allPrices.filter (fun p => decide (p > 0))
        match prices with
        | [] => none
        | p :: rest =>
          let minPrice := rest.foldl Min.min p
          let maxPrice := rest.foldl Max.max p
          let avgPrice := Float64.mean prices
          let variance := Float64.variance prices avgPrice
          some ⟨JSNum.fin minPrice, JSNum.fin maxPrice, avgPrice, Float64.sqrt sqrt variance⟩
      else none

/-- The fallback branch of `analytics_calculateVolatilityIndex` (source lines
147-156) on doubles. -/
def Float64.volatility_itemStats (d : ItemData) : Float64.PriceStats :=
  let minPrice := orDefault d.pricemin 0
  let maxPrice := orDefault d.pricemax 0
  let avgPrice := orDefault d.priceavg (orDefault d.pricelatest 0)
  let stdDev :=
    if minPrice > 0 ∧ maxPrice > 0 ∧ avgPrice > 0 then
      Float64.div (Float64.sub (JSNum.fin maxPrice) (JSNum.fin minPrice)) (JSNum.fin 4)
    else JSNum.fin 0
  ⟨JSNum.fin minPrice, JSNum.fin maxPrice, JSNum.fin avgPrice, stdDev⟩

/-- The end of `analytics_calculateVolatilityIndex` (source lines 159-169) on
doubles. -/
def Float64.volatility_fromStats (st : Float64.PriceStats) : JSNum :=
  if st.avgPrice.falsy || JSNum.le st.avgPrice (JSNum.fin 0) then JSNum.fin (1 / 2)
  else
    let rangeVolatility := Float64.div (Float64.sub st.maxPrice st.minPrice) st.avgPrice
    let stdDevVolatility := Float64.div st.stdDev st.avgPrice
    let volatility :=
      Float64.add (Float64.mul rangeVolatility (JSNum.fin (5 / 10)))
        (Float64.mul stdDevVolatility (JSNum.fin (5 / 10)))
    JSNum.min (JSNum.fin 1) (JSNum.max (JSNum.fin 0)
      (Float64.analytics_normalizeToRange volatility (JSNum.fin 0) (JSNum.fin 1) (JSNum.fin 0)
        (JSNum.fin 1)))

/-- The fallback test `!minPrice || !maxPrice || !avgPrice` (source line 146)
on doubles. -/
def Float64.volatility_needsFallback (st : Option Float64.PriceStats) : Bool :=
  match st with
  | none => true
  | some s => s.minPrice.falsy || s.maxPrice.falsy || s.avgPrice.falsy

/-- Source: `analytics_calculateVolatilityIndex(itemData, historyData)`, on
doubles. The result is `none` when the call raises. -/
def Float64.analytics_calculateVolatilityIndex (env : Env) (itemData : Option ItemData)
    (historyData : Option HistoryData) : Option JSNum :=
  if itemData.isNone ∧ historyData.isNone then some (JSNum.fin (1 / 2))
  else
    let fromHistory := Float64.volatility_historyStats env.sqrt historyData
    if Float64.volatility_needsFallback fromHistory then
      match itemData with
      | none => none
      | some d => some (Float64.volatility_fromStats (Float64.volatility_itemStats d))
    else
      match fromHistory with
      | some st => some (Float64.volatility_fromStats st)
      | none => none

/-- The double nearest to `0.1`. -/
def double_0_1 : ℚ := 3602879701896397 / 2 ^ 55

/-- The square root of a rational whose numerator and denominator are perfect
squares, where `Math.sqrt` is exact. -/
def squareRoot (x : ℚ) : ℚ := (Nat.sqrt x.num.natAbs : ℚ) / (Nat.sqrt x.den : ℚ)

/-- An environment whose `Math.sqrt` is exact on squares. -/
def doubleEnv : Env where
  ANALYTICS_WEIGHTS := exampleWeights
  heroStats_getLatestStats := fun _ _ => LatestStats.absent
  jsonParse := fun _ => none
  sqrt := squareRoot

/-! ## Arithmetic of `JSNum` on finite values -/

theorem JSNum.add_def (a b : JSNum) : a + b = JSNum.add a b := rfl

theorem JSNum.sub_def (a b : JSNum) : a - b = JSNum.add a (JSNum.neg b) := rfl

theorem JSNum.mul_def (a b : JSNum) : a * b = JSNum.mul a b := rfl

theorem JSNum.div_def (a b : JSNum) : a / b = JSNum.div a b := rfl

@[simp] theorem JSNum.fin_add_fin (a b : ℚ) : JSNum.fin a + JSNum.fin b = JSNum.fin (a + b) := rfl

@[simp] theorem JSNum.fin_sub_fin (a b : ℚ) : JSNum.fin a - JSNum.fin b = JSNum.fin (a - b) := by
  simp [JSNum.sub_def, JSNum.add, JSNum.neg, sub_eq_add_neg]

@[simp] theorem JSNum.fin_mul_fin (a b : ℚ) : JSNum.fin a * JSNum.fin b = JSNum.fin (a * b) := rfl

theorem JSNum.fin_div_fin (a b : ℚ) (hb : b ≠ 0) :
    JSNum.fin a / JSNum.fin b = JSNum.fin (a / b) := by
  simp [JSNum.div_def, JSNum.div, hb]

@[simp] theorem JSNum.lt_fin_fin (a b : ℚ) : JSNum.lt (JSNum.fin a) (JSNum.fin b) = decide (a < b) :=
  rfl

@[simp] theorem JSNum.gt_fin_fin (a b : ℚ) : JSNum.gt (JSNum.fin a) (JSNum.fin b) = decide (b < a) :=
  rfl

@[simp] theorem JSNum.strictEq_fin_fin (a b : ℚ) :
    JSNum.strictEq (JSNum.fin a) (JSNum.fin b) = decide (a = b) := by
  simp [JSNum.strictEq]

@[simp] theorem JSNum.ge_fin_fin (a b : ℚ) : JSNum.ge (JSNum.fin a) (JSNum.fin b) = decide (b ≤ a) := by
  simp [JSNum.ge, JSNum.le, le_iff_lt_or_eq]

@[simp] theorem JSNum.min_fin_fin (a b : ℚ) :
    JSNum.min (JSNum.fin a) (JSNum.fin b) = JSNum.fin (Min.min a b) := by
  simp only [JSNum.min, JSNum.lt_fin_fin]
  by_cases h : b < a
  · simp [h, min_eq_right (le_of_lt h)]
  · simp [h, min_eq_left (not_lt.mp h)]

@[simp] theorem JSNum.max_fin_fin (a b : ℚ) :
    JSNum.max (JSNum.fin a) (JSNum.fin b) = JSNum.fin (Max.max a b) := by
  simp only [JSNum.max, JSNum.lt_fin_fin]
  by_cases h : a < b
  · simp [h, max_eq_right (le_of_lt h)]
  · simp [h, max_eq_left (not_lt.mp h)]

@[simp] theorem JSNum.round_fin (a : ℚ) :
    JSNum.round (JSNum.fin a) = JSNum.fin ((⌊a + 1 / 2⌋ : ℤ) : ℚ) := rfl

@[simp] theorem JSNum.clamp01_fin (a : ℚ) :
    JSNum.clamp01 (JSNum.fin a) = JSNum.fin (Min.min 1 (Max.max 0 a)) := by
  simp [JSNum.clamp01]

theorem JSNum.isFin_iff (x : JSNum) : x.IsFin ↔ ∃ q : ℚ, x = JSNum.fin q := by
  cases x <;> simp [JSNum.IsFin]

theorem JSNum.inUnit_iff (x : JSNum) : x.InUnit ↔ ∃ r : ℚ, x = JSNum.fin r ∧ 0 ≤ r ∧ r ≤ 1 := by
  cases x <;> simp [JSNum.InUnit]

theorem JSNum.InUnit.isFin {x : JSNum} (h : x.InUnit) : x.IsFin := by
  cases x <;> simp_all [JSNum.InUnit, JSNum.IsFin]

theorem JSNum.IsFin.add_isFin {x y : JSNum} (hx : x.IsFin) (hy : y.IsFin) : (x + y).IsFin := by
  cases x <;> cases y <;> simp_all [JSNum.IsFin]

theorem JSNum.IsFin.mul_isFin {x y : JSNum} (hx : x.IsFin) (hy : y.IsFin) : (x * y).IsFin := by
  cases x <;> cases y <;> simp_all [JSNum.IsFin]

theorem JSNum.IsFin.min_isFin {x y : JSNum} (hx : x.IsFin) (hy : y.IsFin) :
    (JSNum.min x y).IsFin := by
  cases x <;> cases y <;> simp_all [JSNum.IsFin]

theorem JSNum.isFin_fin (q : ℚ) : (JSNum.fin q).IsFin := trivial

/-- Clamping any value but NaN into `[0, 1]` gives a finite unit value. -/
theorem JSNum.clamp01_inUnit (y : JSNum) (hy : y ≠ JSNum.nan) : (JSNum.clamp01 y).InUnit := by
  cases y with
  | fin q => simp [JSNum.InUnit]
  | posInf => simp [JSNum.clamp01, JSNum.max, JSNum.min, JSNum.lt, JSNum.InUnit]
  | negInf => simp [JSNum.clamp01, JSNum.max, JSNum.min, JSNum.lt, JSNum.InUnit]
  | nan => exact absurd rfl hy

/-! ## The metric functions stay in the unit interval -/

/-- Closed form of `analytics_normalizeToRange` on finite arguments with a
non-degenerate source range. -/
theorem normalizeToRange_fin (v a b tmin tmax : ℚ) (hab : b ≠ a) :
    analytics_normalizeToRange (JSNum.fin v) (JSNum.fin a) (JSNum.fin b) (JSNum.fin tmin)
        (JSNum.fin tmax)
      = JSNum.fin (min tmax (max tmin ((v - a) / (b - a) * (tmax - tmin) + tmin))) := by
  have h : b - a ≠ 0 := sub_ne_zero.mpr hab
  simp [analytics_normalizeToRange, hab, JSNum.fin_div_fin _ _ h]

theorem normalizeToRange_unit_inUnit (x : JSNum) (hx : x.IsFin) (a b : ℚ) (hab : b ≠ a) :
    (analytics_normalizeToRange x (JSNum.fin a) (JSNum.fin b) (JSNum.fin 0)
      (JSNum.fin 1)).InUnit := by
  obtain ⟨q, rfl⟩ := (JSNum.isFin_iff x).mp hx
  rw [normalizeToRange_fin _ _ _ _ _ hab]
  exact ⟨le_min zero_le_one (le_max_left _ _), min_le_left _ _⟩

theorem JSNum.NotNanNeg.add_notNanNeg {x y : JSNum} (hx : x.NotNanNeg) (hy : y.NotNanNeg) :
    (x + y).NotNanNeg := by
  cases x <;> cases y <;> simp_all [JSNum.NotNanNeg, JSNum.add_def, JSNum.add]

theorem JSNum.notNanNeg_fin (q : ℚ) : (JSNum.fin q).NotNanNeg := by
  simp [JSNum.NotNanNeg]

/-- The terms `(1 / (1 + x / k)) * c` of the liquidity score are finite or
`+Infinity`. -/
theorem JSNum.inverse_term_notNanNeg (x k c : ℚ) (hk : k ≠ 0) (hc : 0 < c) :
    ((JSNum.fin 1 / (JSNum.fin 1 + JSNum.fin x / JSNum.fin k)) * JSNum.fin c).NotNanNeg := by
  rw [JSNum.fin_div_fin _ _ hk, JSNum.fin_add_fin]
  by_cases h : 1 + x / k = 0
  · simp [JSNum.div_def, JSNum.div, h, JSNum.signedInf, JSNum.mul_def, JSNum.mul, hc.ne',
      hc, JSNum.NotNanNeg]
  · rw [JSNum.fin_div_fin _ _ h]
    exact JSNum.notNanNeg_fin _

/-- The liquidity score is a finite unit value for every snapshot, present or
absent. -/
theorem liquidityScore_inUnit (itemData : Option ItemData) :
    (analytics_calculateLiquidityScore itemData).InUnit := by
  cases itemData with
  | none => simp only [analytics_calculateLiquidityScore, JSNum.InUnit]; norm_num
  | some d =>
    simp only [analytics_calculateLiquidityScore]
    apply JSNum.clamp01_inUnit
    refine (JSNum.NotNanNeg.add_notNanNeg (JSNum.NotNanNeg.add_notNanNeg ?_
      (JSNum.inverse_term_notNanNeg _ _ _ (by norm_num) (by norm_num)))
      (JSNum.inverse_term_notNanNeg _ _ _ (by norm_num) (by norm_num))).1
    rw [JSNum.fin_div_fin _ _ (by norm_num), JSNum.fin_div_fin _ _ (by norm_num)]
    simp only [JSNum.min_fin_fin, JSNum.fin_mul_fin, JSNum.fin_add_fin]
    exact JSNum.notNanNeg_fin _

theorem orDefault_eq_zero_iff (x : Option ℚ) : orDefault x 0 = 0 ↔ falsyNum x = true := by
  cases x with
  | none => simp [orDefault, falsyNum]
  | some v => by_cases h : v = 0 <;> simp [orDefault, falsyNum, h]

theorem JSNum.IsFin.ne_nan {x : JSNum} (h : x.IsFin) : x ≠ JSNum.nan := by
  cases x <;> simp_all [JSNum.IsFin]

theorem JSNum.InUnit.unit_ne_nan {x : JSNum} (h : x.InUnit) : x ≠ JSNum.nan := h.isFin.ne_nan

theorem JSNum.inUnit_half : (JSNum.fin (1 / 2)).InUnit := by
  simp only [JSNum.InUnit]; norm_num

/-- A fractional change guarded by a positive reference is finite. -/
theorem guarded_change_isFin (c p : ℚ) :
    (if p > 0 then (JSNum.fin c - JSNum.fin p) / JSNum.fin p else JSNum.fin 0).IsFin := by
  by_cases h : p > 0
  · simp [h, JSNum.fin_div_fin _ _ (ne_of_gt h), JSNum.IsFin]
  · simp [h, JSNum.IsFin]

theorem priceMomentum_inUnit (itemData : Option ItemData) (historyData : Option HistoryData) :
    (analytics_calculatePriceMomentum itemData historyData).InUnit := by
  cases itemData with
  | none => exact JSNum.inUnit_half
  | some d =>
    simp only [analytics_calculatePriceMomentum]
    split
    · exact JSNum.inUnit_half
    · apply normalizeToRange_unit_inUnit _ _ _ _ (by norm_num)
      have c := fun c p : ℚ => (guarded_change_isFin c p).mul_isFin (JSNum.isFin_fin (5 / 10))
      have c3 := fun c p : ℚ => (guarded_change_isFin c p).mul_isFin (JSNum.isFin_fin (3 / 10))
      have c2 := fun c p : ℚ => (guarded_change_isFin c p).mul_isFin (JSNum.isFin_fin (2 / 10))
      exact ((c _ _).add_isFin (c3 _ _)).add_isFin (c2 _ _)

theorem salesTrend_inUnit (itemData : Option ItemData) :
    (analytics_calculateSalesTrend itemData).InUnit := by
  cases itemData with
  | none => exact JSNum.inUnit_half
  | some d =>
    simp only [analytics_calculateSalesTrend]
    split
    · exact JSNum.inUnit_half
    · apply normalizeToRange_unit_inUnit _ _ _ _ (by norm_num)
      have h1 : ∀ (t : JSNum) (a k p : ℚ), t.IsFin →
          (if p > 0 then t + ((JSNum.fin a * JSNum.fin k - JSNum.fin p) / JSNum.fin p)
            * JSNum.fin (5 / 10) else t).IsFin := by
        intro t a k p ht
        by_cases h : p > 0
        · simp only [h, if_true, JSNum.fin_mul_fin, JSNum.fin_sub_fin,
            JSNum.fin_div_fin _ _ (ne_of_gt h)]
          exact ht.add_isFin trivial
        · simpa [h] using ht
      exact h1 _ _ _ _ (h1 _ _ _ _ trivial)

theorem volatility_fromStats_inUnit (st : PriceStats) : (volatility_fromStats st).InUnit := by
  simp only [volatility_fromStats]
  split
  · exact JSNum.inUnit_half
  · rename_i h
    have havg : st.avgPrice ≠ 0 := fun h0 => h (Or.inl h0)
    apply JSNum.clamp01_inUnit
    apply JSNum.InUnit.unit_ne_nan
    apply normalizeToRange_unit_inUnit _ _ _ _ (by norm_num)
    simp only [JSNum.fin_sub_fin, JSNum.fin_div_fin _ _ havg, JSNum.fin_mul_fin,
      JSNum.fin_add_fin]
    trivial

/-- With a present snapshot the volatility index returns, and returns a finite
unit value. -/
theorem volatilityIndex_some_inUnit (env : Env) (d : ItemData)
    (historyData : Option HistoryData) :
    ∃ v, analytics_calculateVolatilityIndex env (some d) historyData = some v ∧ v.InUnit := by
  simp only [analytics_calculateVolatilityIndex, Option.isNone_some, Bool.false_eq_true,
    false_and, if_false]
  split
  · exact ⟨_, rfl, volatility_fromStats_inUnit _⟩
  · rename_i hfb
    cases hst : volatility_historyStats env.sqrt historyData with
    | none => rw [hst] at hfb; simp [volatility_needsFallback] at hfb
    | some st => exact ⟨_, rfl, volatility_fromStats_inUnit _⟩

theorem heroTrend_fromStats_inUnit (weights : HeroTrendWeights) (stats : HeroStatsRecord) :
    (heroTrend_fromStats weights stats).InUnit := by
  simp only [heroTrend_fromStats]
  apply JSNum.clamp01_inUnit
  apply JSNum.IsFin.ne_nan
  have n1 : ∀ q : ℚ, (analytics_normalizeToRange (JSNum.fin q) (JSNum.fin (-(3 / 10)))
      (JSNum.fin (3 / 10)) (JSNum.fin 0) (JSNum.fin 1)).IsFin := fun q =>
    (normalizeToRange_unit_inUnit _ (JSNum.isFin_fin _) _ _ (by norm_num)).isFin
  have n2 : ∀ q : ℚ, (analytics_normalizeToRange ((JSNum.fin q - JSNum.fin 50) / JSNum.fin 50)
      (JSNum.fin (-1)) (JSNum.fin 1) (JSNum.fin 0) (JSNum.fin 1)).IsFin := fun q => by
    rw [JSNum.fin_sub_fin, JSNum.fin_div_fin _ _ (by norm_num)]
    exact (normalizeToRange_unit_inUnit _ (JSNum.isFin_fin _) _ _ (by norm_num)).isFin
  exact ((((n1 _).mul_isFin (JSNum.isFin_fin _)).add_isFin
    ((n1 _).mul_isFin (JSNum.isFin_fin _))).add_isFin
    ((n2 _).mul_isFin (JSNum.isFin_fin _))).add_isFin
    ((n2 _).mul_isFin (JSNum.isFin_fin _))

/-- When the hero trend score returns, it returns a finite unit value. -/
theorem heroTrendScore_inUnit (env : Env) (heroId : Option ℤ) (rankCategory : Option String)
    (heroStats : Option Unit) (x : JSNum)
    (hx : analytics_calculateHeroTrendScore env heroId rankCategory heroStats = some x) :
    x.InUnit := by
  simp only [analytics_calculateHeroTrendScore] at hx
  split at hx
  · cases hx; exact JSNum.inUnit_half
  · split at hx
    · cases hx; exact JSNum.inUnit_half
    · split at hx
      · cases hx; exact JSNum.inUnit_half
      · cases hx
      · cases hx; exact heroTrend_fromStats_inUnit _ _

/-! ## Aggregators: the hero term -/

theorem JSNum.mul_symm (x y : JSNum) : x * y = y * x := by
  cases x <;> cases y <;> simp [JSNum.mul_def, JSNum.mul, mul_comm]

theorem JSNum.nan_mul (x : JSNum) : JSNum.nan * x = JSNum.nan := by
  cases x <;> simp [JSNum.mul_def, JSNum.mul]

theorem investment_heroTrendScore_inUnit (env : Env) (heroStats : Option Unit)
    (itemCategory : String) (heroId : Option ℤ) (rankCategory : Option String) (x : JSNum)
    (hx : investment_heroTrendScore env heroStats itemCategory heroId rankCategory = some x) :
    x.InUnit := by
  unfold investment_heroTrendScore at hx
  split at hx
  · exact heroTrendScore_inUnit _ _ _ _ _ hx
  · cases hx; exact JSNum.inUnit_half

/-! ## C1 and C2: ranges of the scores -/

/-- C1 (refuted on a receivable input): when the provider answers with the
text `null`, `JSON.parse` returns `null` without throwing and the read of
`stats.pickRateChange24h` (source line 430), outside the `try`, raises, so the
meta signal returns no integer; the investment score of a Hero Item and the
buyback score raise too, through the hero trend score (source line 195). -/
theorem aggregators_raise_on_null_text :
    analytics_calculateMetaSignal nullEnv (some 7) (some "High Rank") (some ()) = none
    ∧ analytics_calculateInvestmentScore nullEnv (some balancedItem) (some ()) none
        "Hero Item" (some 7) (some "High Rank") = none
    ∧ analytics_calculateBuybackScore nullEnv (some balancedItem) (some ()) none (some 100)
        (some 50) (some 7) (some "High Rank") = none := by
  have hv : analytics_calculateVolatilityIndex nullEnv (some balancedItem) none
      = some (JSNum.fin (1 / 2)) := by
    simp [analytics_calculateVolatilityIndex, volatility_historyStats, volatility_needsFallback,
      volatility_itemStats, volatility_fromStats, balancedItem, orDefault]
  have hh : analytics_calculateHeroTrendScore nullEnv (some 7) (some "High Rank") (some ())
      = none := by
    simp [analytics_calculateHeroTrendScore, falsyId, nullEnv, LatestStats.falsy,
      parseLatestStats]
  refine ⟨?_, ?_, ?_⟩
  · simp [analytics_calculateMetaSignal, falsyId, nullEnv, LatestStats.falsy, parseLatestStats]
  · simp [analytics_calculateInvestmentScore, hv, investment_heroTrendScore, falsyId, falsyStr,
      hh]
  · simp [analytics_calculateBuybackScore, hv, falsyNum, buyback_heroTrendScore, falsyId,
      falsyStr, hh]

/-- C2 (refuted on a receivable input): when the provider answers with the
text `null`, `JSON.parse` returns `null` without throwing and the read of
`stats.proContestRateChange7d` (source line 195), outside the `try`, raises:
the hero trend score returns no value at all. -/
theorem heroTrendScore_raises_on_null_text :
    analytics_calculateHeroTrendScore nullEnv (some 7) (some "High Rank") (some ()) = none := by
  simp [analytics_calculateHeroTrendScore, falsyId, nullEnv, LatestStats.falsy,
    parseLatestStats]

/-! ## C3: the Hero Item formula -/

theorem JSNum.NonnegOrNan.add_nonnegOrNan {x y : JSNum} (hx : x.NonnegOrNan) (hy : y.NonnegOrNan) :
    (x + y).NonnegOrNan := by
  cases x <;> cases y <;>
    simp_all [JSNum.NonnegOrNan, JSNum.add_def, JSNum.add, add_nonneg]

theorem JSNum.NonnegOrNan.mul_fin {x : JSNum} (hx : x.NonnegOrNan) {w : ℚ} (hw : 0 ≤ w) :
    (x * JSNum.fin w).NonnegOrNan := by
  cases x with
  | fin q => exact mul_nonneg hx hw
  | posInf =>
    by_cases h0 : w = 0
    · simp [JSNum.mul_def, JSNum.mul, h0, JSNum.NonnegOrNan]
    · have : 0 < w := lt_of_le_of_ne hw (Ne.symm h0)
      simp [JSNum.mul_def, JSNum.mul, h0, this, JSNum.signedInf, JSNum.NonnegOrNan]
  | negInf => exact absurd hx id
  | nan => simp [JSNum.nan_mul, JSNum.NonnegOrNan]

theorem JSNum.InUnit.nonnegOrNan {x : JSNum} (hx : x.InUnit) : x.NonnegOrNan := by
  cases x <;> simp_all [JSNum.InUnit, JSNum.NonnegOrNan]

/-- Whatever its argument, `Math.min(1, Math.max(0, x))` is never negative
nor `-Infinity`. -/
theorem JSNum.clamp01_nonnegOrNan (x : JSNum) :
    (JSNum.min (JSNum.fin 1) (JSNum.max (JSNum.fin 0) x)).NonnegOrNan := by
  by_cases h : x = JSNum.nan
  · subst h; simp [JSNum.max, JSNum.min, JSNum.NonnegOrNan]
  · exact (JSNum.clamp01_inUnit x h).nonnegOrNan

/-- Clamping `min(1, x)` into `[0, 1]` changes nothing when `x` is not
negative. -/
theorem JSNum.clamp01_min_one (x : JSNum) (hx : x.NonnegOrNan) :
    JSNum.clamp01 (JSNum.min (JSNum.fin 1) x) = JSNum.min (JSNum.fin 1) x := by
  cases x with
  | fin q =>
    have hq : (0 : ℚ) ≤ q := hx
    simp only [JSNum.min_fin_fin, JSNum.clamp01_fin]
    rw [max_eq_right (le_min zero_le_one hq), min_eq_right (min_le_left _ _)]
  | posInf => simp [JSNum.clamp01, JSNum.min, JSNum.max, JSNum.lt]
  | negInf => exact absurd hx id
  | nan => simp [JSNum.clamp01, JSNum.min, JSNum.max]

/-- The final clamp of the aggregators: `min(100, max(0, f * 100))` is
`100 * clamp01(f)`. -/
theorem JSNum.clamp100_scale (f : JSNum) :
    JSNum.min (JSNum.fin 100) (JSNum.max (JSNum.fin 0) (f * JSNum.fin 100))
      = JSNum.fin 100 * JSNum.clamp01 f := by
  cases f with
  | fin q =>
    simp only [JSNum.fin_mul_fin, JSNum.max_fin_fin, JSNum.min_fin_fin, JSNum.clamp01_fin]
    congr 1
    rcases le_total q 0 with h | h
    · rw [max_eq_left (by linarith), max_eq_left h]; norm_num
    · rw [max_eq_right (by linarith), max_eq_right h]
      rcases le_total q 1 with h1 | h1
      · rw [min_eq_right (by linarith), min_eq_right h1]; ring
      · rw [min_eq_left (by linarith), min_eq_left h1]; norm_num
  | posInf =>
    simp [JSNum.clamp01, JSNum.mul_def, JSNum.mul, JSNum.signedInf, JSNum.max, JSNum.min,
      JSNum.lt]
  | negInf =>
    have h : ¬ ((100 : ℚ) < 0) := by norm_num
    simp [JSNum.clamp01, JSNum.mul_def, JSNum.mul, JSNum.signedInf, JSNum.max, JSNum.min,
      JSNum.lt, h]
  | nan => simp [JSNum.clamp01, JSNum.mul_def, JSNum.mul, JSNum.max, JSNum.min]

/-- The Hero Item branch of the code computes the specified formula, on all
values. -/
theorem investment_heroItemScore_eq_spec (w : InvestmentWeights) (h v d m l s : JSNum) :
    investment_heroItemScore w h v d m l s = spec_investmentHeroItem w h v d m l s := by
  simp only [investment_heroItemScore, spec_investmentHeroItem, spec_investmentBase,
    JSNum.clamp100_scale, JSNum.mul_symm (JSNum.fin (12 / 10)),
    JSNum.mul_symm (JSNum.fin (115 / 100))]

theorem spec_investmentBase_nonnegOrNan (w : InvestmentWeights) (h v d m l s : JSNum)
    (hw : 0 ≤ w.HERO_TREND ∧ 0 ≤ w.VOLATILITY ∧ 0 ≤ w.DEMAND_RATIO ∧ 0 ≤ w.PRICE_MOMENTUM
      ∧ 0 ≤ w.LIQUIDITY ∧ 0 ≤ w.SALES_TREND)
    (hh : h.NonnegOrNan) (hv : v.NonnegOrNan) (hd : d.NonnegOrNan) (hm : m.NonnegOrNan)
    (hl : l.NonnegOrNan) (hs : s.NonnegOrNan) :
    (spec_investmentBase w h v d m l s).NonnegOrNan := by
  obtain ⟨w1, w2, w3, w4, w5, w6⟩ := hw
  exact (((((hh.mul_fin w1).add_nonnegOrNan (hv.mul_fin w2)).add_nonnegOrNan (hd.mul_fin w3)).add_nonnegOrNan
    (hm.mul_fin w4)).add_nonnegOrNan (hl.mul_fin w5)).add_nonnegOrNan (hs.mul_fin w6)

/-- With only the first trigger, the specified formula is
`round(100 * min(1, 1.2 * base))` as soon as `base` is not negative. -/
theorem spec_investmentHeroItem_first_trigger (w : InvestmentWeights) (h v d m l s : JSNum)
    (hb : (spec_investmentBase w h v d m l s).NonnegOrNan)
    (t1 : (JSNum.gt h (JSNum.fin (6 / 10)) && JSNum.gt m (JSNum.fin (5 / 10))) = true)
    (t2 : (JSNum.gt d (JSNum.fin (7 / 10)) && JSNum.gt l (JSNum.fin (6 / 10))) = false) :
    spec_investmentHeroItem w h v d m l s
      = JSNum.round (JSNum.fin 100
          * JSNum.min (JSNum.fin 1) (JSNum.fin (12 / 10) * spec_investmentBase w h v d m l s)) := by
  simp only [spec_investmentHeroItem, t1, t2, if_true, Bool.false_eq_true, if_false]
  rw [JSNum.clamp01_min_one]
  rw [JSNum.mul_symm]
  exact hb.mul_fin (by norm_num)

theorem demandRatio_some_nonnegOrNan (d : ItemData) :
    (analytics_calculateDemandRatio (some d)).NonnegOrNan := by
  simp only [analytics_calculateDemandRatio]
  exact JSNum.clamp01_nonnegOrNan _

/-- C3: for a Hero Item with a present snapshot the volatility index returns
and, `heroTrend` being the hero trend score when hero id, rank category and
hero statistics are all present and `0.5` otherwise, the investment score is
`round(100 * clamp01(f))`, with `base` the weighted sum of the six unit scores,
`f1 = min(1, 1.2 * base)` when `heroTrend > 0.6` and `momentum > 0.5` (else
`base`) and `f = min(1, 1.15 * f1)` when `demand > 0.7` and `liquidity > 0.6`
(else `f1`); the score raises exactly when the hero trend score raises. When
the weights are non-negative and only the first trigger holds, the score is
`round(100 * min(1, 1.2 * base))`. -/
theorem investmentScore_heroItem_formula (env : Env) (d : ItemData) (heroStats : Option Unit)
    (historyData : Option HistoryData) (heroId : Option ℤ) (rankCategory : Option String) :
    ∃ volatility, analytics_calculateVolatilityIndex env (some d) historyData = some volatility
      ∧ analytics_calculateInvestmentScore env (some d) heroStats historyData "Hero Item"
          heroId rankCategory
        = Option.map
            (fun heroTrend =>
              spec_investmentHeroItem env.ANALYTICS_WEIGHTS.INVESTMENT_SCORE heroTrend
                volatility (analytics_calculateDemandRatio (some d))
                (analytics_calculatePriceMomentum (some d) historyData)
                (analytics_calculateLiquidityScore (some d))
                (analytics_calculateSalesTrend (some d)))
            (if ¬ falsyId heroId ∧ ¬ falsyStr rankCategory ∧ heroStats.isSome then
              analytics_calculateHeroTrendScore env heroId rankCategory heroStats
            else some (JSNum.fin (1 / 2)))
      ∧ ∀ heroTrend,
          (if ¬ falsyId heroId ∧ ¬ falsyStr rankCategory ∧ heroStats.isSome then
              analytics_calculateHeroTrendScore env heroId rankCategory heroStats
            else some (JSNum.fin (1 / 2))) = some heroTrend →
          (0 ≤ env.ANALYTICS_WEIGHTS.INVESTMENT_SCORE.HERO_TREND
            ∧ 0 ≤ env.ANALYTICS_WEIGHTS.INVESTMENT_SCORE.VOLATILITY
            ∧ 0 ≤ env.ANALYTICS_WEIGHTS.INVESTMENT_SCORE.DEMAND_RATIO
            ∧ 0 ≤ env.ANALYTICS_WEIGHTS.INVESTMENT_SCORE.PRICE_MOMENTUM
            ∧ 0 ≤ env.ANALYTICS_WEIGHTS.INVESTMENT_SCORE.LIQUIDITY
            ∧ 0 ≤ env.ANALYTICS_WEIGHTS.INVESTMENT_SCORE.SALES_TREND) →
          (JSNum.gt heroTrend (JSNum.fin (6 / 10))
            && JSNum.gt (analytics_calculatePriceMomentum (some d) historyData)
              (JSNum.fin (5 / 10))) = true →
          (JSNum.gt (analytics_calculateDemandRatio (some d)) (JSNum.fin (7 / 10))
            && JSNum.gt (analytics_calculateLiquidityScore (some d)) (JSNum.fin (6 / 10)))
            = false →
          analytics_calculateInvestmentScore env (some d) heroStats historyData "Hero Item"
              heroId rankCategory
            = some (JSNum.round (JSNum.fin 100 * JSNum.min (JSNum.fin 1)
                (JSNum.fin (12 / 10)
                  * spec_investmentBase env.ANALYTICS_WEIGHTS.INVESTMENT_SCORE heroTrend
                      volatility (analytics_calculateDemandRatio (some d))
                      (analytics_calculatePriceMomentum (some d) historyData)
                      (analytics_calculateLiquidityScore (some d))
                      (analytics_calculateSalesTrend (some d))))) := by
  obtain ⟨v, hv, hvu⟩ := volatilityIndex_some_inUnit env d historyData
  have hterm : investment_heroTrendScore env heroStats "Hero Item" heroId rankCategory
      = (if ¬ falsyId heroId ∧ ¬ falsyStr rankCategory ∧ heroStats.isSome then
          analytics_calculateHeroTrendScore env heroId rankCategory heroStats
        else some (JSNum.fin (1 / 2))) := by
    simp only [investment_heroTrendScore, true_and]
  have main : analytics_calculateInvestmentScore env (some d) heroStats historyData "Hero Item"
      heroId rankCategory
      = Option.map
          (fun heroTrend =>
            spec_investmentHeroItem env.ANALYTICS_WEIGHTS.INVESTMENT_SCORE heroTrend
              v (analytics_calculateDemandRatio (some d))
              (analytics_calculatePriceMomentum (some d) historyData)
              (analytics_calculateLiquidityScore (some d))
              (analytics_calculateSalesTrend (some d)))
          (investment_heroTrendScore env heroStats "Hero Item" heroId rankCategory) := by
    simp only [analytics_calculateInvestmentScore, Option.isNone_some, Bool.false_eq_true,
      if_false, hv]
    cases investment_heroTrendScore env heroStats "Hero Item" heroId rankCategory with
    | none => rfl
    | some h => simp only [if_true, Option.map_some', investment_heroItemScore_eq_spec]
  refine ⟨v, hv, hterm ▸ main, fun heroTrend hh hw t1 t2 => ?_⟩
  rw [← hterm] at hh
  rw [main, hh, Option.map_some', spec_investmentHeroItem_first_trigger _ _ _ _ _ _ _ ?_ t1 t2]
  exact spec_investmentBase_nonnegOrNan _ _ _ _ _ _ _ hw
    (investment_heroTrendScore_inUnit _ _ _ _ _ _ hh).nonnegOrNan hvu.nonnegOrNan
    (demandRatio_some_nonnegOrNan d) (priceMomentum_inUnit _ _).nonnegOrNan
    (liquidityScore_inUnit _).nonnegOrNan (salesTrend_inUnit _).nonnegOrNan

/-- With the provider of `heroEnv`, the hero trend score of hero 7 is 1. -/
theorem heroEnv_trend :
    analytics_calculateHeroTrendScore heroEnv (some 7) (some "High Rank") (some ())
      = some (JSNum.fin 1) := by
  simp [falsyId, analytics_calculateHeroTrendScore, heroEnv,
    LatestStats.falsy, parseLatestStats, heroTrend_fromStats, risingHero, orDefault,
    heroTrend_effectiveWeights, exampleWeights,
    normalizeToRange_fin _ (-(3/10)) (3/10) 0 1 (by norm_num),
    normalizeToRange_fin _ (-1) 1 0 1 (by norm_num), JSNum.fin_div_fin _ 50 (by norm_num)]
  norm_num

/-- The hero term of the aggregators on hero 7 under `heroEnv`: the lookup is
made and gives 1. -/
theorem heroEnv_heroTerm :
    (if ¬ falsyId (some 7) ∧ ¬ falsyStr (some "High Rank") ∧ (some ()).isSome then
        analytics_calculateHeroTrendScore heroEnv (some 7) (some "High Rank") (some ())
      else some (JSNum.fin (1 / 2))) = some (JSNum.fin 1) := by
  rw [if_pos (by simp [falsyId, falsyStr]), heroEnv_trend]

theorem risingItem_momentum :
    analytics_calculatePriceMomentum (some risingItem) none = JSNum.fin 1 := by
  simp [analytics_calculatePriceMomentum, risingItem, orDefault,
    normalizeToRange_fin _ (-(5/10)) (5/10) 0 1 (by norm_num),
    JSNum.fin_div_fin _ 1 (by norm_num), JSNum.fin_div_fin _ 2 (by norm_num)]
  norm_num

theorem risingItem_demand :
    analytics_calculateDemandRatio (some risingItem) = JSNum.fin 0 := by
  simp [analytics_calculateDemandRatio, risingItem, orDefault]
  norm_num [JSNum.fin_div_fin]

/-- Witness of C3: a Hero Item whose hero and price both rise while demand is
nil; the hero trend score is looked up and is 1, the weights are non-negative
and only the first trigger holds. -/
theorem investmentScore_heroItem_formula_witness :
    (if ¬ falsyId (some 7) ∧ ¬ falsyStr (some "High Rank") ∧ (some ()).isSome then
        analytics_calculateHeroTrendScore heroEnv (some 7) (some "High Rank") (some ())
      else some (JSNum.fin (1 / 2))) = some (JSNum.fin 1)
    ∧ (0 ≤ heroEnv.ANALYTICS_WEIGHTS.INVESTMENT_SCORE.HERO_TREND
      ∧ 0 ≤ heroEnv.ANALYTICS_WEIGHTS.INVESTMENT_SCORE.VOLATILITY
      ∧ 0 ≤ heroEnv.ANALYTICS_WEIGHTS.INVESTMENT_SCORE.DEMAND_RATIO
      ∧ 0 ≤ heroEnv.ANALYTICS_WEIGHTS.INVESTMENT_SCORE.PRICE_MOMENTUM
      ∧ 0 ≤ heroEnv.ANALYTICS_WEIGHTS.INVESTMENT_SCORE.LIQUIDITY
      ∧ 0 ≤ heroEnv.ANALYTICS_WEIGHTS.INVESTMENT_SCORE.SALES_TREND)
    ∧ (JSNum.gt (JSNum.fin 1) (JSNum.fin (6 / 10))
        && JSNum.gt (analytics_calculatePriceMomentum (some risingItem) none)
            (JSNum.fin (5 / 10))) = true
    ∧ (JSNum.gt (analytics_calculateDemandRatio (some risingItem)) (JSNum.fin (7 / 10))
        && JSNum.gt (analytics_calculateLiquidityScore (some risingItem)) (JSNum.fin (6 / 10)))
        = false
    ∧ ∃ volatility,
        analytics_calculateVolatilityIndex heroEnv (some risingItem) none = some volatility
        ∧ analytics_calculateInvestmentScore heroEnv (some risingItem) (some ()) none
            "Hero Item" (some 7) (some "High Rank")
          = some (JSNum.round (JSNum.fin 100 * JSNum.min (JSNum.fin 1)
              (JSNum.fin (12 / 10)
                * spec_investmentBase heroEnv.ANALYTICS_WEIGHTS.INVESTMENT_SCORE
                    (JSNum.fin 1)
                    volatility (analytics_calculateDemandRatio (some risingItem))
                    (analytics_calculatePriceMomentum (some risingItem) none)
                    (analytics_calculateLiquidityScore (some risingItem))
                    (analytics_calculateSalesTrend (some risingItem))))) := by
  have hw : 0 ≤ heroEnv.ANALYTICS_WEIGHTS.INVESTMENT_SCORE.HERO_TREND
      ∧ 0 ≤ heroEnv.ANALYTICS_WEIGHTS.INVESTMENT_SCORE.VOLATILITY
      ∧ 0 ≤ heroEnv.ANALYTICS_WEIGHTS.INVESTMENT_SCORE.DEMAND_RATIO
      ∧ 0 ≤ heroEnv.ANALYTICS_WEIGHTS.INVESTMENT_SCORE.PRICE_MOMENTUM
      ∧ 0 ≤ heroEnv.ANALYTICS_WEIGHTS.INVESTMENT_SCORE.LIQUIDITY
      ∧ 0 ≤ heroEnv.ANALYTICS_WEIGHTS.INVESTMENT_SCORE.SALES_TREND := by
    simp only [heroEnv, exampleWeights]; norm_num
  have t1 : (JSNum.gt (JSNum.fin 1) (JSNum.fin (6 / 10))
        && JSNum.gt (analytics_calculatePriceMomentum (some risingItem) none)
            (JSNum.fin (5 / 10))) = true := by
    rw [risingItem_momentum]
    simp only [JSNum.gt_fin_fin, Bool.and_eq_true, decide_eq_true_eq]
    norm_num
  have t2 : (JSNum.gt (analytics_calculateDemandRatio (some risingItem)) (JSNum.fin (7 / 10))
        && JSNum.gt (analytics_calculateLiquidityScore (some risingItem)) (JSNum.fin (6 / 10)))
        = false := by
    rw [risingItem_demand]
    simp only [JSNum.gt_fin_fin, Bool.and_eq_false_imp, decide_eq_true_eq]
    norm_num
  obtain ⟨v, hv, -, hpart⟩ := investmentScore_heroItem_formula heroEnv risingItem (some ())
    none (some 7) (some "High Rank")
  exact ⟨heroEnv_heroTerm, hw, t1, t2, v, hv, hpart _ heroEnv_heroTerm hw t1 t2⟩

/-! ## C4 and C5: the Common Item formula and the buyback formula -/

theorem investment_commonItemScore_eq_spec (v d m l s : JSNum) :
    investment_commonItemScore v d m l s = spec_investmentCommonItem v d m s l := by
  simp only [investment_commonItemScore, spec_investmentCommonItem, JSNum.clamp01,
    JSNum.mul_symm (JSNum.fin (30 / 100)), JSNum.mul_symm (JSNum.fin (25 / 100)),
    JSNum.mul_symm (JSNum.fin (20 / 100)), JSNum.mul_symm (JSNum.fin (15 / 100)),
    JSNum.mul_symm (JSNum.fin (10 / 100)), JSNum.mul_symm (JSNum.fin 100)]

/-- The volatility index uses its environment through `Math.sqrt` only. -/
theorem volatilityIndex_env_congr (env1 env2 : Env) (h : env1.sqrt = env2.sqrt)
    (itemData : Option ItemData) (historyData : Option HistoryData) :
    analytics_calculateVolatilityIndex env1 itemData historyData
      = analytics_calculateVolatilityIndex env2 itemData historyData := by
  simp only [analytics_calculateVolatilityIndex, h]

theorem investmentScore_commonItem_eq (env : Env) (d : ItemData) (heroStats : Option Unit)
    (historyData : Option HistoryData) (itemCategory : String)
    (hcat : itemCategory ≠ "Hero Item") (heroId : Option ℤ) (rankCategory : Option String)
    (v : JSNum) (hv : analytics_calculateVolatilityIndex env (some d) historyData = some v) :
    analytics_calculateInvestmentScore env (some d) heroStats historyData itemCategory heroId
        rankCategory
      = some (spec_investmentCommonItem v (analytics_calculateDemandRatio (some d))
          (analytics_calculatePriceMomentum (some d) historyData)
          (analytics_calculateSalesTrend (some d)) (analytics_calculateLiquidityScore (some d))) := by
  simp only [analytics_calculateInvestmentScore, Option.isNone_some, Bool.false_eq_true,
    if_false, hv, investment_heroTrendScore, hcat, false_and, investment_commonItemScore_eq_spec]

/-- C4: for an item category other than 'Hero Item' and a present snapshot,
the investment score is `round(100 * clamp01(0.30*volatility + 0.25*demand +
0.20*momentum + 0.15*salesTrend + 0.10*liquidity))`, with no bonus, and two
runs that differ in the hero statistics, the hero id, the rank category, the
provider, the JSON reader and the weights return the same score. -/
theorem investmentScore_commonItem_ignores_hero (env1 env2 : Env)
    (hsqrt : env1.sqrt = env2.sqrt) (d : ItemData) (historyData : Option HistoryData)
    (itemCategory : String) (hcat : itemCategory ≠ "Hero Item")
    (heroStats1 heroStats2 : Option Unit) (heroId1 heroId2 : Option ℤ)
    (rankCategory1 rankCategory2 : Option String) :
    ∃ volatility, analytics_calculateVolatilityIndex env1 (some d) historyData = some volatility
      ∧ analytics_calculateInvestmentScore env1 (some d) heroStats1 historyData itemCategory
          heroId1 rankCategory1
        = some (spec_investmentCommonItem volatility (analytics_calculateDemandRatio (some d))
            (analytics_calculatePriceMomentum (some d) historyData)
            (analytics_calculateSalesTrend (some d))
            (analytics_calculateLiquidityScore (some d)))
      ∧ analytics_calculateInvestmentScore env2 (some d) heroStats2 historyData itemCategory
          heroId2 rankCategory2
        = analytics_calculateInvestmentScore env1 (some d) heroStats1 historyData itemCategory
          heroId1 rankCategory1 := by
  obtain ⟨v, hv, -⟩ := volatilityIndex_some_inUnit env1 d historyData
  have hv2 : analytics_calculateVolatilityIndex env2 (some d) historyData = some v := by
    rw [← volatilityIndex_env_congr env1 env2 hsqrt]; exact hv
  refine ⟨v, hv, investmentScore_commonItem_eq env1 d heroStats1 historyData itemCategory hcat
    heroId1 rankCategory1 v hv, ?_⟩
  rw [investmentScore_commonItem_eq env1 d heroStats1 historyData itemCategory hcat heroId1
      rankCategory1 v hv,
    investmentScore_commonItem_eq env2 d heroStats2 historyData itemCategory hcat heroId2
      rankCategory2 v hv2]

/-- Witness of C4: a Common Item scored once with no hero input and an empty
provider, once with a hero id and a provider that knows the hero. -/
theorem investmentScore_commonItem_ignores_hero_witness :
    exampleEnv.sqrt = heroEnv.sqrt ∧ "Common Item" ≠ "Hero Item"
    ∧ ∃ volatility,
        analytics_calculateVolatilityIndex exampleEnv (some balancedItem) none = some volatility
        ∧ analytics_calculateInvestmentScore exampleEnv (some balancedItem) none none
            "Common Item" none none
          = some (spec_investmentCommonItem volatility
              (analytics_calculateDemandRatio (some balancedItem))
              (analytics_calculatePriceMomentum (some balancedItem) none)
              (analytics_calculateSalesTrend (some balancedItem))
              (analytics_calculateLiquidityScore (some balancedItem)))
        ∧ analytics_calculateInvestmentScore heroEnv (some balancedItem) (some ()) none
            "Common Item" (some 7) (some "High Rank")
          = analytics_calculateInvestmentScore exampleEnv (some balancedItem) none none
            "Common Item" none none :=
  ⟨rfl, by decide,
    investmentScore_commonItem_ignores_hero exampleEnv heroEnv rfl balancedItem none
      "Common Item" (by decide) none (some ()) none (some 7) none (some "High Rank")⟩

theorem normalizeToRange_unit_eq_clamp01 (x : ℚ) :
    analytics_normalizeToRange (JSNum.fin x) (JSNum.fin 0) (JSNum.fin 1) (JSNum.fin 0)
      (JSNum.fin 1) = JSNum.clamp01 (JSNum.fin x) := by
  rw [normalizeToRange_fin _ _ _ _ _ (by norm_num), JSNum.clamp01_fin]
  norm_num

theorem buybackScore_eq_spec (env : Env) (d : ItemData) (heroStats : Option Unit)
    (historyData : Option HistoryData) (sellPrice currentPrice : ℚ) (hs : 0 < sellPrice)
    (hc : 0 < currentPrice) (heroId : Option ℤ) (rankCategory : Option String)
    (v : JSNum) (hv : analytics_calculateVolatilityIndex env (some d) historyData = some v) :
    analytics_calculateBuybackScore env (some d) heroStats historyData (some sellPrice)
        (some currentPrice) heroId rankCategory
      = Option.map
          (fun heroTrend =>
            spec_buyback env.ANALYTICS_WEIGHTS.BUYBACK_SCORE sellPrice currentPrice v heroTrend
              (analytics_calculateDemandRatio (some d))
              (analytics_calculatePriceMomentum (some d) historyData)
              (analytics_calculateLiquidityScore (some d)))
          (if ¬ falsyId heroId ∧ ¬ falsyStr rankCategory ∧ heroStats.isSome then
            analytics_calculateHeroTrendScore env heroId rankCategory heroStats
          else some (JSNum.fin (1 / 2))) := by
  have hg : ¬ ((some d).isNone = true ∨ falsyNum (some sellPrice) = true
      ∨ falsyNum (some currentPrice) = true) := by
    simp [falsyNum, hs.ne', hc.ne']
  simp only [analytics_calculateBuybackScore, hg, if_false, hv, buyback_heroTrendScore]
  cases (if ¬ falsyId heroId ∧ ¬ falsyStr rankCategory ∧ heroStats.isSome then
      analytics_calculateHeroTrendScore env heroId rankCategory heroStats
    else some (JSNum.fin (1 / 2))) with
  | none => rfl
  | some h =>
    simp only [Option.map_some', Option.getD_some, buyback_score, spec_buyback, JSNum.clamp,
      JSNum.fin_sub_fin, JSNum.fin_div_fin _ _ hs.ne', normalizeToRange_unit_eq_clamp01,
      JSNum.mul_symm (JSNum.fin 100)]

theorem spec_buyback_half (w : BuybackWeights)
    (hsum : w.PRICE_DROP + w.VOLATILITY + w.HERO_TREND + w.DEMAND_RATIO + w.PRICE_MOMENTUM
      + w.LIQUIDITY = 1) :
    spec_buyback w 100 50 (JSNum.fin (1 / 2)) (JSNum.fin (1 / 2)) (JSNum.fin (1 / 2))
      (JSNum.fin (1 / 2)) (JSNum.fin (1 / 2)) = JSNum.fin 50 := by
  have h50 : (100 : ℚ) * (min 1 (max 0 ((100 - 50) / 100)) * w.PRICE_DROP + 1 / 2 * w.VOLATILITY
      + 1 / 2 * w.HERO_TREND + 1 / 2 * w.DEMAND_RATIO + 1 / 2 * w.PRICE_MOMENTUM
      + 1 / 2 * w.LIQUIDITY) = 50 := by
    have : min (1 : ℚ) (max 0 ((100 - 50) / 100)) = 1 / 2 := by norm_num
    rw [this]; linear_combination 50 * hsum
  simp only [spec_buyback, JSNum.clamp, JSNum.fin_sub_fin,
    JSNum.fin_div_fin _ _ (by norm_num : (100 : ℚ) ≠ 0), JSNum.clamp01_fin, JSNum.fin_mul_fin,
    JSNum.fin_add_fin, JSNum.max_fin_fin, JSNum.min_fin_fin, JSNum.round_fin, h50]
  have hfloor : ⌊min (100 : ℚ) (max 0 50) + 1 / 2⌋ = 50 := by
    rw [Int.floor_eq_iff]; norm_num
  rw [hfloor]; norm_num

/-- The buyback formula on the balanced inputs with a hero trend of 1 under
the sample weights: `100 * (0.5*0.3 + 0.5*0.2 + 1*0.2 + 0.5*0.3) = 60`. -/
theorem spec_buyback_risingHero :
    spec_buyback exampleWeights.BUYBACK_SCORE 100 50 (JSNum.fin (1 / 2)) (JSNum.fin 1)
      (JSNum.fin (1 / 2)) (JSNum.fin (1 / 2)) (JSNum.fin (1 / 2)) = JSNum.fin 60 := by
  have h60 : (100 : ℚ) * (min 1 (max 0 ((100 - 50) / 100)) * (30 / 100) + 1 / 2 * (20 / 100)
      + 1 * (20 / 100) + 1 / 2 * (10 / 100) + 1 / 2 * (10 / 100) + 1 / 2 * (10 / 100)) = 60 := by
    have : min (1 : ℚ) (max 0 ((100 - 50) / 100)) = 1 / 2 := by norm_num
    rw [this]; norm_num
  simp only [spec_buyback, exampleWeights, JSNum.clamp, JSNum.fin_sub_fin,
    JSNum.fin_div_fin _ _ (by norm_num : (100 : ℚ) ≠ 0), JSNum.clamp01_fin, JSNum.fin_mul_fin,
    JSNum.fin_add_fin, JSNum.max_fin_fin, JSNum.min_fin_fin, JSNum.round_fin, h60]
  have hfloor : ⌊min (100 : ℚ) (max 0 60) + 1 / 2⌋ = 60 := by
    rw [Int.floor_eq_iff]; norm_num
  rw [hfloor]; norm_num

/-- C5: for a present snapshot and positive sell and current prices, the
volatility index returns and, `heroTrend` being the hero trend score when hero
id, rank category and hero statistics are all present and `0.5` otherwise, the
buyback score is `round(clamp(100 * (priceDropNorm*w_PRICE_DROP +
volatility*w_VOLATILITY + heroTrend*w_HERO_TREND + demand*w_DEMAND_RATIO +
momentum*w_PRICE_MOMENTUM + liquidity*w_LIQUIDITY), 0, 100))` with
`priceDropNorm = clamp01((sellPrice - currentPrice) / sellPrice)`; the score
raises exactly when the hero trend score raises. With `sellPrice = 100`,
`currentPrice = 50`, every other metric equal to `0.5` and Buyback weights
summing to one, the score is exactly 50. -/
theorem buybackScore_formula (env : Env) (d : ItemData) (heroStats : Option Unit)
    (historyData : Option HistoryData) (sellPrice currentPrice : ℚ) (hs : 0 < sellPrice)
    (hc : 0 < currentPrice) (heroId : Option ℤ) (rankCategory : Option String) :
    ∃ volatility, analytics_calculateVolatilityIndex env (some d) historyData = some volatility
      ∧ analytics_calculateBuybackScore env (some d) heroStats historyData (some sellPrice)
          (some currentPrice) heroId rankCategory
        = Option.map
            (fun heroTrend =>
              spec_buyback env.ANALYTICS_WEIGHTS.BUYBACK_SCORE sellPrice currentPrice
                volatility heroTrend (analytics_calculateDemandRatio (some d))
                (analytics_calculatePriceMomentum (some d) historyData)
                (analytics_calculateLiquidityScore (some d)))
            (if ¬ falsyId heroId ∧ ¬ falsyStr rankCategory ∧ heroStats.isSome then
              analytics_calculateHeroTrendScore env heroId rankCategory heroStats
            else some (JSNum.fin (1 / 2)))
      ∧ (sellPrice = 100 → currentPrice = 50 → volatility = JSNum.fin (1 / 2) →
          (if ¬ falsyId heroId ∧ ¬ falsyStr rankCategory ∧ heroStats.isSome then
              analytics_calculateHeroTrendScore env heroId rankCategory heroStats
            else some (JSNum.fin (1 / 2))) = some (JSNum.fin (1 / 2)) →
          analytics_calculateDemandRatio (some d) = JSNum.fin (1 / 2) →
          analytics_calculatePriceMomentum (some d) historyData = JSNum.fin (1 / 2) →
          analytics_calculateLiquidityScore (some d) = JSNum.fin (1 / 2) →
          env.ANALYTICS_WEIGHTS.BUYBACK_SCORE.PRICE_DROP
            + env.ANALYTICS_WEIGHTS.BUYBACK_SCORE.VOLATILITY
            + env.ANALYTICS_WEIGHTS.BUYBACK_SCORE.HERO_TREND
            + env.ANALYTICS_WEIGHTS.BUYBACK_SCORE.DEMAND_RATIO
            + env.ANALYTICS_WEIGHTS.BUYBACK_SCORE.PRICE_MOMENTUM
            + env.ANALYTICS_WEIGHTS.BUYBACK_SCORE.LIQUIDITY = 1 →
          analytics_calculateBuybackScore env (some d) heroStats historyData (some sellPrice)
            (some currentPrice) heroId rankCategory = some (JSNum.fin 50)) := by
  obtain ⟨v, hv, -⟩ := volatilityIndex_some_inUnit env d historyData
  have main := buybackScore_eq_spec env d heroStats historyData sellPrice currentPrice hs hc
    heroId rankCategory v hv
  refine ⟨v, hv, main, ?_⟩
  intro h1 h2 h3 h4 h5 h6 h7 hsum
  rw [main, h4, Option.map_some', h1, h2, h3, h5, h6, h7, spec_buyback_half _ hsum]

theorem balancedItem_liquidity :
    analytics_calculateLiquidityScore (some balancedItem) = JSNum.fin (1 / 2) := by
  simp [analytics_calculateLiquidityScore, balancedItem, orDefault,
    JSNum.fin_div_fin _ 10000 (by norm_num), JSNum.fin_div_fin _ 50000 (by norm_num),
    JSNum.fin_div_fin _ 1000 (by norm_num), JSNum.fin_div_fin _ 24 (by norm_num)]
  norm_num [JSNum.fin_div_fin]

theorem balancedItem_demand :
    analytics_calculateDemandRatio (some balancedItem) = JSNum.fin (1 / 2) := by
  simp [analytics_calculateDemandRatio, balancedItem, orDefault]
  norm_num [JSNum.fin_div_fin]

theorem balancedItem_momentum :
    analytics_calculatePriceMomentum (some balancedItem) none = JSNum.fin (1 / 2) := by
  simp [analytics_calculatePriceMomentum, balancedItem, orDefault]

theorem balancedItem_volatility :
    analytics_calculateVolatilityIndex exampleEnv (some balancedItem) none
      = some (JSNum.fin (1 / 2)) := by
  simp [analytics_calculateVolatilityIndex, volatility_historyStats, volatility_needsFallback,
    volatility_itemStats, volatility_fromStats, balancedItem, orDefault]

/-- Witness of C5: `balancedItem` sold at 100 and now priced at 50. With hero 7
known to the provider the hero trend score is looked up and is 1, and the
buyback score is `100 * (0.5*0.3 + 0.5*0.2 + 1*0.2 + 0.5*0.3) = 60`; with no
hero the hero term is `0.5` and the score is exactly 50. -/
theorem buybackScore_formula_witness :
    (0 : ℚ) < 100 ∧ (0 : ℚ) < 50
    ∧ analytics_calculateHeroTrendScore heroEnv (some 7) (some "High Rank") (some ())
        = some (JSNum.fin 1)
    ∧ analytics_calculateBuybackScore heroEnv (some balancedItem) (some ()) none (some 100)
        (some 50) (some 7) (some "High Rank") = some (JSNum.fin 60)
    ∧ analytics_calculateBuybackScore exampleEnv (some balancedItem) none none (some 100)
        (some 50) none none = some (JSNum.fin 50) := by
  obtain ⟨v, hv, hmain, -⟩ := buybackScore_formula heroEnv balancedItem (some ()) none 100 50
    (by norm_num) (by norm_num) (some 7) (some "High Rank")
  obtain ⟨v0, hv0, -, hpart⟩ := buybackScore_formula exampleEnv balancedItem none none 100 50
    (by norm_num) (by norm_num) none none
  have hvh : v = JSNum.fin (1 / 2) := by
    rw [volatilityIndex_env_congr heroEnv exampleEnv rfl, balancedItem_volatility] at hv
    exact (Option.some.inj hv).symm
  refine ⟨by norm_num, by norm_num, heroEnv_trend, ?_,
    hpart rfl rfl ?_ (by simp [falsyId]) balancedItem_demand balancedItem_momentum
      balancedItem_liquidity ?_⟩
  · rw [hmain, heroEnv_heroTerm, Option.map_some', hvh, balancedItem_demand,
      balancedItem_momentum, balancedItem_liquidity]
    exact congrArg some spec_buyback_risingHero
  · rw [balancedItem_volatility] at hv0
    exact (Option.some.inj hv0).symm
  · simp only [exampleEnv, exampleWeights]; norm_num

/-! ## C6 to C10: risk tiers, weight redistribution, fallbacks -/

/-- C6: on finite inputs `analytics_calculateRiskLevel` returns Low exactly
when `score ≥ 70`, `volatility < 0.5` and `demand > 0.6`; Medium exactly when
that fails and `score ≥ 50`, `volatility < 0.7` and `demand > 0.4`; High
otherwise. `(70, 0.49, 0.61)` is Low and `(69, 0.49, 0.61)` is Medium. -/
theorem riskLevel_classification (score volatility demand : ℚ) :
    (analytics_calculateRiskLevel (JSNum.fin score) (JSNum.fin volatility) (JSNum.fin demand)
        = RiskLevel.low
      ↔ (70 ≤ score ∧ volatility < 5 / 10 ∧ 6 / 10 < demand))
    ∧ (analytics_calculateRiskLevel (JSNum.fin score) (JSNum.fin volatility) (JSNum.fin demand)
        = RiskLevel.medium
      ↔ (¬ (70 ≤ score ∧ volatility < 5 / 10 ∧ 6 / 10 < demand)
          ∧ 50 ≤ score ∧ volatility < 7 / 10 ∧ 4 / 10 < demand))
    ∧ (analytics_calculateRiskLevel (JSNum.fin score) (JSNum.fin volatility) (JSNum.fin demand)
        = RiskLevel.high
      ↔ (¬ (70 ≤ score ∧ volatility < 5 / 10 ∧ 6 / 10 < demand)
          ∧ ¬ (50 ≤ score ∧ volatility < 7 / 10 ∧ 4 / 10 < demand)))
    ∧ analytics_calculateRiskLevel (JSNum.fin 70) (JSNum.fin (49 / 100)) (JSNum.fin (61 / 100))
        = RiskLevel.low
    ∧ analytics_calculateRiskLevel (JSNum.fin 69) (JSNum.fin (49 / 100)) (JSNum.fin (61 / 100))
        = RiskLevel.medium := by
  have key : ∀ s v d : ℚ,
      analytics_calculateRiskLevel (JSNum.fin s) (JSNum.fin v) (JSNum.fin d)
        = if 70 ≤ s ∧ v < 5 / 10 ∧ 6 / 10 < d then RiskLevel.low
          else if 50 ≤ s ∧ v < 7 / 10 ∧ 4 / 10 < d then RiskLevel.medium
          else RiskLevel.high := by
    intro s v d
    simp only [analytics_calculateRiskLevel, JSNum.ge_fin_fin, JSNum.lt_fin_fin,
      JSNum.gt_fin_fin, Bool.and_eq_true, decide_eq_true_eq, and_assoc]
  refine ⟨?_, ?_, ?_, ?_, ?_⟩
  · rw [key]; split_ifs <;> simp_all
  · rw [key]; split_ifs <;> simp_all
  · rw [key]; split_ifs <;> simp_all
  · rw [key]; norm_num
  · rw [key]; norm_num

/-- C7: in `analytics_calculateHeroTrendScore` the weights applied to the
pro-contest-7d term and to the pick-rate-7d term always sum to
`w(PRO_CONTEST_RATE_CHANGE_7D) + w(PICK_RATE_CHANGE_IMMORTAL_7D)`, and when
`proContestRateChange7d` is zero (or absent) they are `0` and that combined
weight; in `analytics_calculateMetaSignal` the same holds for the 24h weight
moving to the 7d weight when `pickRateChange24h` is zero (or absent). The last
two parts show the scores as computed with these weights. -/
theorem weight_redistribution_conserves_mass (wh : HeroTrendWeights) (wm : MetaSignalWeights)
    (stats : HeroStatsRecord) :
    ((heroTrend_effectiveWeights wh (orDefault stats.proContestRateChange7d 0)).1
        + (heroTrend_effectiveWeights wh (orDefault stats.proContestRateChange7d 0)).2
      = wh.PRO_CONTEST_RATE_CHANGE_7D + wh.PICK_RATE_CHANGE_IMMORTAL_7D)
    ∧ (orDefault stats.proContestRateChange7d 0 = 0 →
        heroTrend_effectiveWeights wh (orDefault stats.proContestRateChange7d 0)
          = (0, wh.PRO_CONTEST_RATE_CHANGE_7D + wh.PICK_RATE_CHANGE_IMMORTAL_7D))
    ∧ ((metaSignal_effectiveWeights wm (orDefault stats.pickRateChange24h 0)).1
        + (metaSignal_effectiveWeights wm (orDefault stats.pickRateChange24h 0)).2
      = wm.PICK_RATE_CHANGE_IMMORTAL_24H + wm.PICK_RATE_CHANGE_IMMORTAL_7D)
    ∧ (orDefault stats.pickRateChange24h 0 = 0 →
        metaSignal_effectiveWeights wm (orDefault stats.pickRateChange24h 0)
          = (0, wm.PICK_RATE_CHANGE_IMMORTAL_24H + wm.PICK_RATE_CHANGE_IMMORTAL_7D))
    ∧ heroTrend_fromStats wh stats
      = JSNum.clamp01
          (analytics_normalizeToRange (JSNum.fin (orDefault stats.proContestRateChange7d 0))
              (JSNum.fin (-(3 / 10))) (JSNum.fin (3 / 10)) (JSNum.fin 0) (JSNum.fin 1)
            * JSNum.fin
                (heroTrend_effectiveWeights wh (orDefault stats.proContestRateChange7d 0)).1
          + analytics_normalizeToRange (JSNum.fin (orDefault stats.pickRateChange7d 0))
              (JSNum.fin (-(3 / 10))) (JSNum.fin (3 / 10)) (JSNum.fin 0) (JSNum.fin 1)
            * JSNum.fin
                (heroTrend_effectiveWeights wh (orDefault stats.proContestRateChange7d 0)).2
          + analytics_normalizeToRange
              ((JSNum.fin (orDefault stats.pickRatePercent 0) - JSNum.fin 50) / JSNum.fin 50)
              (JSNum.fin (-1)) (JSNum.fin 1) (JSNum.fin 0) (JSNum.fin 1)
            * JSNum.fin wh.PICK_RATE_IMMORTAL
          + analytics_normalizeToRange
              ((JSNum.fin (orDefault stats.winRate 0) - JSNum.fin 50) / JSNum.fin 50)
              (JSNum.fin (-1)) (JSNum.fin 1) (JSNum.fin 0) (JSNum.fin 1)
            * JSNum.fin wh.WIN_RATE)
    ∧ metaSignal_fromStats wm stats
      = JSNum.round (JSNum.min (JSNum.fin 100) (JSNum.max (JSNum.fin 0)
          ((analytics_normalizeToRange (JSNum.fin (orDefault stats.pickRateChange24h 0))
              (JSNum.fin (-(5 / 10))) (JSNum.fin (5 / 10)) (JSNum.fin 0) (JSNum.fin 1)
            * JSNum.fin (metaSignal_effectiveWeights wm (orDefault stats.pickRateChange24h 0)).1
          + analytics_normalizeToRange (JSNum.fin (orDefault stats.proContestRateChange7d 0))
              (JSNum.fin (-(3 / 10))) (JSNum.fin (3 / 10)) (JSNum.fin 0) (JSNum.fin 1)
            * JSNum.fin wm.PRO_CONTEST_RATE_CHANGE_7D
          + analytics_normalizeToRange (JSNum.fin (orDefault stats.pickRateChange7d 0))
              (JSNum.fin (-(3 / 10))) (JSNum.fin (3 / 10)) (JSNum.fin 0) (JSNum.fin 1)
            * JSNum.fin (metaSignal_effectiveWeights wm (orDefault stats.pickRateChange24h 0)).2)
          * JSNum.fin 100))) := by
  refine ⟨?_, ?_, ?_, ?_, rfl, rfl⟩
  · unfold heroTrend_effectiveWeights
    split
    · simp only []; ring
    · rfl
  · intro h
    simp only [heroTrend_effectiveWeights, h, or_self, if_true, Prod.mk.injEq, true_and]
    ring
  · unfold metaSignal_effectiveWeights
    split
    · simp only []; ring
    · rfl
  · intro h
    simp only [metaSignal_effectiveWeights, h, or_self, if_true, Prod.mk.injEq, true_and]
    ring

/-- Witness of C7: `quietHero` has a zero pro-contest delta and no 24-hour
pick-rate delta. -/
theorem weight_redistribution_conserves_mass_witness :
    orDefault quietHero.proContestRateChange7d 0 = 0
    ∧ orDefault quietHero.pickRateChange24h 0 = 0
    ∧ heroTrend_effectiveWeights exampleWeights.HERO_TREND_SCORE
          (orDefault quietHero.proContestRateChange7d 0)
        = (0, exampleWeights.HERO_TREND_SCORE.PRO_CONTEST_RATE_CHANGE_7D
            + exampleWeights.HERO_TREND_SCORE.PICK_RATE_CHANGE_IMMORTAL_7D)
    ∧ metaSignal_effectiveWeights exampleWeights.META_SIGNAL
          (orDefault quietHero.pickRateChange24h 0)
        = (0, exampleWeights.META_SIGNAL.PICK_RATE_CHANGE_IMMORTAL_24H
            + exampleWeights.META_SIGNAL.PICK_RATE_CHANGE_IMMORTAL_7D) := by
  have h1 : orDefault quietHero.proContestRateChange7d 0 = 0 := by simp [quietHero, orDefault]
  have h2 : orDefault quietHero.pickRateChange24h 0 = 0 := by simp [quietHero, orDefault]
  have h := weight_redistribution_conserves_mass exampleWeights.HERO_TREND_SCORE
    exampleWeights.META_SIGNAL quietHero
  exact ⟨h1, h2, h.2.1 h1, h.2.2.2.1 h2⟩

/-- C8: when the hero id is absent, or the provider has no data for
`(heroId, rankCategory)`, or the provider returns a string that `JSON.parse`
rejects, the hero trend score is exactly `0.5` and the meta signal exactly
`0`. -/
theorem hero_functions_fallback (env : Env) (heroId : Option ℤ) (rankCategory : Option String)
    (heroStats : Option Unit)
    (h : heroId = none
      ∨ env.heroStats_getLatestStats heroId rankCategory = LatestStats.absent
      ∨ ∃ s, env.heroStats_getLatestStats heroId rankCategory = LatestStats.text s
          ∧ env.jsonParse s = none) :
    analytics_calculateHeroTrendScore env heroId rankCategory heroStats
        = some (JSNum.fin (1 / 2))
    ∧ analytics_calculateMetaSignal env heroId rankCategory heroStats
        = some (JSNum.fin 0) := by
  simp only [analytics_calculateHeroTrendScore, analytics_calculateMetaSignal]
  rcases h with h | h | ⟨s, hs, hp⟩
  · subst h; simp [falsyId]
  · rw [h]; simp [LatestStats.falsy]
  · rw [hs]; simp [parseLatestStats, hp]

/-- Witness of C8: a provider whose answer is not JSON. -/
theorem hero_functions_fallback_witness :
    (∃ s, brokenEnv.heroStats_getLatestStats (some 7) (some "High Rank") = LatestStats.text s
        ∧ brokenEnv.jsonParse s = none)
    ∧ analytics_calculateHeroTrendScore brokenEnv (some 7) (some "High Rank") (some ())
        = some (JSNum.fin (1 / 2))
    ∧ analytics_calculateMetaSignal brokenEnv (some 7) (some "High Rank") (some ())
        = some (JSNum.fin 0) :=
  ⟨⟨"not json", rfl, rfl⟩,
    hero_functions_fallback brokenEnv (some 7) (some "High Rank") (some ())
      (Or.inr (Or.inr ⟨"not json", rfl, rfl⟩))⟩

/-- C9: the investment score is exactly 50 when the snapshot is absent, and
the buyback score is exactly 50 when the snapshot is absent or the sell price
or the current price is absent or zero, whatever the other arguments. -/
theorem scores_fallback_50 (env : Env) (itemData : Option ItemData) (heroStats : Option Unit)
    (historyData : Option HistoryData) (itemCategory : String)
    (sellPrice currentPrice : Option ℚ) (heroId : Option ℤ) (rankCategory : Option String) :
    analytics_calculateInvestmentScore env none heroStats historyData itemCategory heroId
        rankCategory = some (JSNum.fin 50)
    ∧ ((itemData = none ∨ sellPrice = none ∨ sellPrice = some 0 ∨ currentPrice = none
          ∨ currentPrice = some 0) →
        analytics_calculateBuybackScore env itemData heroStats historyData sellPrice
          currentPrice heroId rankCategory = some (JSNum.fin 50)) := by
  refine ⟨by simp [analytics_calculateInvestmentScore], fun h => ?_⟩
  have hg : itemData.isNone = true ∨ falsyNum sellPrice = true
      ∨ falsyNum currentPrice = true := by
    rcases h with h | h | h | h | h <;> subst h <;> simp [falsyNum]
  simp only [analytics_calculateBuybackScore, hg, if_true]

/-- Witness of C9: a present snapshot with a current price of zero. -/
theorem scores_fallback_50_witness :
    analytics_calculateBuybackScore exampleEnv (some balancedItem) none none (some 100)
      (some 0) none none = some (JSNum.fin 50) :=
  (scores_fallback_50 exampleEnv (some balancedItem) none none "Common Item" (some 100)
    (some 0) none none).2 (Or.inr (Or.inr (Or.inr (Or.inr rfl))))

/-- C10 (code): with an absent snapshot and a present history that holds no
strictly positive price (a zero price, an empty list, no list at all, or
non-positive prices only) `analytics_calculateVolatilityIndex` raises: the
fallback branch reads `itemData.pricemin`. -/
theorem volatilityIndex_raises_without_snapshot (env : Env) :
    analytics_calculateVolatilityIndex env none (some { prices := some [0] }) = none
    ∧ analytics_calculateVolatilityIndex env none (some { prices := some [] }) = none
    ∧ analytics_calculateVolatilityIndex env none (some { prices := none }) = none
    ∧ analytics_calculateVolatilityIndex env none (some { prices := some [-3, 0] }) = none := by
  refine ⟨?_, ?_, ?_, ?_⟩ <;>
    simp [analytics_calculateVolatilityIndex, volatility_historyStats, volatility_needsFallback]

/-! ## C11 to C14: the normalisation utilities -/

/-- The linear map of `analytics_normalizeToRange` does not decrease with the
value when the source range is increasing and the target range is not
decreasing. -/
theorem normalized_mono (v1 v2 a b t T : ℚ) (hab : a < b) (htT : t ≤ T) (hv : v1 ≤ v2) :
    (v1 - a) / (b - a) * (T - t) + t ≤ (v2 - a) / (b - a) * (T - t) + t := by
  have hba : 0 < b - a := sub_pos.mpr hab
  have h1 : (v1 - a) / (b - a) ≤ (v2 - a) / (b - a) :=
    div_le_div_of_nonneg_right (by linarith) hba.le
  have h2 : (v1 - a) / (b - a) * (T - t) ≤ (v2 - a) / (b - a) * (T - t) :=
    mul_le_mul_of_nonneg_right h1 (sub_nonneg.mpr htT)
  linarith

/-- C11: for a source range `min < max`, any target bounds and `v1 ≤ v2`, both
results of `analytics_normalizeToRange` are finite and the first is at most the
second. -/
theorem normalizeToRange_monotone (v1 v2 a b t T : ℚ) (hab : a < b) (hv : v1 ≤ v2) :
    ∃ r1 r2 : ℚ,
      analytics_normalizeToRange (JSNum.fin v1) (JSNum.fin a) (JSNum.fin b) (JSNum.fin t)
          (JSNum.fin T) = JSNum.fin r1
      ∧ analytics_normalizeToRange (JSNum.fin v2) (JSNum.fin a) (JSNum.fin b) (JSNum.fin t)
          (JSNum.fin T) = JSNum.fin r2
      ∧ r1 ≤ r2 := by
  refine ⟨_, _, normalizeToRange_fin v1 a b t T (ne_of_gt hab),
    normalizeToRange_fin v2 a b t T (ne_of_gt hab), ?_⟩
  rcases le_or_lt t T with htT | hTt
  · exact min_le_min le_rfl (max_le_max le_rfl (normalized_mono v1 v2 a b t T hab htT hv))
  · rw [min_eq_left (le_trans hTt.le (le_max_left _ _)),
      min_eq_left (le_trans hTt.le (le_max_left _ _))]

/-- Witness of C11: the values 1 and 3 in the source range `[0, 4]`. -/
theorem normalizeToRange_monotone_witness :
    (0 : ℚ) < 4 ∧ (1 : ℚ) ≤ 3
    ∧ ∃ r1 r2 : ℚ,
      analytics_normalizeToRange (JSNum.fin 1) (JSNum.fin 0) (JSNum.fin 4) (JSNum.fin 0)
          (JSNum.fin 100) = JSNum.fin r1
      ∧ analytics_normalizeToRange (JSNum.fin 3) (JSNum.fin 0) (JSNum.fin 4) (JSNum.fin 0)
          (JSNum.fin 100) = JSNum.fin r2
      ∧ r1 ≤ r2 :=
  ⟨by norm_num, by norm_num,
    normalizeToRange_monotone 1 3 0 4 0 100 (by norm_num) (by norm_num)⟩

/-- C12: for `min < max` and `targetMin ≤ targetMax` the result of
`analytics_normalizeToRange` is a finite value of `[targetMin, targetMax]`; it
is `targetMin` for `value ≤ min`, `targetMax` for `value ≥ max`, and
`targetMin + (value - min) / (max - min) * (targetMax - targetMin)` for a value
of `[min, max]`. -/
theorem normalizeToRange_clamped_linear (v a b t T : ℚ) (hab : a < b) (htT : t ≤ T) :
    ∃ r : ℚ,
      analytics_normalizeToRange (JSNum.fin v) (JSNum.fin a) (JSNum.fin b) (JSNum.fin t)
          (JSNum.fin T) = JSNum.fin r
      ∧ t ≤ r ∧ r ≤ T
      ∧ (v ≤ a → r = t)
      ∧ (b ≤ v → r = T)
      ∧ (a ≤ v → v ≤ b → r = t + (v - a) / (b - a) * (T - t)) := by
  have hba : 0 < b - a := sub_pos.mpr hab
  have hTt : 0 ≤ T - t := sub_nonneg.mpr htT
  refine ⟨_, normalizeToRange_fin v a b t T (ne_of_gt hab), le_min htT (le_max_left _ _),
    min_le_left _ _, ?_, ?_, ?_⟩
  · intro hva
    have h : (v - a) / (b - a) * (T - t) ≤ 0 :=
      mul_nonpos_of_nonpos_of_nonneg (div_nonpos_of_nonpos_of_nonneg (by linarith) hba.le) hTt
    rw [max_eq_left (by linarith), min_eq_right htT]
  · intro hbv
    have h1 : 1 ≤ (v - a) / (b - a) := by
      rw [le_div_iff₀ hba]; linarith
    have h : T - t ≤ (v - a) / (b - a) * (T - t) := by
      nlinarith
    rw [max_eq_right (by linarith), min_eq_left (by linarith)]
  · intro hav hvb
    have h0 : 0 ≤ (v - a) / (b - a) := div_nonneg (by linarith) hba.le
    have h1 : (v - a) / (b - a) ≤ 1 := by
      rw [div_le_iff₀ hba]; linarith
    have hlo : 0 ≤ (v - a) / (b - a) * (T - t) := mul_nonneg h0 hTt
    have hhi : (v - a) / (b - a) * (T - t) ≤ T - t := by
      nlinarith
    rw [max_eq_right (by linarith), min_eq_right (by linarith)]
    ring

/-- Witness of C12: the value 1 of the source range `[0, 4]` mapped onto
`[0, 100]`. -/
theorem normalizeToRange_clamped_linear_witness :
    (0 : ℚ) < 4 ∧ (0 : ℚ) ≤ 100
    ∧ ∃ r : ℚ,
      analytics_normalizeToRange (JSNum.fin 1) (JSNum.fin 0) (JSNum.fin 4) (JSNum.fin 0)
          (JSNum.fin 100) = JSNum.fin r
      ∧ 0 ≤ r ∧ r ≤ 100
      ∧ ((1 : ℚ) ≤ 0 → r = 0)
      ∧ ((4 : ℚ) ≤ 1 → r = 100)
      ∧ ((0 : ℚ) ≤ 1 → (1 : ℚ) ≤ 4 → r = 0 + (1 - 0) / (4 - 0) * (100 - 0)) :=
  ⟨by norm_num, by norm_num,
    normalizeToRange_clamped_linear 1 0 4 0 100 (by norm_num) (by norm_num)⟩

/-- C13: on a degenerate source range `[a, a]`, `analytics_normalizeToRange`
returns the midpoint `(tMin + tMax) / 2` of the target range, finite, whatever
the value (NaN and the infinities included). -/
theorem normalizeToRange_degenerate (v : JSNum) (a tMin tMax : ℚ) :
    analytics_normalizeToRange v (JSNum.fin a) (JSNum.fin a) (JSNum.fin tMin) (JSNum.fin tMax)
      = JSNum.fin ((tMin + tMax) / 2) := by
  simp [analytics_normalizeToRange, JSNum.fin_div_fin _ 2 (by norm_num)]

/-- C14 (code): with `inverse = true` the result of `analytics_normalizeMetric`
is `1 - normalized`, not clamped: for the value 2 in the range `[0, 1]` it is
`-1`, outside `[0, 1]` and different from one minus the result with
`inverse = false`, which is `1`. -/
theorem normalizeMetric_inverse_not_clamped :
    analytics_normalizeMetric (JSNum.fin 2) (JSNum.fin 0) (JSNum.fin 1) true = JSNum.fin (-1)
    ∧ analytics_normalizeMetric (JSNum.fin 2) (JSNum.fin 0) (JSNum.fin 1) false = JSNum.fin 1
    ∧ ¬ (analytics_normalizeMetric (JSNum.fin 2) (JSNum.fin 0) (JSNum.fin 1) true).InUnit
    ∧ analytics_normalizeMetric (JSNum.fin 2) (JSNum.fin 0) (JSNum.fin 1) true
        ≠ JSNum.fin 1
          - analytics_normalizeMetric (JSNum.fin 2) (JSNum.fin 0) (JSNum.fin 1) false := by
  have h1 : analytics_normalizeMetric (JSNum.fin 2) (JSNum.fin 0) (JSNum.fin 1) true
      = JSNum.fin (-1) := by
    simp [analytics_normalizeMetric, JSNum.fin_div_fin _ 1 (by norm_num)]
    norm_num
  have h2 : analytics_normalizeMetric (JSNum.fin 2) (JSNum.fin 0) (JSNum.fin 1) false
      = JSNum.fin 1 := by
    simp [analytics_normalizeMetric, JSNum.fin_div_fin _ 1 (by norm_num)]
  refine ⟨h1, h2, ?_, ?_⟩
  · rw [h1]; simp [JSNum.InUnit]
  · rw [h1, h2]; simp

/-! ## C15 to C18: liquidity score and demand ratio on present fields -/

theorem orDefault_some (v d : ℚ) : orDefault (some v) d = if v = 0 then d else v := rfl

theorem orDefault_some_zero_default (v : ℚ) : orDefault (some v) 0 = v := by
  by_cases h : v = 0 <;> simp [orDefault, h]

/-- Closed form of the liquidity score when the four values in use, after the
defaults, are not negative: the sum of the four terms, which the final clamp
leaves unchanged. -/
theorem liquidityScore_closed_form (d : ItemData)
    (h24 : 0 ≤ orDefault d.sold24h 0) (h7 : 0 ≤ orDefault d.sold7d 0)
    (ho : 0 ≤ orDefault d.offervolume 1) (hh : 0 ≤ orDefault d.hourstosold 24) :
    analytics_calculateLiquidityScore (some d)
      = JSNum.fin (spec_liquidity (orDefault d.sold24h 0) (orDefault d.sold7d 0)
          (orDefault d.offervolume 1) (orDefault d.hourstosold 24)) := by
  have ho1 : 0 < 1 + orDefault d.offervolume 1 / 1000 := by positivity
  have hh1 : 0 < 1 + orDefault d.hourstosold 24 / 24 := by positivity
  have t1a : 0 ≤ min (orDefault d.sold24h 0 / 10000) 1 := le_min (by positivity) zero_le_one
  have t1b : min (orDefault d.sold24h 0 / 10000) 1 ≤ 1 := min_le_right _ _
  have t2a : 0 ≤ min (orDefault d.sold7d 0 / 50000) 1 := le_min (by positivity) zero_le_one
  have t2b : min (orDefault d.sold7d 0 / 50000) 1 ≤ 1 := min_le_right _ _
  have t3a : 0 ≤ 1 / (1 + orDefault d.offervolume 1 / 1000) := by positivity
  have t3b : 1 / (1 + orDefault d.offervolume 1 / 1000) ≤ 1 := by
    rw [div_le_one ho1]; linarith [div_nonneg ho (by norm_num : (0 : ℚ) ≤ 1000)]
  have t4a : 0 ≤ 1 / (1 + orDefault d.hourstosold 24 / 24) := by positivity
  have t4b : 1 / (1 + orDefault d.hourstosold 24 / 24) ≤ 1 := by
    rw [div_le_one hh1]; linarith [div_nonneg hh (by norm_num : (0 : ℚ) ≤ 24)]
  simp only [analytics_calculateLiquidityScore, JSNum.fin_div_fin _ 10000 (by norm_num),
    JSNum.fin_div_fin _ 50000 (by norm_num), JSNum.fin_div_fin _ 1000 (by norm_num),
    JSNum.fin_div_fin _ 24 (by norm_num), JSNum.fin_add_fin, JSNum.fin_div_fin _ _ ho1.ne',
    JSNum.fin_div_fin _ _ hh1.ne', JSNum.min_fin_fin, JSNum.max_fin_fin, JSNum.fin_mul_fin]
  congr 1
  rw [max_eq_right (by nlinarith), min_eq_right (by nlinarith)]
  unfold spec_liquidity
  ring

/-- The four terms of the specified liquidity formula lie in `[0, weight]`
for non-negative arguments. -/
theorem spec_liquidity_terms (s24 s7 o h : ℚ) (h24 : 0 ≤ s24) (h7 : 0 ≤ s7) (ho : 0 ≤ o)
    (hh : 0 ≤ h) :
    (0 ≤ min (s24 / 10000) 1 * (35 / 100) ∧ min (s24 / 10000) 1 * (35 / 100) ≤ 35 / 100)
    ∧ (0 ≤ min (s7 / 50000) 1 * (25 / 100) ∧ min (s7 / 50000) 1 * (25 / 100) ≤ 25 / 100)
    ∧ (0 ≤ (25 / 100) / (1 + o / 1000) ∧ (25 / 100) / (1 + o / 1000) ≤ 25 / 100)
    ∧ (0 ≤ (15 / 100) / (1 + h / 24) ∧ (15 / 100) / (1 + h / 24) ≤ 15 / 100) := by
  have ho1 : 0 < 1 + o / 1000 := by positivity
  have hh1 : 0 < 1 + h / 24 := by positivity
  have t1a : 0 ≤ min (s24 / 10000) 1 := le_min (by positivity) zero_le_one
  have t1b : min (s24 / 10000) 1 ≤ 1 := min_le_right _ _
  have t2a : 0 ≤ min (s7 / 50000) 1 := le_min (by positivity) zero_le_one
  have t2b : min (s7 / 50000) 1 ≤ 1 := min_le_right _ _
  refine ⟨⟨by positivity, by linarith⟩, ⟨by positivity, by linarith⟩, ⟨by positivity, ?_⟩,
    ⟨by positivity, ?_⟩⟩
  · rw [div_le_iff₀ ho1]; nlinarith [div_nonneg ho (by norm_num : (0 : ℚ) ≤ 1000)]
  · rw [div_le_iff₀ hh1]; nlinarith [div_nonneg hh (by norm_num : (0 : ℚ) ≤ 24)]

theorem liquidityScore_zeroFieldsItem :
    analytics_calculateLiquidityScore (some zeroFieldsItem) = JSNum.fin (13003 / 40040) := by
  rw [liquidityScore_closed_form]
  · simp [zeroFieldsItem, orDefault, spec_liquidity]; norm_num
  all_goals simp [zeroFieldsItem, orDefault]

theorem liquidityScore_emptyItem :
    analytics_calculateLiquidityScore (some emptyItem) = JSNum.fin (13003 / 40040) := by
  rw [liquidityScore_closed_form]
  · simp [emptyItem, orDefault, spec_liquidity]; norm_num
  all_goals simp [emptyItem, orDefault]

/-- C15 (as stated, refuted): with the four fields present and zero, the
liquidity score is `13003/40040`, not the `0.4` that the formula gives on the
given zeros: the zero offer volume and the zero hours-to-sold are replaced by
the defaults 1 and 24. -/
theorem liquidityScore_zero_fields_counterexample :
    analytics_calculateLiquidityScore (some zeroFieldsItem) = JSNum.fin (13003 / 40040)
    ∧ analytics_calculateLiquidityScore (some zeroFieldsItem)
        ≠ JSNum.fin (spec_liquidity 0 0 0 0) := by
  refine ⟨liquidityScore_zeroFieldsItem, ?_⟩
  rw [liquidityScore_zeroFieldsItem]
  simp [spec_liquidity]
  norm_num


/-- C15 (amended): for a present snapshot whose fields sold24h, sold7d,
offerVolume and hoursToSold are all present and non-negative, the liquidity
score is `min(sold24h/10000, 1)*0.35 + min(sold7d/50000, 1)*0.25 + 0.25/(1 +
o/1000) + 0.15/(1 + h/24)` where `o` is the offer volume, or the default 1 when
it is zero, and `h` the hours to sold, or the default 24 when it is zero; hence
the formula on the given values when both are positive. Each of the four terms
lies in `[0, its weight]`. -/
theorem liquidityScore_present_fields (d : ItemData) (s24 s7 o h : ℚ)
    (e24 : d.sold24h = some s24) (e7 : d.sold7d = some s7) (eo : d.offervolume = some o)
    (eh : d.hourstosold = some h) (h24 : 0 ≤ s24) (h7 : 0 ≤ s7) (ho : 0 ≤ o) (hh : 0 ≤ h) :
    analytics_calculateLiquidityScore (some d)
      = JSNum.fin (spec_liquidity s24 s7 (if o = 0 then 1 else o) (if h = 0 then 24 else h))
    ∧ (0 < o → 0 < h →
        analytics_calculateLiquidityScore (some d) = JSNum.fin (spec_liquidity s24 s7 o h))
    ∧ (0 ≤ min (s24 / 10000) 1 * (35 / 100) ∧ min (s24 / 10000) 1 * (35 / 100) ≤ 35 / 100)
    ∧ (0 ≤ min (s7 / 50000) 1 * (25 / 100) ∧ min (s7 / 50000) 1 * (25 / 100) ≤ 25 / 100)
    ∧ (0 ≤ (25 / 100) / (1 + (if o = 0 then 1 else o) / 1000)
        ∧ (25 / 100) / (1 + (if o = 0 then 1 else o) / 1000) ≤ 25 / 100)
    ∧ (0 ≤ (15 / 100) / (1 + (if h = 0 then 24 else h) / 24)
        ∧ (15 / 100) / (1 + (if h = 0 then 24 else h) / 24) ≤ 15 / 100) := by
  have ho' : (0 : ℚ) ≤ if o = 0 then 1 else o := by split <;> linarith
  have hh' : (0 : ℚ) ≤ if h = 0 then 24 else h := by split <;> linarith
  have main : analytics_calculateLiquidityScore (some d)
      = JSNum.fin (spec_liquidity s24 s7 (if o = 0 then 1 else o)
          (if h = 0 then 24 else h)) := by
    rw [liquidityScore_closed_form d]
    · rw [e24, e7, eo, eh, orDefault_some_zero_default, orDefault_some_zero_default,
        orDefault_some, orDefault_some]
    · rw [e24, orDefault_some_zero_default]; exact h24
    · rw [e7, orDefault_some_zero_default]; exact h7
    · rw [eo, orDefault_some]; exact ho'
    · rw [eh, orDefault_some]; exact hh'
  refine ⟨main, ?_, spec_liquidity_terms s24 s7 _ _ h24 h7 ho' hh'⟩
  intro po ph
  rw [main, if_neg po.ne', if_neg ph.ne']

/-- Witness of C15: `balancedItem` completed with 12 hours to sold. -/
theorem liquidityScore_present_fields_witness :
    ((0 : ℚ) ≤ 5000 ∧ (0 : ℚ) ≤ 25000 ∧ (0 : ℚ) < 1000 ∧ (0 : ℚ) < 12)
    ∧ analytics_calculateLiquidityScore (some { balancedItem with hourstosold := some 12 })
      = JSNum.fin (spec_liquidity 5000 25000 1000 12) :=
  ⟨by norm_num,
    (liquidityScore_present_fields { balancedItem with hourstosold := some 12 } 5000 25000 1000
      12 rfl rfl rfl rfl (by norm_num) (by norm_num) (by norm_num) (by norm_num)).2.1
      (by norm_num) (by norm_num)⟩

/-- C16 (as stated, refuted): on a present snapshot without any field the
liquidity score is `13003/40040`, not the fallback `0.5`. -/
theorem liquidityScore_empty_counterexample :
    analytics_calculateLiquidityScore (some emptyItem) ≠ JSNum.fin (1 / 2) := by
  rw [liquidityScore_emptyItem]
  simp
  norm_num

/-- C16 (amended): the fallback `0.5` is the liquidity score of an absent
snapshot; on a present snapshot without any field the per-field defaults
(0, 0, 1, 24) compute `0.25/(1 + 1/1000) + 0.15/(1 + 24/24) = 13003/40040`. -/
theorem liquidityScore_absent_and_empty :
    analytics_calculateLiquidityScore none = JSNum.fin (1 / 2)
    ∧ analytics_calculateLiquidityScore (some emptyItem) = JSNum.fin (13003 / 40040)
    ∧ analytics_calculateLiquidityScore (some emptyItem)
        = JSNum.fin (spec_liquidity 0 0 1 24) := by
  refine ⟨rfl, liquidityScore_emptyItem, ?_⟩
  rw [liquidityScore_emptyItem]
  simp [spec_liquidity]
  norm_num

/-- Closed form of the demand ratio when the two values in use, after the
defaults, are not negative. -/
theorem demandRatio_closed_form (d : ItemData) (hb : 0 ≤ orDefault d.buyordervolume 0)
    (ho : 0 ≤ orDefault d.offervolume 1) :
    analytics_calculateDemandRatio (some d)
      = JSNum.fin (orDefault d.buyordervolume 0
          / (orDefault d.buyordervolume 0 + orDefault d.offervolume 1 + 1)) := by
  have hden : 0 < orDefault d.buyordervolume 0 + orDefault d.offervolume 1 + 1 := by positivity
  have h0 : 0 ≤ orDefault d.buyordervolume 0
      / (orDefault d.buyordervolume 0 + orDefault d.offervolume 1 + 1) := by positivity
  have h1 : orDefault d.buyordervolume 0
      / (orDefault d.buyordervolume 0 + orDefault d.offervolume 1 + 1) ≤ 1 := by
    rw [div_le_one hden]; linarith
  simp only [analytics_calculateDemandRatio, JSNum.fin_add_fin, JSNum.fin_div_fin _ _ hden.ne',
    JSNum.max_fin_fin, JSNum.min_fin_fin]
  rw [max_eq_right h0, min_eq_right h1]

theorem demandRatio_zeroOfferItem :
    analytics_calculateDemandRatio (some zeroOfferItem) = JSNum.fin (1 / 3) := by
  rw [demandRatio_closed_form]
  · simp [zeroOfferItem, orDefault]; norm_num
  all_goals simp [zeroOfferItem, orDefault]

/-- C17 (as stated, refuted): with one buy order and a present offer volume of
zero the demand ratio is `1/3`, not `1 / (1 + 0 + 1) = 1/2`: the zero offer
volume is replaced by the default 1. -/
theorem demandRatio_zero_offer_counterexample :
    analytics_calculateDemandRatio (some zeroOfferItem) = JSNum.fin (1 / 3)
    ∧ analytics_calculateDemandRatio (some zeroOfferItem)
        ≠ JSNum.fin (1 / (1 + 0 + 1)) := by
  refine ⟨demandRatio_zeroOfferItem, ?_⟩
  rw [demandRatio_zeroOfferItem]
  simp
  norm_num

/-- C17 (amended): for a present snapshot with buy-order volume `b ≥ 0` and
offer volume `o ≥ 0` both present, the demand ratio is `b / (b + o' + 1)` where
`o'` is `o`, or the default 1 when `o` is zero; hence `b / (b + o + 1)` when
`o > 0` or `b = 0`. -/
theorem demandRatio_present_fields (d : ItemData) (b o : ℚ)
    (eb : d.buyordervolume = some b) (eo : d.offervolume = some o) (hb : 0 ≤ b) (ho : 0 ≤ o) :
    analytics_calculateDemandRatio (some d)
      = JSNum.fin (b / (b + (if o = 0 then 1 else o) + 1))
    ∧ (0 < o ∨ b = 0 → analytics_calculateDemandRatio (some d) = JSNum.fin (b / (b + o + 1))) := by
  have ho' : (0 : ℚ) ≤ if o = 0 then 1 else o := by split <;> linarith
  have main : analytics_calculateDemandRatio (some d)
      = JSNum.fin (b / (b + (if o = 0 then 1 else o) + 1)) := by
    rw [demandRatio_closed_form d]
    · rw [eb, eo, orDefault_some_zero_default, orDefault_some]
    · rw [eb, orDefault_some_zero_default]; exact hb
    · rw [eo, orDefault_some]; exact ho'
  refine ⟨main, ?_⟩
  rintro (po | hb0)
  · rw [main, if_neg po.ne']
  · rw [main, hb0]; simp

/-- Witness of C17: `balancedItem` has 1001 buy orders and an offer volume of
1000. -/
theorem demandRatio_present_fields_witness :
    ((0 : ℚ) ≤ 1001 ∧ (0 : ℚ) < 1000)
    ∧ analytics_calculateDemandRatio (some balancedItem)
      = JSNum.fin (1001 / (1001 + 1000 + 1)) :=
  ⟨by norm_num,
    (demandRatio_present_fields balancedItem 1001 1000 rfl rfl (by norm_num)
      (by norm_num)).2 (Or.inl (by norm_num))⟩

/-- C18: for a present snapshot with a buy-order volume of zero and a present
offer volume `o ≥ 0`, the denominator in use is not zero and the demand ratio
is exactly 0, a finite number. -/
theorem demandRatio_zero_buy_orders (d : ItemData) (o : ℚ) (eb : d.buyordervolume = some 0)
    (eo : d.offervolume = some o) (ho : 0 ≤ o) :
    orDefault d.buyordervolume 0 + orDefault d.offervolume 1 + 1 ≠ 0
    ∧ analytics_calculateDemandRatio (some d) = JSNum.fin 0 := by
  have ho' : (0 : ℚ) ≤ orDefault d.offervolume 1 := by
    rw [eo, orDefault_some]; split <;> linarith
  have hb' : orDefault d.buyordervolume 0 = 0 := by rw [eb]; rfl
  refine ⟨?_, ?_⟩
  · rw [hb']; intro h; linarith
  · rw [demandRatio_closed_form d (by rw [hb']) ho', hb']; simp

/-- Witness of C18: buy-order volume and offer volume both zero. -/
theorem demandRatio_zero_buy_orders_witness :
    (0 : ℚ) ≤ 0
    ∧ analytics_calculateDemandRatio (some { buyordervolume := some 0, offervolume := some 0 })
      = JSNum.fin 0 :=
  ⟨le_rfl,
    (demandRatio_zero_buy_orders { buyordervolume := some 0, offervolume := some 0 } 0 rfl rfl
      le_rfl).2⟩

/-! ## C19 and C20: price momentum -/

/-- The price momentum is the body after line 72 run on the current price that
line 71 resolves: the latest price, else the latest-sell price, else 0. -/
theorem priceMomentum_eq_withCurrent (d : ItemData) (historyData : Option HistoryData) :
    analytics_calculatePriceMomentum (some d) historyData
      = priceMomentum_withCurrent d (orDefault d.pricelatest (orDefault d.pricelatestsell 0)) :=
  rfl

/-- Closed form of the body of the price momentum for a positive current price
and positive references. -/
theorem priceMomentum_withCurrent_closed_form (d : ItemData) (c : ℚ) (hc : 0 < c)
    (h7 : 0 < orDefault d.pricelatestsell7d (orDefault d.priceavg7d c))
    (h30 : 0 < orDefault d.pricelatestsell30d (orDefault d.priceavg30d c))
    (ha : 0 < orDefault d.priceavg7d c) :
    priceMomentum_withCurrent d c
      = spec_priceMomentum c (orDefault d.pricelatestsell7d (orDefault d.priceavg7d c))
          (orDefault d.pricelatestsell30d (orDefault d.priceavg30d c))
          (orDefault d.priceavg7d c) := by
  have hc' : ¬ (c = 0 ∨ c ≤ 0) := by
    rintro (h | h) <;> linarith
  simp only [priceMomentum_withCurrent, hc', if_false, gt_iff_lt, h7, h30, ha, if_true,
    JSNum.fin_sub_fin, JSNum.fin_div_fin _ _ h7.ne', JSNum.fin_div_fin _ _ h30.ne',
    JSNum.fin_div_fin _ _ ha.ne', JSNum.fin_mul_fin, JSNum.fin_add_fin,
    normalizeToRange_fin _ _ _ _ _ (by norm_num : (5 / 10 : ℚ) ≠ -(5 / 10)),
    spec_priceMomentum, JSNum.clamp01_fin]
  congr 2
  congr 1
  ring

theorem priceMomentum_twoPricesItem :
    analytics_calculatePriceMomentum (some twoPricesItem) none = JSNum.fin 1 := by
  rw [priceMomentum_eq_withCurrent, priceMomentum_withCurrent_closed_form] <;>
    simp [twoPricesItem, orDefault, spec_priceMomentum]
  norm_num

theorem priceMomentum_twoPricesItem_latestSell :
    priceMomentum_withCurrent twoPricesItem 1 = JSNum.fin (1 / 2) := by
  rw [priceMomentum_withCurrent_closed_form] <;>
    simp [twoPricesItem, orDefault, spec_priceMomentum]
  norm_num


/-- C19 (as stated, refuted): on a snapshot whose latest price is 2 and whose
latest-sell price is 1, both present and positive, the price momentum is 1,
the value of the body run on the latest price 2; run on the latest-sell price 1
the body would give 0.5. -/
theorem priceMomentum_latest_sell_counterexample :
    twoPricesItem.pricelatest = some 2 ∧ twoPricesItem.pricelatestsell = some 1
    ∧ analytics_calculatePriceMomentum (some twoPricesItem) none = JSNum.fin 1
    ∧ priceMomentum_withCurrent twoPricesItem 1 = JSNum.fin (1 / 2)
    ∧ analytics_calculatePriceMomentum (some twoPricesItem) none
        ≠ priceMomentum_withCurrent twoPricesItem 1 := by
  refine ⟨rfl, rfl, priceMomentum_twoPricesItem, priceMomentum_twoPricesItem_latestSell, ?_⟩
  rw [priceMomentum_twoPricesItem, priceMomentum_twoPricesItem_latestSell]
  simp

/-- C19 (amended): when the latest price and the latest-sell price are both
present and positive, the current price used in the three fractional changes
is the latest price; the latest-sell price is the fallback, used when the
latest price is absent or zero. -/
theorem priceMomentum_current_price (d : ItemData) (historyData : Option HistoryData) :
    (∀ l s : ℚ, d.pricelatest = some l → d.pricelatestsell = some s → 0 < l → 0 < s →
        analytics_calculatePriceMomentum (some d) historyData = priceMomentum_withCurrent d l)
    ∧ (∀ s : ℚ, (d.pricelatest = none ∨ d.pricelatest = some 0) → d.pricelatestsell = some s →
        0 < s →
        analytics_calculatePriceMomentum (some d) historyData = priceMomentum_withCurrent d s) := by
  refine ⟨fun l s el _ hl _ => ?_, fun s el es hs => ?_⟩
  · rw [priceMomentum_eq_withCurrent, el, orDefault_some, if_neg hl.ne']
  · rw [priceMomentum_eq_withCurrent, es]
    rcases el with el | el <;> rw [el] <;> simp [orDefault, hs.ne']

/-- Witness of C19: `twoPricesItem` has a latest price of 2 and a latest-sell
price of 1; its momentum is the body run on 2. -/
theorem priceMomentum_current_price_witness :
    twoPricesItem.pricelatest = some 2 ∧ twoPricesItem.pricelatestsell = some 1
    ∧ (0 : ℚ) < 2 ∧ (0 : ℚ) < 1
    ∧ analytics_calculatePriceMomentum (some twoPricesItem) none
      = priceMomentum_withCurrent twoPricesItem 2 :=
  ⟨rfl, rfl, by norm_num, by norm_num,
    (priceMomentum_current_price twoPricesItem none).1 2 1 rfl rfl (by norm_num)
      (by norm_num)⟩

/-- C20: with `c` the resolved current price (latest, else latest-sell, else
0), `p7` the resolved 7-day reference (latest-sell-7d, else avg-7d, else `c`),
`p30` the resolved 30-day reference (latest-sell-30d, else avg-30d, else `c`)
and `a7` the resolved 7-day average (avg-7d, else `c`), where a zero counts as
absent: when the four are positive the price momentum is `clamp01(0.5 +
0.5*(c-p7)/p7 + 0.3*(c-p30)/p30 + 0.2*(c-a7)/a7)`; it is exactly 0.5 when `c` is
positive and no reference field is present; it is 0.5 when `c` is not
positive. -/
theorem priceMomentum_formula (d : ItemData) (historyData : Option HistoryData) :
    (0 < orDefault d.pricelatest (orDefault d.pricelatestsell 0) →
      0 < orDefault d.pricelatestsell7d
        (orDefault d.priceavg7d (orDefault d.pricelatest (orDefault d.pricelatestsell 0))) →
      0 < orDefault d.pricelatestsell30d
        (orDefault d.priceavg30d (orDefault d.pricelatest (orDefault d.pricelatestsell 0))) →
      0 < orDefault d.priceavg7d (orDefault d.pricelatest (orDefault d.pricelatestsell 0)) →
      analytics_calculatePriceMomentum (some d) historyData
        = spec_priceMomentum (orDefault d.pricelatest (orDefault d.pricelatestsell 0))
            (orDefault d.pricelatestsell7d
              (orDefault d.priceavg7d (orDefault d.pricelatest (orDefault d.pricelatestsell 0))))
            (orDefault d.pricelatestsell30d
              (orDefault d.priceavg30d
                (orDefault d.pricelatest (orDefault d.pricelatestsell 0))))
            (orDefault d.priceavg7d (orDefault d.pricelatest (orDefault d.pricelatestsell 0))))
    ∧ (0 < orDefault d.pricelatest (orDefault d.pricelatestsell 0) →
        d.pricelatestsell7d = none → d.priceavg7d = none → d.pricelatestsell30d = none →
        d.priceavg30d = none →
        analytics_calculatePriceMomentum (some d) historyData = JSNum.fin (1 / 2))
    ∧ (¬ 0 < orDefault d.pricelatest (orDefault d.pricelatestsell 0) →
        analytics_calculatePriceMomentum (some d) historyData = JSNum.fin (1 / 2)) := by
  refine ⟨fun hc h7 h30 ha => ?_, fun hc e1 e2 e3 e4 => ?_, fun hc => ?_⟩
  · rw [priceMomentum_eq_withCurrent, priceMomentum_withCurrent_closed_form d _ hc h7 h30 ha]
  · rw [priceMomentum_eq_withCurrent, priceMomentum_withCurrent_closed_form d _ hc]
    · simp only [e1, e2, e3, e4, orDefault, spec_priceMomentum, sub_self, mul_zero, zero_div,
        add_zero, JSNum.clamp01_fin]
      norm_num
    all_goals simp only [e1, e2, e3, e4, orDefault]; exact hc
  · rw [priceMomentum_eq_withCurrent]
    simp only [priceMomentum_withCurrent]
    rw [if_pos (Or.inr (not_lt.mp hc))]

/-- Witness of C20: `risingItem`, whose latest price 2 is twice its 7-day
average 1: `c = 2`, `p7 = 1`, `p30 = 2`, `a7 = 1`. -/
theorem priceMomentum_formula_witness :
    analytics_calculatePriceMomentum (some risingItem) none = spec_priceMomentum 2 1 2 1 := by
  have h := (priceMomentum_formula risingItem none).1
  simp only [risingItem, orDefault] at h
  norm_num at h
  exact h

/-! ## C21: sales trend -/

/-- Closed form of the sales trend of a present snapshot whose weekly and
monthly counts in use are not negative. -/
theorem salesTrend_closed_form (d : ItemData) (h7 : 0 ≤ orDefault d.sold7d 0)
    (h30 : 0 ≤ orDefault d.sold30d 0) :
    analytics_calculateSalesTrend (some d)
      = spec_salesTrend (orDefault d.sold24h 0) (orDefault d.sold7d 0) (orDefault d.sold30d 0) := by
  simp only [analytics_calculateSalesTrend, spec_salesTrend]
  by_cases hz : orDefault d.sold7d 0 = 0 ∧ orDefault d.sold30d 0 = 0
  · rw [if_pos hz, if_pos hz]; norm_num
  · rw [if_neg hz, if_neg hz]
    by_cases p7 : orDefault d.sold7d 0 = 0 <;> by_cases p30 : orDefault d.sold30d 0 = 0
    · exact absurd ⟨p7, p30⟩ hz
    · have q30 : 0 < orDefault d.sold30d 0 := lt_of_le_of_ne h30 (Ne.symm p30)
      simp only [p7, gt_iff_lt, lt_irrefl, if_false, q30, if_true, ne_eq, not_true_eq_false,
        p30, not_false_eq_true, JSNum.fin_mul_fin, JSNum.fin_sub_fin,
        JSNum.fin_div_fin _ _ p30, JSNum.fin_add_fin,
        normalizeToRange_fin _ _ _ _ _ (by norm_num : (1 : ℚ) ≠ -1), JSNum.clamp01_fin]
      congr 2
      congr 1
      ring
    · have q7 : 0 < orDefault d.sold7d 0 := lt_of_le_of_ne h7 (Ne.symm p7)
      simp only [p30, gt_iff_lt, lt_irrefl, if_false, q7, if_true, ne_eq, not_true_eq_false,
        p7, not_false_eq_true, JSNum.fin_mul_fin, JSNum.fin_sub_fin,
        JSNum.fin_div_fin _ _ p7, JSNum.fin_add_fin,
        normalizeToRange_fin _ _ _ _ _ (by norm_num : (1 : ℚ) ≠ -1), JSNum.clamp01_fin]
      congr 2
      congr 1
      ring
    · have q7 : 0 < orDefault d.sold7d 0 := lt_of_le_of_ne h7 (Ne.symm p7)
      have q30 : 0 < orDefault d.sold30d 0 := lt_of_le_of_ne h30 (Ne.symm p30)
      simp only [gt_iff_lt, q7, q30, if_true, ne_eq, p7, p30, not_false_eq_true,
        JSNum.fin_mul_fin, JSNum.fin_sub_fin, JSNum.fin_div_fin _ _ p7,
        JSNum.fin_div_fin _ _ p30, JSNum.fin_add_fin,
        normalizeToRange_fin _ _ _ _ _ (by norm_num : (1 : ℚ) ≠ -1), JSNum.clamp01_fin]
      congr 2
      congr 1
      ring

/-- A steady rate gives the specified value `0.5`. -/
theorem spec_salesTrend_steady (s24 : ℚ) (h : 0 < s24) :
    spec_salesTrend s24 (7 * s24) (4 * (7 * s24)) = JSNum.fin (1 / 2) := by
  have h7 : 7 * s24 ≠ 0 := by positivity
  have h30 : 4 * (7 * s24) ≠ 0 := by positivity
  have hz : ¬ (7 * s24 = 0 ∧ 4 * (7 * s24) = 0) := fun hh => h7 hh.1
  simp only [spec_salesTrend, if_neg hz, ne_eq, h7, h30, not_false_eq_true, if_true, sub_self,
    mul_zero, zero_div, add_zero, zero_add, JSNum.clamp01_fin]
  norm_num

/-- C21: for a present snapshot whose sold7d and sold30d (absent fields
counting as 0) are not negative, whatever sold24h, the sales trend is `0.5` when
`sold7d = 0` and `sold30d = 0`, and otherwise `clamp01((t + 1) / 2)` with `t`
the sum of `0.5*(7*sold24h - sold7d)/sold7d` (only if `sold7d` is nonzero) and
`0.5*(4*sold7d - sold30d)/sold30d` (only if `sold30d` is nonzero); a steady
rate, `sold7d = 7*sold24h > 0` and `sold30d = 4*sold7d`, gives exactly 0.5. -/
theorem salesTrend_formula (d : ItemData) (h7 : 0 ≤ orDefault d.sold7d 0)
    (h30 : 0 ≤ orDefault d.sold30d 0) :
    analytics_calculateSalesTrend (some d)
      = spec_salesTrend (orDefault d.sold24h 0) (orDefault d.sold7d 0) (orDefault d.sold30d 0)
    ∧ (orDefault d.sold7d 0 = 0 → orDefault d.sold30d 0 = 0 →
        analytics_calculateSalesTrend (some d) = JSNum.fin (1 / 2))
    ∧ (0 < orDefault d.sold24h 0 → orDefault d.sold7d 0 = 7 * orDefault d.sold24h 0 →
        orDefault d.sold30d 0 = 4 * orDefault d.sold7d 0 →
        analytics_calculateSalesTrend (some d) = JSNum.fin (1 / 2)) := by
  have main := salesTrend_closed_form d h7 h30
  refine ⟨main, fun z7 z30 => ?_, fun p24 e7 e30 => ?_⟩
  · rw [main, z7, z30]; simp only [spec_salesTrend, and_self, if_true]; norm_num
  · rw [main, e30, e7]; exact spec_salesTrend_steady _ p24

/-- Witness of C21: `steadyItem` sells 10 a day, 70 a week and 280 in 30
days. -/
theorem salesTrend_formula_witness :
    ((0 : ℚ) ≤ orDefault steadyItem.sold7d 0 ∧ (0 : ℚ) ≤ orDefault steadyItem.sold30d 0)
    ∧ analytics_calculateSalesTrend (some steadyItem) = JSNum.fin (1 / 2) := by
  have e24 : orDefault steadyItem.sold24h 0 = 10 := by simp [steadyItem, orDefault]
  have e7 : orDefault steadyItem.sold7d 0 = 70 := by simp [steadyItem, orDefault]
  have e30 : orDefault steadyItem.sold30d 0 = 280 := by simp [steadyItem, orDefault]
  have h7 : (0 : ℚ) ≤ orDefault steadyItem.sold7d 0 := by rw [e7]; norm_num
  have h30 : (0 : ℚ) ≤ orDefault steadyItem.sold30d 0 := by rw [e30]; norm_num
  exact ⟨⟨h7, h30⟩,
    (salesTrend_formula steadyItem h7 h30).2.2 (by rw [e24]; norm_num)
      (by rw [e7, e24]; norm_num) (by rw [e30, e7]; norm_num)⟩

/-! ## C22: volatility index from the snapshot -/

theorem historyStats_none_of_noUsable (sqrt : ℚ → ℚ) (historyData : Option HistoryData)
    (hno : noUsableHistory historyData) : volatility_historyStats sqrt historyData = none := by
  cases historyData with
  | none => rfl
  | some h =>
    cases hp : h.prices with
    | none => simp only [volatility_historyStats, hp]
    | some ps =>
      have hf : ps.filter (fun p => decide (p > 0)) = [] := by
        rw [List.filter_eq_nil_iff]
        intro q hq
        simpa using hno h ps rfl hp q hq
      simp only [volatility_historyStats, hp, hf]
      split <;> rfl

/-- Without usable history and with a present snapshot, the volatility index
is computed from the snapshot's statistics. -/
theorem volatilityIndex_of_noUsable (env : Env) (d : ItemData) (historyData : Option HistoryData)
    (hno : noUsableHistory historyData) :
    analytics_calculateVolatilityIndex env (some d) historyData
      = some (volatility_fromStats (volatility_itemStats d)) := by
  simp only [analytics_calculateVolatilityIndex, historyStats_none_of_noUsable _ _ hno,
    volatility_needsFallback, Option.isNone_some, Bool.false_eq_true, false_and, if_false,
    if_true]

/-- Closed form of the end of the volatility index for a positive average and
a range and a deviation that are not negative. -/
theorem volatility_fromStats_closed_form (st : PriceStats) (ha : 0 < st.avgPrice)
    (hr : st.minPrice ≤ st.maxPrice) (hs : 0 ≤ st.stdDev) :
    volatility_fromStats st
      = JSNum.fin (min 1 (5 / 10 * (st.maxPrice - st.minPrice) / st.avgPrice
          + 5 / 10 * st.stdDev / st.avgPrice)) := by
  have hc : ¬ (st.avgPrice = 0 ∨ st.avgPrice ≤ 0) := by
    rintro (h | h) <;> linarith
  have h1 : 0 ≤ (st.maxPrice - st.minPrice) / st.avgPrice :=
    div_nonneg (sub_nonneg.mpr hr) ha.le
  have h2 : 0 ≤ st.stdDev / st.avgPrice := div_nonneg hs ha.le
  have hv : 0 ≤ ((st.maxPrice - st.minPrice) / st.avgPrice * (5 / 10)
      + st.stdDev / st.avgPrice * (5 / 10) - 0) / (1 - 0) * (1 - 0) + 0 := by
    norm_num; positivity
  simp only [volatility_fromStats, if_neg hc, JSNum.fin_sub_fin, JSNum.fin_div_fin _ _ ha.ne',
    JSNum.fin_mul_fin, JSNum.fin_add_fin,
    normalizeToRange_fin _ _ _ _ _ (by norm_num : (1 : ℚ) ≠ 0), JSNum.max_fin_fin,
    JSNum.min_fin_fin]
  congr 1
  rw [max_eq_right hv, max_eq_right (le_min zero_le_one hv), min_eq_right (min_le_left _ _)]
  congr 1
  ring

theorem volatility_fromStats_no_average (st : PriceStats) (ha : st.avgPrice ≤ 0) :
    volatility_fromStats st = JSNum.fin (1 / 2) := by
  simp only [volatility_fromStats, if_pos (Or.inr ha)]


/-- C22: with a present snapshot and no usable price history: when the
snapshot has a positive min price `m`, a max price `M ≥ m` and a positive
average price `a` (the latest price when the average is absent), the
volatility index is `min(1, 0.5*(M - m)/a + 0.5*((M - m)/4)/a)`, which is
`min(1, 0.625*(M - m)/a)`; when the average price in use (average, else latest,
else 0, a zero counting as absent) is not positive, it is `0.5`. -/
theorem volatilityIndex_snapshot_fallback (env : Env) (d : ItemData)
    (historyData : Option HistoryData) (hno : noUsableHistory historyData) :
    (∀ m M a : ℚ, d.pricemin = some m → d.pricemax = some M → 0 < m → m ≤ M →
        (d.priceavg = some a ∨ (d.priceavg = none ∧ d.pricelatest = some a)) → 0 < a →
        analytics_calculateVolatilityIndex env (some d) historyData
          = some (JSNum.fin (min 1 (5 / 10 * (M - m) / a + 5 / 10 * ((M - m) / 4) / a)))
        ∧ min 1 (5 / 10 * (M - m) / a + 5 / 10 * ((M - m) / 4) / a)
          = min 1 (625 / 1000 * (M - m) / a))
    ∧ (orDefault d.priceavg (orDefault d.pricelatest 0) ≤ 0 →
        analytics_calculateVolatilityIndex env (some d) historyData
          = some (JSNum.fin (1 / 2))) := by
  rw [volatilityIndex_of_noUsable env d historyData hno]
  refine ⟨fun m M a em eM hm hmM ea ha => ?_, fun ha => ?_⟩
  · have hM : 0 < M := lt_of_lt_of_le hm hmM
    have e1 : orDefault d.pricemin 0 = m := by rw [em, orDefault_some, if_neg hm.ne']
    have e2 : orDefault d.pricemax 0 = M := by rw [eM, orDefault_some, if_neg hM.ne']
    have e3 : orDefault d.priceavg (orDefault d.pricelatest 0) = a := by
      rcases ea with ea | ⟨ea, el⟩
      · rw [ea, orDefault_some, if_neg ha.ne']
      · rw [ea, el]; simp [orDefault, ha.ne']
    have est : volatility_itemStats d = ⟨m, M, a, (M - m) / 4⟩ := by
      simp only [volatility_itemStats, e1, e2, e3, gt_iff_lt, hm, hM, ha, and_self, if_true]
    refine ⟨?_, ?_⟩
    · rw [est, volatility_fromStats_closed_form _ ha hmM
        (div_nonneg (sub_nonneg.mpr hmM) (by norm_num))]
    · congr 1
      ring
  · rw [volatility_fromStats_no_average _ ha]

/-- Witness of C22: `rangeItem`, with prices in `[8, 12]` around an average of
10, has a volatility index of `0.25`. -/
theorem volatilityIndex_snapshot_fallback_witness :
    noUsableHistory none ∧ (0 : ℚ) < 8 ∧ (8 : ℚ) ≤ 12 ∧ (0 : ℚ) < 10
    ∧ analytics_calculateVolatilityIndex exampleEnv (some rangeItem) none
      = some (JSNum.fin (min 1 (5 / 10 * (12 - 8) / 10 + 5 / 10 * ((12 - 8) / 4) / 10))) := by
  have hno : noUsableHistory none := by
    intro h ps hh
    cases hh
  exact ⟨hno, by norm_num, by norm_num, by norm_num,
    ((volatilityIndex_snapshot_fallback exampleEnv rangeItem none hno).1 8 12 10 rfl rfl
      (by norm_num) (by norm_num) (Or.inl rfl) (by norm_num)).1⟩

theorem foldl_min_const (l : List ℚ) (p : ℚ) (h : ∀ q ∈ l, q = p) : l.foldl min p = p := by
  induction l with
  | nil => rfl
  | cons q l ih =>
    have hq : q = p := h q (List.mem_cons_self _ _)
    rw [List.foldl_cons, hq, min_self]
    exact ih (fun x hx => h x (List.mem_cons_of_mem _ hx))

theorem foldl_max_const (l : List ℚ) (p : ℚ) (h : ∀ q ∈ l, q = p) : l.foldl max p = p := by
  induction l with
  | nil => rfl
  | cons q l ih =>
    have hq : q = p := h q (List.mem_cons_self _ _)
    rw [List.foldl_cons, hq, max_self]
    exact ih (fun x hx => h x (List.mem_cons_of_mem _ hx))

/-! ## C23 and C24: `analytics_formatScore` -/

theorem formatScore_emoji_int (n : ℤ) :
    formatScore_emoji (JSNum.fin (n : ℚ)) = spec_tierGlyph n := by
  have h75 : ((75 : ℚ) ≤ (n : ℚ)) ↔ (75 : ℤ) ≤ n := by exact_mod_cast Iff.rfl
  have h60 : ((60 : ℚ) ≤ (n : ℚ)) ↔ (60 : ℤ) ≤ n := by exact_mod_cast Iff.rfl
  have h40 : ((40 : ℚ) ≤ (n : ℚ)) ↔ (40 : ℤ) ≤ n := by exact_mod_cast Iff.rfl
  simp only [formatScore_emoji, spec_tierGlyph, JSNum.ge_fin_fin, decide_eq_true_eq, h75, h60,
    h40]

theorem display_int (n : ℤ) : (JSNum.fin (n : ℚ)).display = toString n := by
  simp [JSNum.display]

/-- The text shown for a score whose displayed number is the integer `n`. -/
theorem formatScore_of_normalized (score : JSNum) (n : ℤ) (hs : score ≠ JSNum.nan)
    (hn : formatScore_normalizedScore score = JSNum.fin (n : ℚ)) :
    analytics_formatScore score = spec_display n := by
  simp only [analytics_formatScore, if_neg hs, hn, formatScore_emoji_int, display_int,
    spec_display]

/-- The displayed number of a unit-scale score below 1. -/
theorem formatScore_normalizedScore_unit (u : ℚ) (h : u < 1) :
    formatScore_normalizedScore (JSNum.fin u)
      = JSNum.fin ((⌊100 * u + 1 / 2⌋ : ℤ) : ℚ) := by
  simp only [formatScore_normalizedScore, JSNum.lt_fin_fin, decide_eq_true_eq, h, if_true,
    JSNum.fin_mul_fin, JSNum.round_fin, mul_comm u 100]

/-- The displayed number of a score of at least 1. -/
theorem formatScore_normalizedScore_percent (x : ℚ) (h : 1 ≤ x) :
    formatScore_normalizedScore (JSNum.fin x) = JSNum.fin ((⌊x + 1 / 2⌋ : ℤ) : ℚ) := by
  simp only [formatScore_normalizedScore, JSNum.lt_fin_fin, decide_eq_true_eq, not_lt.mpr h,
    if_false, JSNum.round_fin]

/-- C23: for a unit-scale score `u` with `0.01 ≤ u < 1`, `analytics_formatScore`
shows the same number and returns the same text for `u` and for `100 * u`;
so it does for `0.85` and `85`. -/
theorem formatScore_scale_detection (u : ℚ) (h1 : 1 / 100 ≤ u) (h2 : u < 1) :
    formatScore_normalizedScore (JSNum.fin u) = formatScore_normalizedScore (JSNum.fin (100 * u))
    ∧ analytics_formatScore (JSNum.fin u) = analytics_formatScore (JSNum.fin (100 * u))
    ∧ analytics_formatScore (JSNum.fin (85 / 100)) = analytics_formatScore (JSNum.fin 85) := by
  have key : ∀ v : ℚ, 1 / 100 ≤ v → v < 1 →
      formatScore_normalizedScore (JSNum.fin v)
        = formatScore_normalizedScore (JSNum.fin (100 * v)) := by
    intro v hv1 hv2
    rw [formatScore_normalizedScore_unit v hv2,
      formatScore_normalizedScore_percent (100 * v) (by linarith)]
  have txt : ∀ v : ℚ, 1 / 100 ≤ v → v < 1 →
      analytics_formatScore (JSNum.fin v) = analytics_formatScore (JSNum.fin (100 * v)) := by
    intro v hv1 hv2
    simp only [analytics_formatScore, key v hv1 hv2, reduceCtorEq, if_false]
  refine ⟨key u h1 h2, txt u h1 h2, ?_⟩
  have h := txt (85 / 100) (by norm_num) (by norm_num)
  have e : (100 : ℚ) * (85 / 100) = 85 := by norm_num
  rw [e] at h
  exact h

/-- Witness of C23: the score `0.5`. -/
theorem formatScore_scale_detection_witness :
    (1 / 100 : ℚ) ≤ 1 / 2 ∧ (1 / 2 : ℚ) < 1
    ∧ analytics_formatScore (JSNum.fin (1 / 2)) = analytics_formatScore (JSNum.fin (100 * (1 / 2))) :=
  ⟨by norm_num, by norm_num,
    (formatScore_scale_detection (1 / 2) (by norm_num) (by norm_num)).2.1⟩

theorem formatScore_one : analytics_formatScore (JSNum.fin 1) = spec_display 1 := by
  apply formatScore_of_normalized _ 1 (by simp)
  rw [formatScore_normalizedScore_percent 1 le_rfl]
  have h : ⌊(1 : ℚ) + 1 / 2⌋ = 1 := by
    rw [Int.floor_eq_iff]; norm_num
  rw [h]

/-- C24 (as stated, refuted): the score `1` is shown as `🔴 1`, the low tier
and the integer 1, not as `🟢 100`, the integer `round(100 * 1)` with its high
tier: the guard `score < 1` reads only the values below 1 as unit-scale. -/
theorem formatScore_one_counterexample :
    analytics_formatScore (JSNum.fin 1) = "🔴 1"
    ∧ ⌊(100 : ℚ) * 1 + 1 / 2⌋ = 100
    ∧ spec_display 100 = "🟢 100"
    ∧ analytics_formatScore (JSNum.fin 1) ≠ spec_display ⌊(100 : ℚ) * 1 + 1 / 2⌋ := by
  have hf : ⌊(100 : ℚ) * 1 + 1 / 2⌋ = 100 := by
    rw [Int.floor_eq_iff]; norm_num
  have h1 : spec_display 1 = "🔴 1" := by decide
  have h100 : spec_display 100 = "🟢 100" := by decide
  refine ⟨by rw [formatScore_one, h1], hf, h100, ?_⟩
  rw [hf, formatScore_one, h1, h100]
  decide

/-- C24 (amended): for every score `u` with `0 ≤ u < 1`,
`analytics_formatScore` shows the integer `round(100 * u)`, which lies in
`[0, 100]`, together with the tier glyph of that integer (`≥ 75` high, `≥ 60`
medium-high, `≥ 40` medium-low, else low). -/
theorem formatScore_unit_scale (u : ℚ) (h0 : 0 ≤ u) (h1 : u < 1) :
    analytics_formatScore (JSNum.fin u) = spec_display ⌊100 * u + 1 / 2⌋
    ∧ 0 ≤ ⌊100 * u + 1 / 2⌋ ∧ ⌊100 * u + 1 / 2⌋ ≤ 100 := by
  refine ⟨formatScore_of_normalized _ _ (by simp) (formatScore_normalizedScore_unit u h1),
    Int.floor_nonneg.mpr (by linarith), ?_⟩
  have h : 100 * u + 1 / 2 < ((101 : ℤ) : ℚ) := by push_cast; linarith
  have := Int.floor_lt.mpr h
  omega

/-- Witness of C24: the score `0.85` is shown as the integer 85 with its
glyph. -/
theorem formatScore_unit_scale_witness :
    (0 : ℚ) ≤ 85 / 100 ∧ (85 / 100 : ℚ) < 1
    ∧ analytics_formatScore (JSNum.fin (85 / 100))
      = spec_display ⌊(100 : ℚ) * (85 / 100) + 1 / 2⌋ :=
  ⟨by norm_num, by norm_num, (formatScore_unit_scale (85 / 100) (by norm_num) (by norm_num)).1⟩

/-! ## C26 and C27: risk tiers are monotone, flat hero records -/

/-- The three-way test of `analytics_calculateRiskLevel` on finite inputs. -/
theorem riskLevel_fin (s v d : ℚ) :
    analytics_calculateRiskLevel (JSNum.fin s) (JSNum.fin v) (JSNum.fin d)
      = if 70 ≤ s ∧ v < 5 / 10 ∧ 6 / 10 < d then RiskLevel.low
        else if 50 ≤ s ∧ v < 7 / 10 ∧ 4 / 10 < d then RiskLevel.medium
        else RiskLevel.high := by
  simp only [analytics_calculateRiskLevel, JSNum.ge_fin_fin, JSNum.lt_fin_fin,
    JSNum.gt_fin_fin, Bool.and_eq_true, decide_eq_true_eq, and_assoc]

/-- C26: on finite inputs with `s1 ≤ s2`, `v1 ≥ v2` and `d1 ≤ d2`, the tier of
`(s2, v2, d2)` is not riskier than the tier of `(s1, v1, d1)` in the order
Low < Medium < High; and the Low condition implies the Medium condition. -/
theorem riskLevel_monotone (s1 s2 v1 v2 d1 d2 : ℚ) (hs : s1 ≤ s2) (hv : v2 ≤ v1)
    (hd : d1 ≤ d2) :
    (analytics_calculateRiskLevel (JSNum.fin s2) (JSNum.fin v2) (JSNum.fin d2)).rank
        ≤ (analytics_calculateRiskLevel (JSNum.fin s1) (JSNum.fin v1) (JSNum.fin d1)).rank
    ∧ ((70 ≤ s1 ∧ v1 < 5 / 10 ∧ 6 / 10 < d1) → (50 ≤ s1 ∧ v1 < 7 / 10 ∧ 4 / 10 < d1)) := by
  refine ⟨?_, fun ⟨a, b, c⟩ => ⟨by linarith, by linarith, by linarith⟩⟩
  rw [riskLevel_fin, riskLevel_fin]
  by_cases l1 : 70 ≤ s1 ∧ v1 < 5 / 10 ∧ 6 / 10 < d1
  · have l2 : 70 ≤ s2 ∧ v2 < 5 / 10 ∧ 6 / 10 < d2 :=
      ⟨by linarith [l1.1], by linarith [l1.2.1], by linarith [l1.2.2]⟩
    rw [if_pos l1, if_pos l2]
  · rw [if_neg l1]
    by_cases m1 : 50 ≤ s1 ∧ v1 < 7 / 10 ∧ 4 / 10 < d1
    · have m2 : 50 ≤ s2 ∧ v2 < 7 / 10 ∧ 4 / 10 < d2 :=
        ⟨by linarith [m1.1], by linarith [m1.2.1], by linarith [m1.2.2]⟩
      rw [if_pos m1, if_pos m2]
      split <;> simp [RiskLevel.rank]
    · rw [if_neg m1]
      split
      · simp [RiskLevel.rank]
      · split <;> simp [RiskLevel.rank]

/-- Witness of C26: raising the score from 60 to 75 moves the tier from Medium
to Low. -/
theorem riskLevel_monotone_witness :
    ((60 : ℚ) ≤ 75 ∧ (4 / 10 : ℚ) ≤ 4 / 10 ∧ (7 / 10 : ℚ) ≤ 7 / 10)
    ∧ (analytics_calculateRiskLevel (JSNum.fin 75) (JSNum.fin (4 / 10))
          (JSNum.fin (7 / 10))).rank
        ≤ (analytics_calculateRiskLevel (JSNum.fin 60) (JSNum.fin (4 / 10))
          (JSNum.fin (7 / 10))).rank :=
  ⟨by norm_num,
    (riskLevel_monotone 60 75 (4 / 10) (4 / 10) (7 / 10) (7 / 10) (by norm_num) le_rfl
      le_rfl).1⟩

/-- The meta signal of a record whose three deltas are zero or absent, before
the provider is looked at: the three normalised deltas are `0.5`, the 24h
weight has moved to the 7d weight. -/
theorem metaSignal_fromStats_flat (w : MetaSignalWeights) (r : HeroStatsRecord)
    (h24 : falsyNum r.pickRateChange24h = true) (hp : falsyNum r.proContestRateChange7d = true)
    (h7 : falsyNum r.pickRateChange7d = true) :
    metaSignal_fromStats w r
      = JSNum.round (JSNum.clamp
          (JSNum.fin (50 * (w.PICK_RATE_CHANGE_IMMORTAL_24H + w.PRO_CONTEST_RATE_CHANGE_7D
            + w.PICK_RATE_CHANGE_IMMORTAL_7D)))
          (JSNum.fin 0) (JSNum.fin 100)) := by
  have e24 := (orDefault_eq_zero_iff _).mpr h24
  have ep := (orDefault_eq_zero_iff _).mpr hp
  have e7 := (orDefault_eq_zero_iff _).mpr h7
  simp only [metaSignal_fromStats, e24, ep, e7, metaSignal_effectiveWeights, or_self, if_true,
    normalizeToRange_fin _ _ _ _ _ (by norm_num : (5 / 10 : ℚ) ≠ -(5 / 10)),
    normalizeToRange_fin _ _ _ _ _ (by norm_num : (3 / 10 : ℚ) ≠ -(3 / 10)),
    JSNum.fin_mul_fin, JSNum.fin_add_fin, JSNum.clamp, JSNum.max_fin_fin, JSNum.min_fin_fin]
  congr 4
  norm_num
  ring


/-- C27: when hero id and hero statistics are present and the provider returns
a record (structured, or a non-empty string that `JSON.parse` reads as that
record) whose pickRateChange24h, proContestRateChange7d and pickRateChange7d
are all zero or absent, the meta signal is `round(clamp(50 * (w_24H +
w_PRO_CONTEST + w_7D), 0, 100))`; it is `round(50 * (w_24H + w_PRO_CONTEST +
w_7D))` when that sum lies in `[0, 2]`, and exactly 50 when the sum is 1. -/
theorem metaSignal_flat_record (env : Env) (heroId : Option ℤ) (rankCategory : Option String)
    (heroStats : Option Unit) (r : HeroStatsRecord)
    (hid : falsyId heroId = false) (hst : heroStats.isSome = true)
    (hpresent : (env.heroStats_getLatestStats heroId rankCategory).falsy = false)
    (hrec : parseLatestStats env (env.heroStats_getLatestStats heroId rankCategory)
      = some (some r))
    (h24 : falsyNum r.pickRateChange24h = true) (hp : falsyNum r.proContestRateChange7d = true)
    (h7 : falsyNum r.pickRateChange7d = true) :
    analytics_calculateMetaSignal env heroId rankCategory heroStats
      = some (JSNum.round (JSNum.clamp
          (JSNum.fin (50 * (env.ANALYTICS_WEIGHTS.META_SIGNAL.PICK_RATE_CHANGE_IMMORTAL_24H
            + env.ANALYTICS_WEIGHTS.META_SIGNAL.PRO_CONTEST_RATE_CHANGE_7D
            + env.ANALYTICS_WEIGHTS.META_SIGNAL.PICK_RATE_CHANGE_IMMORTAL_7D)))
          (JSNum.fin 0) (JSNum.fin 100)))
    ∧ (0 ≤ env.ANALYTICS_WEIGHTS.META_SIGNAL.PICK_RATE_CHANGE_IMMORTAL_24H
            + env.ANALYTICS_WEIGHTS.META_SIGNAL.PRO_CONTEST_RATE_CHANGE_7D
            + env.ANALYTICS_WEIGHTS.META_SIGNAL.PICK_RATE_CHANGE_IMMORTAL_7D →
        env.ANALYTICS_WEIGHTS.META_SIGNAL.PICK_RATE_CHANGE_IMMORTAL_24H
            + env.ANALYTICS_WEIGHTS.META_SIGNAL.PRO_CONTEST_RATE_CHANGE_7D
            + env.ANALYTICS_WEIGHTS.META_SIGNAL.PICK_RATE_CHANGE_IMMORTAL_7D ≤ 2 →
        analytics_calculateMetaSignal env heroId rankCategory heroStats
          = some (JSNum.round
              (JSNum.fin (50 * (env.ANALYTICS_WEIGHTS.META_SIGNAL.PICK_RATE_CHANGE_IMMORTAL_24H
                + env.ANALYTICS_WEIGHTS.META_SIGNAL.PRO_CONTEST_RATE_CHANGE_7D
                + env.ANALYTICS_WEIGHTS.META_SIGNAL.PICK_RATE_CHANGE_IMMORTAL_7D)))))
    ∧ (env.ANALYTICS_WEIGHTS.META_SIGNAL.PICK_RATE_CHANGE_IMMORTAL_24H
            + env.ANALYTICS_WEIGHTS.META_SIGNAL.PRO_CONTEST_RATE_CHANGE_7D
            + env.ANALYTICS_WEIGHTS.META_SIGNAL.PICK_RATE_CHANGE_IMMORTAL_7D = 1 →
        analytics_calculateMetaSignal env heroId rankCategory heroStats
          = some (JSNum.fin 50)) := by
  have hguard : (falsyId heroId || heroStats.isNone) = false := by
    cases heroStats with
    | none => simp at hst
    | some _ => simp [hid]
  have main : analytics_calculateMetaSignal env heroId rankCategory heroStats
      = some (metaSignal_fromStats env.ANALYTICS_WEIGHTS.META_SIGNAL r) := by
    simp only [analytics_calculateMetaSignal, hguard, hpresent, hrec, Bool.false_eq_true,
      if_false]
  rw [main, metaSignal_fromStats_flat _ r h24 hp h7]
  refine ⟨rfl, fun h0 h2 => ?_, fun h1 => ?_⟩
  · simp only [JSNum.clamp, JSNum.max_fin_fin, JSNum.min_fin_fin]
    rw [max_eq_right (by linarith), min_eq_right (by linarith)]
  · rw [h1]
    simp only [JSNum.clamp, JSNum.max_fin_fin, JSNum.min_fin_fin, JSNum.round_fin]
    have hf : ⌊min (100 : ℚ) (max 0 (50 * 1)) + 1 / 2⌋ = 50 := by
      rw [Int.floor_eq_iff]; norm_num
    rw [hf]; norm_num

/-- Witness of C27: `flatEnv` returns `flatHero`, whose three deltas are zero
or absent, and the sample Meta Signal weights sum to one. -/
theorem metaSignal_flat_record_witness :
    (falsyNum flatHero.pickRateChange24h = true ∧ falsyNum flatHero.proContestRateChange7d = true
      ∧ falsyNum flatHero.pickRateChange7d = true)
    ∧ flatEnv.ANALYTICS_WEIGHTS.META_SIGNAL.PICK_RATE_CHANGE_IMMORTAL_24H
        + flatEnv.ANALYTICS_WEIGHTS.META_SIGNAL.PRO_CONTEST_RATE_CHANGE_7D
        + flatEnv.ANALYTICS_WEIGHTS.META_SIGNAL.PICK_RATE_CHANGE_IMMORTAL_7D = 1
    ∧ analytics_calculateMetaSignal flatEnv (some 7) (some "High Rank") (some ())
      = some (JSNum.fin 50) := by
  have h24 : falsyNum flatHero.pickRateChange24h = true := by simp [flatHero, falsyNum]
  have hp : falsyNum flatHero.proContestRateChange7d = true := by simp [flatHero, falsyNum]
  have h7 : falsyNum flatHero.pickRateChange7d = true := by simp [flatHero, falsyNum]
  have hsum : flatEnv.ANALYTICS_WEIGHTS.META_SIGNAL.PICK_RATE_CHANGE_IMMORTAL_24H
        + flatEnv.ANALYTICS_WEIGHTS.META_SIGNAL.PRO_CONTEST_RATE_CHANGE_7D
        + flatEnv.ANALYTICS_WEIGHTS.META_SIGNAL.PICK_RATE_CHANGE_IMMORTAL_7D = 1 := by
    simp only [flatEnv, exampleWeights]; norm_num
  exact ⟨⟨h24, hp, h7⟩, hsum,
    (metaSignal_flat_record flatEnv (some 7) (some "High Rank") (some ()) flatHero
      (by simp [falsyId]) rfl rfl rfl h24 hp h7).2.2 hsum⟩

/-! ## Rounding to the nearest double -/

theorem roundHalfEven_intCast (n : ℤ) : roundHalfEven (n : ℚ) = n := by
  simp [roundHalfEven]

theorem roundHalfEven_of_near (q : ℚ) (m : ℤ) (h : |q - m| < 1 / 2) : roundHalfEven q = m := by
  rw [abs_lt] at h
  obtain ⟨h1, h2⟩ := h
  unfold roundHalfEven
  by_cases hq : (m : ℚ) ≤ q
  · have hf : ⌊q⌋ = m := by
      rw [Int.floor_eq_iff]; constructor <;> linarith
    rw [hf, if_pos (by linarith)]
  · push_neg at hq
    have hf : ⌊q⌋ = m - 1 := by
      rw [Int.floor_eq_iff]; push_cast; constructor <;> linarith
    rw [hf]
    push_cast
    rw [if_neg (by linarith), if_pos (by linarith)]
    ring

theorem roundHalfEven_tie_odd (q : ℚ) (m : ℤ) (hq : q = m + 1 / 2) (hm : m % 2 = 1) :
    roundHalfEven q = m + 1 := by
  have hf : ⌊q⌋ = m := by
    rw [Int.floor_eq_iff]; constructor <;> linarith
  unfold roundHalfEven
  rw [hf, if_neg (by linarith), if_neg (by linarith), if_neg (by omega)]

/-- The double nearest to `x`, once the exponent `e` of its leading bit and
the rounded significand `m` are known. -/
theorem Float64.ofRat_eq (x y : ℚ) (e m : ℤ) (hlo : (2 : ℚ) ^ e ≤ |x|)
    (hhi : |x| < (2 : ℚ) ^ (e + 1)) (he : -1022 ≤ e)
    (hm : roundHalfEven (x / 2 ^ (e - 52)) = m) (hy : y = (m : ℚ) * 2 ^ (e - 52))
    (hfin : |y| < 2 ^ (1024 : ℕ)) :
    Float64.ofRat x = JSNum.fin y := by
  have hx : x ≠ 0 := by
    intro h
    rw [h, abs_zero] at hlo
    exact absurd hlo (not_le.mpr (zpow_pos (by norm_num) e))
  have hpos : 0 < |x| := abs_pos.mpr hx
  have hlog : Int.log 2 |x| = e := by
    apply le_antisymm
    · have := (Int.lt_zpow_iff_log_lt (b := 2) (by norm_num) hpos).mp (by exact_mod_cast hhi)
      omega
    · exact (Int.zpow_le_iff_le_log (b := 2) (by norm_num) hpos).mp (by exact_mod_cast hlo)
  rw [hy] at hfin
  simp only [Float64.ofRat, hx, if_false, hlog, max_eq_left he, hm, not_le.mpr hfin, hy]

/-- A rational that is an integer multiple of the spacing of its binade is a
double. -/
theorem Float64.ofRat_exact (x : ℚ) (e n : ℤ) (hlo : (2 : ℚ) ^ e ≤ |x|)
    (hhi : |x| < (2 : ℚ) ^ (e + 1)) (he : -1022 ≤ e) (hn : x / 2 ^ (e - 52) = (n : ℚ))
    (hfin : |x| < 2 ^ (1024 : ℕ)) :
    Float64.ofRat x = JSNum.fin x := by
  refine Float64.ofRat_eq x x e n hlo hhi he (by rw [hn, roundHalfEven_intCast]) ?_ hfin
  rw [← hn, div_mul_cancel₀]
  exact (zpow_pos (by norm_num) _).ne'

theorem Float64.ofRat_zero : Float64.ofRat 0 = JSNum.fin 0 := by
  simp [Float64.ofRat]

theorem Float64.ofRat_one : Float64.ofRat 1 = JSNum.fin 1 := by
  refine Float64.ofRat_exact 1 0 (2 ^ 52) ?_ ?_ ?_ ?_ ?_ <;> norm_num

theorem Float64.add_of_fin (a b : ℚ) :
    Float64.add (JSNum.fin a) (JSNum.fin b) = Float64.ofRat (a + b) := by
  simp only [Float64.add, JSNum.fin_add_fin, Float64.round]

theorem Float64.sub_of_fin (a b : ℚ) :
    Float64.sub (JSNum.fin a) (JSNum.fin b) = Float64.ofRat (a - b) := by
  simp only [Float64.sub, JSNum.fin_sub_fin, Float64.round]

theorem Float64.mul_of_fin (a b : ℚ) :
    Float64.mul (JSNum.fin a) (JSNum.fin b) = Float64.ofRat (a * b) := by
  simp only [Float64.mul, JSNum.fin_mul_fin, Float64.round]

theorem Float64.div_of_fin (a b : ℚ) (hb : b ≠ 0) :
    Float64.div (JSNum.fin a) (JSNum.fin b) = Float64.ofRat (a / b) := by
  simp only [Float64.div, JSNum.fin_div_fin _ _ hb, Float64.round]

/-! ## C25: a constant history on doubles -/

/-- On doubles, a sum of squared deviations from the price itself stays 0. -/
theorem Float64.foldl_sq_const (l : List ℚ) (p : ℚ) (h : ∀ q ∈ l, q = p) :
    l.foldl
      (fun sum price =>
        Float64.add sum
          (Float64.mul (Float64.sub (JSNum.fin price) (JSNum.fin p))
            (Float64.sub (JSNum.fin price) (JSNum.fin p))))
      (JSNum.fin 0) = JSNum.fin 0 := by
  induction l with
  | nil => rfl
  | cons q l ih =>
    have hq : q = p := h q (List.mem_cons_self _ _)
    rw [List.foldl_cons, hq, Float64.sub_of_fin, sub_self, Float64.ofRat_zero, Float64.mul_of_fin,
      mul_zero, Float64.ofRat_zero, Float64.add_of_fin, add_zero, Float64.ofRat_zero]
    exact ih (fun x hx => h x (List.mem_cons_of_mem _ hx))

/-- The end of the volatility index on doubles when min, max and mean are the
same positive price and the deviation is 0. -/
theorem Float64.volatility_fromStats_constant (p : ℚ) (hp : 0 < p) :
    Float64.volatility_fromStats ⟨JSNum.fin p, JSNum.fin p, JSNum.fin p, JSNum.fin 0⟩
      = JSNum.fin 0 := by
  have hc : (JSNum.falsy (JSNum.fin p) || JSNum.le (JSNum.fin p) (JSNum.fin 0)) = false := by
    simp [JSNum.falsy, JSNum.le, JSNum.lt, JSNum.strictEq, hp.ne', not_lt.mpr hp.le]
  have h1 : (1 : ℚ) ≠ 0 := one_ne_zero
  simp only [Float64.volatility_fromStats, hc, Bool.false_eq_true, if_false, Float64.sub_of_fin,
    sub_self, Float64.ofRat_zero, Float64.div_of_fin _ _ hp.ne', zero_div, Float64.mul_of_fin,
    zero_mul, Float64.add_of_fin, add_zero, Float64.analytics_normalizeToRange, sub_zero,
    Float64.ofRat_one, Float64.div_of_fin _ _ h1]
  simp [JSNum.strictEq, Float64.ofRat_zero, JSNum.max, JSNum.min, JSNum.lt]

/-- The double mean of three prices of `0.1` is one spacing above `0.1`: the
sum `0.30000000000000004` is a tie rounded to even, its third rounds up. -/
theorem Float64.mean_three_tenths :
    Float64.mean [double_0_1, double_0_1, double_0_1]
      = JSNum.fin (7205759403792795 / 2 ^ 56) := by
  have a1 : Float64.add (JSNum.fin 0) (JSNum.fin double_0_1) = JSNum.fin double_0_1 := by
    rw [Float64.add_of_fin, zero_add]
    refine Float64.ofRat_exact _ (-4) 7205759403792794 ?_ ?_ ?_ ?_ ?_ <;>
      norm_num [double_0_1, abs_of_pos]
  have a2 : Float64.add (JSNum.fin double_0_1) (JSNum.fin double_0_1)
      = JSNum.fin (3602879701896397 / 2 ^ 54) := by
    have e : double_0_1 + double_0_1 = 3602879701896397 / 2 ^ 54 := by norm_num [double_0_1]
    rw [Float64.add_of_fin, e]
    refine Float64.ofRat_exact _ (-3) 7205759403792794 ?_ ?_ ?_ ?_ ?_ <;>
      norm_num [abs_of_pos]
  have a3 : Float64.add (JSNum.fin (3602879701896397 / 2 ^ 54)) (JSNum.fin double_0_1)
      = JSNum.fin (1351079888211149 / 2 ^ 52) := by
    have e : (3602879701896397 / 2 ^ 54 : ℚ) + double_0_1 = 10808639105689191 / 2 ^ 55 := by
      norm_num [double_0_1]
    rw [Float64.add_of_fin, e]
    refine Float64.ofRat_eq _ _ (-2) 5404319552844596 ?_ ?_ ?_ ?_ ?_ ?_
    · norm_num [abs_of_pos]
    · norm_num [abs_of_pos]
    · norm_num
    · rw [roundHalfEven_tie_odd _ 5404319552844595 (by norm_num) (by norm_num)]
      norm_num
    · norm_num
    · norm_num [abs_of_pos]
  have a4 : Float64.div (JSNum.fin (1351079888211149 / 2 ^ 52)) (JSNum.fin 3)
      = JSNum.fin (7205759403792795 / 2 ^ 56) := by
    rw [Float64.div_of_fin _ _ (by norm_num)]
    refine Float64.ofRat_eq _ _ (-4) 7205759403792795 ?_ ?_ ?_ ?_ ?_ ?_
    · norm_num [abs_of_pos]
    · norm_num [abs_of_pos]
    · norm_num
    · apply roundHalfEven_of_near
      rw [abs_lt]
      constructor <;> norm_num
    · norm_num
    · norm_num [abs_of_pos]
  have h3 : (([double_0_1, double_0_1, double_0_1].length : ℕ) : ℚ) = 3 := by norm_num
  rw [Float64.mean, List.foldl_cons, List.foldl_cons, List.foldl_cons, List.foldl_nil, a1, a2,
    a3, h3, a4]

/-- The double variance of three prices of `0.1` around that mean is
`2 ^ (-112)`. -/
theorem Float64.variance_three_tenths :
    Float64.variance [double_0_1, double_0_1, double_0_1]
        (JSNum.fin (7205759403792795 / 2 ^ 56))
      = JSNum.fin (1 / 2 ^ 112) := by
  have b1 : Float64.sub (JSNum.fin double_0_1) (JSNum.fin (7205759403792795 / 2 ^ 56))
      = JSNum.fin (-(1 / 2 ^ 56)) := by
    have e : double_0_1 - 7205759403792795 / 2 ^ 56 = -(1 / 2 ^ 56) := by
      norm_num [double_0_1]
    rw [Float64.sub_of_fin, e]
    refine Float64.ofRat_exact _ (-56) (-(2 ^ 52)) ?_ ?_ ?_ ?_ ?_ <;> norm_num [abs_of_pos]
  have b2 : Float64.mul (JSNum.fin (-(1 / 2 ^ 56))) (JSNum.fin (-(1 / 2 ^ 56)))
      = JSNum.fin (1 / 2 ^ 112) := by
    have e : (-(1 / 2 ^ 56) : ℚ) * (-(1 / 2 ^ 56)) = 1 / 2 ^ 112 := by norm_num
    rw [Float64.mul_of_fin, e]
    refine Float64.ofRat_exact _ (-112) (2 ^ 52) ?_ ?_ ?_ ?_ ?_ <;> norm_num [abs_of_pos]
  have b3 : Float64.add (JSNum.fin 0) (JSNum.fin (1 / 2 ^ 112)) = JSNum.fin (1 / 2 ^ 112) := by
    rw [Float64.add_of_fin, zero_add]
    refine Float64.ofRat_exact _ (-112) (2 ^ 52) ?_ ?_ ?_ ?_ ?_ <;> norm_num [abs_of_pos]
  have b4 : Float64.add (JSNum.fin (1 / 2 ^ 112)) (JSNum.fin (1 / 2 ^ 112))
      = JSNum.fin (1 / 2 ^ 111) := by
    have e : (1 / 2 ^ 112 : ℚ) + 1 / 2 ^ 112 = 1 / 2 ^ 111 := by norm_num
    rw [Float64.add_of_fin, e]
    refine Float64.ofRat_exact _ (-111) (2 ^ 52) ?_ ?_ ?_ ?_ ?_ <;> norm_num [abs_of_pos]
  have b5 : Float64.add (JSNum.fin (1 / 2 ^ 111)) (JSNum.fin (1 / 2 ^ 112))
      = JSNum.fin (3 / 2 ^ 112) := by
    have e : (1 / 2 ^ 111 : ℚ) + 1 / 2 ^ 112 = 3 / 2 ^ 112 := by norm_num
    rw [Float64.add_of_fin, e]
    refine Float64.ofRat_exact _ (-111) (3 * 2 ^ 51) ?_ ?_ ?_ ?_ ?_ <;> norm_num [abs_of_pos]
  have b6 : Float64.div (JSNum.fin (3 / 2 ^ 112)) (JSNum.fin 3) = JSNum.fin (1 / 2 ^ 112) := by
    have e : (3 / 2 ^ 112 : ℚ) / 3 = 1 / 2 ^ 112 := by norm_num
    rw [Float64.div_of_fin _ _ (by norm_num), e]
    refine Float64.ofRat_exact _ (-112) (2 ^ 52) ?_ ?_ ?_ ?_ ?_ <;> norm_num [abs_of_pos]
  have h3 : (([double_0_1, double_0_1, double_0_1].length : ℕ) : ℚ) = 3 := by norm_num
  rw [Float64.variance, List.foldl_cons, List.foldl_cons, List.foldl_cons, List.foldl_nil, b1,
    b2, b3, b4, b5, h3, b6]

/-- The exact root of `2 ^ (-112)`. -/
theorem squareRoot_pow : squareRoot (1 / 2 ^ 112) = 1 / 2 ^ 56 := by
  have hx : (1 / 2 ^ 112 : ℚ) = ((1 : ℤ) : ℚ) / (((2 ^ 112 : ℕ) : ℤ) : ℚ) := by norm_num
  have hn : (1 / 2 ^ 112 : ℚ).num = 1 := by
    rw [hx]; exact Rat.num_div_eq_of_coprime (by positivity) (by simp)
  have hd : (1 / 2 ^ 112 : ℚ).den = 2 ^ 112 := by
    have := Rat.den_div_eq_of_coprime (a := 1) (b := ((2 ^ 112 : ℕ) : ℤ)) (by positivity)
      (by simp)
    rw [hx]; exact_mod_cast this
  have hs : Nat.sqrt (2 ^ 112) = 2 ^ 56 := by
    have : (2 : ℕ) ^ 112 = 2 ^ 56 * 2 ^ 56 := by norm_num
    rw [this, Nat.sqrt_eq]
  simp only [squareRoot, hn, hd, hs]
  norm_num

/-- The double `5629499534213119 / 2 ^ 106`, about `6.9e-17`. -/
theorem Float64.ofRat_residue :
    Float64.ofRat (5629499534213119 / 2 ^ 106) = JSNum.fin (5629499534213119 / 2 ^ 106) := by
  refine Float64.ofRat_exact _ (-54) 5629499534213119 ?_ ?_ ?_ ?_ ?_ <;>
    norm_num [abs_of_pos]

/-- The end of the volatility index on doubles for min and max `0.1`, a mean
one spacing above and a deviation of `2 ^ (-56)`. -/
theorem Float64.volatility_fromStats_three_tenths :
    Float64.volatility_fromStats
        ⟨JSNum.fin double_0_1, JSNum.fin double_0_1, JSNum.fin (7205759403792795 / 2 ^ 56),
          JSNum.fin (1 / 2 ^ 56)⟩
      = JSNum.fin (5629499534213119 / 2 ^ 106) := by
  have ha : (7205759403792795 / 2 ^ 56 : ℚ) ≠ 0 := by norm_num
  have hc : (JSNum.falsy (JSNum.fin (7205759403792795 / 2 ^ 56))
      || JSNum.le (JSNum.fin (7205759403792795 / 2 ^ 56)) (JSNum.fin 0)) = false := by
    have h1 : ¬ ((7205759403792795 / 2 ^ 56 : ℚ) < 0) := by norm_num
    simp [JSNum.falsy, JSNum.le, JSNum.lt, JSNum.strictEq, h1]
  have c1 : Float64.sub (JSNum.fin double_0_1) (JSNum.fin double_0_1) = JSNum.fin 0 := by
    rw [Float64.sub_of_fin, sub_self, Float64.ofRat_zero]
  have c2 : Float64.div (JSNum.fin 0) (JSNum.fin (7205759403792795 / 2 ^ 56)) = JSNum.fin 0 := by
    rw [Float64.div_of_fin _ _ ha, zero_div, Float64.ofRat_zero]
  have c3 : Float64.div (JSNum.fin (1 / 2 ^ 56)) (JSNum.fin (7205759403792795 / 2 ^ 56))
      = JSNum.fin (5629499534213119 / 2 ^ 105) := by
    have e : (1 / 2 ^ 56 : ℚ) / (7205759403792795 / 2 ^ 56) = 1 / 7205759403792795 := by
      norm_num
    rw [Float64.div_of_fin _ _ ha, e]
    refine Float64.ofRat_eq _ _ (-53) 5629499534213119 ?_ ?_ ?_ ?_ ?_ ?_
    · norm_num [abs_of_pos]
    · norm_num [abs_of_pos]
    · norm_num
    · apply roundHalfEven_of_near
      rw [abs_lt]
      constructor <;> norm_num
    · norm_num
    · norm_num [abs_of_pos]
  have c4 : Float64.mul (JSNum.fin 0) (JSNum.fin (5 / 10)) = JSNum.fin 0 := by
    rw [Float64.mul_of_fin, zero_mul, Float64.ofRat_zero]
  have c5 : Float64.mul (JSNum.fin (5629499534213119 / 2 ^ 105)) (JSNum.fin (5 / 10))
      = JSNum.fin (5629499534213119 / 2 ^ 106) := by
    have e : (5629499534213119 / 2 ^ 105 : ℚ) * (5 / 10) = 5629499534213119 / 2 ^ 106 := by
      norm_num
    rw [Float64.mul_of_fin, e, Float64.ofRat_residue]
  have c6 : Float64.add (JSNum.fin 0) (JSNum.fin (5629499534213119 / 2 ^ 106))
      = JSNum.fin (5629499534213119 / 2 ^ 106) := by
    rw [Float64.add_of_fin, zero_add, Float64.ofRat_residue]
  have c7 : Float64.sub (JSNum.fin (5629499534213119 / 2 ^ 106)) (JSNum.fin 0)
      = JSNum.fin (5629499534213119 / 2 ^ 106) := by
    rw [Float64.sub_of_fin, sub_zero, Float64.ofRat_residue]
  have c8 : Float64.sub (JSNum.fin 1) (JSNum.fin 0) = JSNum.fin 1 := by
    rw [Float64.sub_of_fin, sub_zero, Float64.ofRat_one]
  have c9 : Float64.div (JSNum.fin (5629499534213119 / 2 ^ 106)) (JSNum.fin 1)
      = JSNum.fin (5629499534213119 / 2 ^ 106) := by
    rw [Float64.div_of_fin _ _ one_ne_zero, div_one, Float64.ofRat_residue]
  have c10 : Float64.mul (JSNum.fin (5629499534213119 / 2 ^ 106)) (JSNum.fin 1)
      = JSNum.fin (5629499534213119 / 2 ^ 106) := by
    rw [Float64.mul_of_fin, mul_one, Float64.ofRat_residue]
  have c11 : Float64.add (JSNum.fin (5629499534213119 / 2 ^ 106)) (JSNum.fin 0)
      = JSNum.fin (5629499534213119 / 2 ^ 106) := by
    rw [Float64.add_of_fin, add_zero, Float64.ofRat_residue]
  have hse : JSNum.strictEq (JSNum.fin 1) (JSNum.fin 0) = false := by
    simp [JSNum.strictEq]
  have hmax : Max.max (0 : ℚ) (5629499534213119 / 2 ^ 106) = 5629499534213119 / 2 ^ 106 :=
    max_eq_right (by norm_num)
  have hmin : Min.min (1 : ℚ) (5629499534213119 / 2 ^ 106) = 5629499534213119 / 2 ^ 106 :=
    min_eq_right (by norm_num)
  rw [Float64.volatility_fromStats, hc]
  simp only [Bool.false_eq_true, if_false]
  rw [c1, c2, c3, c4, c5, c6, Float64.analytics_normalizeToRange, hse]
  simp only [Bool.false_eq_true, if_false]
  rw [c7, c8, c9, c10, c11, JSNum.max_fin_fin, hmax, JSNum.min_fin_fin, hmin,
    JSNum.max_fin_fin, hmax, JSNum.min_fin_fin, hmin]

/-- C25 (as stated, refuted): the three strictly positive prices of the
history `[0.1, 0.1, 0.1]` are equal, yet their mean on doubles is
`0.10000000000000002`, one spacing above `0.1`, and the volatility index is
`5629499534213119 / 2 ^ 106`, about `6.9e-17`, not 0. -/
theorem volatilityIndex_constant_history_counterexample :
    (0 : ℚ) < double_0_1
    ∧ Float64.mean [double_0_1, double_0_1, double_0_1]
        = JSNum.fin (double_0_1 + 1 / 2 ^ 56)
    ∧ Float64.analytics_calculateVolatilityIndex doubleEnv (some rangeItem)
        (some { prices := some [double_0_1, double_0_1, double_0_1] })
      = some (JSNum.fin (5629499534213119 / 2 ^ 106))
    ∧ Float64.analytics_calculateVolatilityIndex doubleEnv (some rangeItem)
        (some { prices := some [double_0_1, double_0_1, double_0_1] })
      ≠ some (JSNum.fin 0) := by
  have hpos : (0 : ℚ) < double_0_1 := by norm_num [double_0_1]
  have hmean : Float64.mean [double_0_1, double_0_1, double_0_1]
      = JSNum.fin (double_0_1 + 1 / 2 ^ 56) := by
    have e : double_0_1 + 1 / 2 ^ 56 = 7205759403792795 / 2 ^ 56 := by norm_num [double_0_1]
    rw [e, Float64.mean_three_tenths]
  have hf : [double_0_1, double_0_1, double_0_1].filter (fun p => decide (p > 0))
      = [double_0_1, double_0_1, double_0_1] := by
    simp [List.filter, hpos]
  have hsq : Float64.sqrt squareRoot (JSNum.fin (1 / 2 ^ 112)) = JSNum.fin (1 / 2 ^ 56) := by
    have h0 : ¬ ((1 / 2 ^ 112 : ℚ) < 0) := by norm_num
    rw [Float64.sqrt, if_neg h0, squareRoot_pow]
  have hst : Float64.volatility_historyStats doubleEnv.sqrt
      (some { prices := some [double_0_1, double_0_1, double_0_1] })
      = some ⟨JSNum.fin double_0_1, JSNum.fin double_0_1,
          JSNum.fin (7205759403792795 / 2 ^ 56), JSNum.fin (1 / 2 ^ 56)⟩ := by
    have hlen : [double_0_1, double_0_1, double_0_1].length > 0 := by simp
    simp only [Float64.volatility_historyStats, hlen, if_true, hf, List.foldl, min_self,
      max_self, Float64.mean_three_tenths, Float64.variance_three_tenths, doubleEnv, hsq]
  have hfb : Float64.volatility_needsFallback
      (some ⟨JSNum.fin double_0_1, JSNum.fin double_0_1,
          JSNum.fin (7205759403792795 / 2 ^ 56), JSNum.fin (1 / 2 ^ 56)⟩) = false := by
    have h1 : (7205759403792795 / 2 ^ 56 : ℚ) ≠ 0 := by norm_num
    simp [Float64.volatility_needsFallback, JSNum.falsy, hpos.ne', h1]
  have hval : Float64.analytics_calculateVolatilityIndex doubleEnv (some rangeItem)
      (some { prices := some [double_0_1, double_0_1, double_0_1] })
      = some (JSNum.fin (5629499534213119 / 2 ^ 106)) := by
    simp only [Float64.analytics_calculateVolatilityIndex, Option.isNone_some,
      Bool.false_eq_true, and_false, if_false, hst, hfb,
      Float64.volatility_fromStats_three_tenths]
  refine ⟨hpos, hmean, hval, ?_⟩
  rw [hval]
  intro h
  have h2 : (5629499534213119 / 2 ^ 106 : ℚ) = 0 := by
    have := Option.some.inj h
    exact JSNum.fin.inj this
  norm_num at h2

/-- C25 (amended): for a price history that holds a strictly positive price
`p`, whose strictly positive prices are all equal to `p` and whose mean, as the
code computes it on doubles (the sum from left to right, divided by the
count), is `p` itself, and a `Math.sqrt` with `sqrt(0) = 0`, the volatility
index is exactly 0 whatever the snapshot, present or absent. -/
theorem volatilityIndex_constant_history (env : Env) (hsqrt : env.sqrt 0 = 0)
    (itemData : Option ItemData) (ps : List ℚ) (p : ℚ) (hp : 0 < p) (hmem : p ∈ ps)
    (hall : ∀ q ∈ ps, 0 < q → q = p)
    (hmean : Float64.mean (ps.filter (fun q => decide (q > 0))) = JSNum.fin p) :
    Float64.analytics_calculateVolatilityIndex env itemData (some { prices := some ps })
      = some (JSNum.fin 0) := by
  have hlen : ps.length > 0 := List.length_pos_of_mem hmem
  have hin : p ∈ ps.filter (fun q => decide (q > 0)) := by
    rw [List.mem_filter]; exact ⟨hmem, by simpa using hp⟩
  have hfs : ∀ q ∈ ps.filter (fun q => decide (q > 0)), q = p := by
    intro q hq
    rw [List.mem_filter] at hq
    exact hall q hq.1 (by simpa using hq.2)
  have hst : Float64.volatility_historyStats env.sqrt (some { prices := some ps })
      = some ⟨JSNum.fin p, JSNum.fin p, JSNum.fin p, JSNum.fin 0⟩ := by
    simp only [Float64.volatility_historyStats, hlen, if_true]
    cases hf : ps.filter (fun q => decide (q > 0)) with
    | nil => rw [hf] at hin; cases hin
    | cons q0 rest =>
      rw [hf] at hfs hmean
      have h0 : q0 = p := hfs q0 (List.mem_cons_self _ _)
      subst h0
      have hrest : ∀ q ∈ rest, q = q0 := fun q hq => hfs q (List.mem_cons_of_mem _ hq)
      have hn : (((q0 :: rest).length : ℕ) : ℚ) ≠ 0 := by
        simp only [List.length_cons]; push_cast; positivity
      simp only [hmean, Float64.variance, Float64.foldl_sq_const _ q0 hfs,
        Float64.div_of_fin _ _ hn, zero_div, Float64.ofRat_zero, Float64.sqrt, lt_irrefl, if_false,
        hsqrt, foldl_min_const rest q0 hrest, foldl_max_const rest q0 hrest]
  have hfb : Float64.volatility_needsFallback
      (some ⟨JSNum.fin p, JSNum.fin p, JSNum.fin p, JSNum.fin 0⟩) = false := by
    simp [Float64.volatility_needsFallback, JSNum.falsy, hp.ne']
  simp only [Float64.analytics_calculateVolatilityIndex, Option.isNone_some, Bool.false_eq_true,
    and_false, if_false, hst, hfb, Float64.volatility_fromStats_constant p hp]

/-- The double mean of three prices of 3 is 3. -/
theorem Float64.mean_three_threes : Float64.mean [3, 3, 3] = JSNum.fin 3 := by
  have a1 : Float64.ofRat (0 + 3) = JSNum.fin 3 := by
    have e : (0 : ℚ) + 3 = 3 := by norm_num
    rw [e]
    refine Float64.ofRat_exact 3 1 (3 * 2 ^ 51) ?_ ?_ ?_ ?_ ?_ <;> norm_num
  have a2 : Float64.ofRat (3 + 3) = JSNum.fin 6 := by
    have e : (3 : ℚ) + 3 = 6 := by norm_num
    rw [e]
    refine Float64.ofRat_exact 6 2 (3 * 2 ^ 51) ?_ ?_ ?_ ?_ ?_ <;> norm_num
  have a3 : Float64.ofRat (6 + 3) = JSNum.fin 9 := by
    have e : (6 : ℚ) + 3 = 9 := by norm_num
    rw [e]
    refine Float64.ofRat_exact 9 3 (9 * 2 ^ 49) ?_ ?_ ?_ ?_ ?_ <;> norm_num
  have a4 : Float64.ofRat (9 / 3) = JSNum.fin 3 := by
    have e : (9 : ℚ) / 3 = 3 := by norm_num
    rw [e]
    refine Float64.ofRat_exact 3 1 (3 * 2 ^ 51) ?_ ?_ ?_ ?_ ?_ <;> norm_num
  have h3 : (([(3 : ℚ), 3, 3].length : ℕ) : ℚ) = 3 := by norm_num
  simp only [Float64.mean, List.foldl, Float64.add_of_fin, a1, a2, a3, h3,
    Float64.div_of_fin _ _ (by norm_num : (3 : ℚ) ≠ 0), a4]

/-- Witness of C25: the history `[3, 0, 3, -1, 3]`, whose double mean is 3,
against a snapshot with a wide price range. -/
theorem volatilityIndex_constant_history_witness :
    exampleEnv.sqrt 0 = 0 ∧ (0 : ℚ) < 3 ∧ (3 : ℚ) ∈ [3, 0, 3, -1, 3]
    ∧ Float64.mean (([3, 0, 3, -1, 3] : List ℚ).filter (fun q => decide (q > 0))) = JSNum.fin 3
    ∧ Float64.analytics_calculateVolatilityIndex exampleEnv (some rangeItem)
        (some { prices := some [3, 0, 3, -1, 3] }) = some (JSNum.fin 0) := by
  have hs : exampleEnv.sqrt 0 = 0 := by simp [exampleEnv, exampleSqrt]
  have hmem : (3 : ℚ) ∈ [3, 0, 3, -1, 3] := by simp
  have hall : ∀ q ∈ [(3 : ℚ), 0, 3, -1, 3], 0 < q → q = 3 := by
    intro q hq hpos
    simp only [List.mem_cons, List.mem_singleton, List.not_mem_nil, or_false] at hq
    rcases hq with h | h | h | h | h <;> subst h <;> first | rfl | (norm_num at hpos)
  have hf : ([3, 0, 3, -1, 3] : List ℚ).filter (fun q => decide (q > 0)) = [3, 3, 3] := by
    norm_num [List.filter]
  have hmean : Float64.mean (([3, 0, 3, -1, 3] : List ℚ).filter (fun q => decide (q > 0)))
      = JSNum.fin 3 := by
    rw [hf, Float64.mean_three_threes]
  exact ⟨hs, by norm_num, hmem, hmean,
    volatilityIndex_constant_history exampleEnv hs (some rangeItem) [3, 0, 3, -1, 3] 3
      (by norm_num) hmem hall hmean⟩

end SteamTable
